import Mathlib

set_option maxRecDepth 8000

/-!
Verification of the digital-archaeology CPU emulator family.

This file gives a shallow embedding, in Lean 4, of the instruction-set
emulation cores of the three CPU variants (4-bit `micro4`, 8-bit `micro8`,
16-bit `micro16`) and of the byte-emission / relative-branch logic of the
16-bit two-pass assembler, translated from the C sources
(`src/micro4/cpu.c`, `src/micro8/cpu.c`, `src/micro16/cpu.c`,
`src/micro16/assembler.c`), followed by theorems about the embedded code.

Modelling conventions:
* C fixed-width unsigned integers are modelled as `Nat` with explicit
  masking (`% 256`, `% 65536`, ...) at exactly the points where the C
  types truncate: every store into a typed field or array cell masks to
  the field's width, and reads of typed storage go through masking
  helpers, so the embedding is total on arbitrary `Nat`-valued states and
  agrees with the C semantics on all states representable in C.
* C arrays (`memory`, registers, ports, assembler output) are modelled as
  functions `Nat → Nat` updated with `Function.update`.
* `snprintf`-formatted diagnostic strings are modelled as inductive
  message values carrying exactly the numbers the C format string
  interpolates.
* C `while` loops whose counter provably decreases once per iteration
  (REP string loops, shift loops, ENTER's level loop) are modelled by
  structural recursion on the iteration count read off at loop entry.
-/

namespace DigArch

/-! ## The 4-bit CPU (src/micro4/cpu.c) -/

namespace Micro4

/-- Memory size of the 4-bit CPU: 256 nibbles. -/
def MEM_SIZE : Nat := 256

/-- Diagnostic messages produced by `snprintf` into `error_msg`, modelled
as structured values carrying the interpolated numbers. -/
inductive ErrMsg where
  | noMsg : ErrMsg
  | pcOutOfBounds (pc : Nat) : ErrMsg
  | unknownOpcode (opcode : Nat) (addr : Nat) : ErrMsg
  deriving DecidableEq

/-- The `Micro4CPU` struct. The accumulator `a` is a nibble, `pc` is
8-bit, memory is 256 nibbles (each stored masked to 4 bits). -/
structure CPU where
  pc : Nat
  a : Nat
  z : Bool
  ir : Nat
  mar : Nat
  mdr : Nat
  memory : Nat → Nat
  halted : Bool
  error : Bool
  error_msg : ErrMsg
  cycles : Nat
  instructions : Nat

/-- `cpu_read_mem`: read a nibble (`memory[addr] & NIBBLE_MASK`). -/
def cpu_read_mem (cpu : CPU) (addr : Nat) : Nat :=
  cpu.memory (addr % 256) % 16

/-- `cpu_write_mem`: write a nibble (`memory[addr] = value & NIBBLE_MASK`). -/
def cpu_write_mem (cpu : CPU) (addr value : Nat) : CPU :=
  { cpu with memory := Function.update cpu.memory (addr % 256) (value % 16) }

/-- `fetch_byte`: read two nibbles at `pc`, incrementing the 8-bit `pc`
twice, and pack them as `(high << 4) | low`. -/
def fetch_byte (cpu : CPU) : CPU × Nat :=
  let high := cpu.memory (cpu.pc % 256) % 16
  let pc1 := (cpu.pc + 1) % 256
  let low := cpu.memory pc1 % 16
  ({ cpu with pc := (pc1 + 1) % 256 }, high * 16 + low)

/-- The body of `cpu_step`'s `switch (opcode)`. Returns the new state,
the cycle count, and `true` for the normal exit (`break`, followed by the
`instructions++ / cycles +=` bookkeeping) or `false` for the early
`return` in the unknown-opcode default case. -/
def exec (cpu : CPU) (opcode operand cycles : Nat) : CPU × Nat × Bool :=
  match opcode with
  | 0x0 =>
      ({ cpu with halted := true }, cycles + 1, true)
  | 0x1 =>
      let f := fetch_byte cpu
      let cpu := { f.1 with mar := f.2 }
      let v := cpu_read_mem cpu f.2
      let cpu := { cpu with mdr := v, a := v, z := decide (v = 0) }
      (cpu, cycles + 2 + 1, true)
  | 0x2 =>
      let f := fetch_byte cpu
      let cpu := { f.1 with mar := f.2, mdr := f.1.a }
      (cpu_write_mem cpu f.2 cpu.a, cycles + 2 + 1, true)
  | 0x3 =>
      let f := fetch_byte cpu
      let cpu := { f.1 with mar := f.2 }
      let v := cpu_read_mem cpu f.2
      let a2 := (cpu.a % 16 + v) % 16
      ({ cpu with mdr := v, a := a2, z := decide (a2 = 0) }, cycles + 2 + 1, true)
  | 0x4 =>
      let f := fetch_byte cpu
      let cpu := { f.1 with mar := f.2 }
      let v := cpu_read_mem cpu f.2
      let a2 := (cpu.a % 16 + 16 - v) % 16
      ({ cpu with mdr := v, a := a2, z := decide (a2 = 0) }, cycles + 2 + 1, true)
  | 0x5 =>
      let f := fetch_byte cpu
      ({ f.1 with pc := f.2 % 256 }, cycles + 2, true)
  | 0x6 =>
      let f := fetch_byte cpu
      let cpu := if f.1.z then { f.1 with pc := f.2 % 256 } else f.1
      (cpu, cycles + 2 + 1, true)
  | 0x7 =>
      ({ cpu with a := operand % 16, z := decide (operand % 16 = 0) }, cycles + 1, true)
  | _ =>
      ({ cpu with error := true,
                  error_msg := .unknownOpcode opcode ((cpu.pc + 254) % 256),
                  halted := true }, cycles, false)

/-- `cpu_step` of `src/micro4/cpu.c`: returns the stepped CPU and the
cycle count the C function returns. -/
def cpu_step (cpu : CPU) : CPU × Nat :=
  if cpu.halted then (cpu, 0)
  else if MEM_SIZE - 1 ≤ cpu.pc % 256 then
    ({ cpu with error := true, error_msg := .pcOutOfBounds (cpu.pc % 256),
                halted := true }, 0)
  else
    let f := fetch_byte cpu
    let cpu1 := { f.1 with ir := f.2 }
    let opcode := f.2 / 16 % 16
    let operand := f.2 % 16
    match exec cpu1 opcode operand 2 with
    | (c2, cyc, true) =>
        ({ c2 with instructions := c2.instructions + 1,
                   cycles := c2.cycles + cyc }, cyc)
    | (c2, cyc, false) => (c2, cyc)

end Micro4

/-! ## The 8-bit CPU (src/micro8/cpu.c) -/

namespace Micro8

/-- Memory size of the 8-bit CPU: 64 KB. -/
def MEM_SIZE : Nat := 65536

def FLAG_C : Nat := 0x01
def FLAG_O : Nat := 0x04
def FLAG_Z : Nat := 0x40
def FLAG_S : Nat := 0x80

/-- Interrupt handler entry point. -/
def INT_VECTOR : Nat := 0x0008

/-- Diagnostic messages (structured stand-ins for the `snprintf` strings). -/
inductive ErrMsg where
  | noMsg : ErrMsg
  | unknownOpcode (opcode : Nat) (addr : Nat) : ErrMsg
  deriving DecidableEq

/-- The `Micro8CPU` struct: 8 byte-wide registers, 16-bit `pc`/`sp`,
8-bit flags, interrupt-enable and pending bits, 64 KB memory, 256 ports. -/
structure CPU where
  r : Nat → Nat
  pc : Nat
  sp : Nat
  flags : Nat
  ie : Bool
  int_pending : Bool
  ir : Nat
  mar : Nat
  mdr : Nat
  memory : Nat → Nat
  ports : Nat → Nat
  halted : Bool
  error : Bool
  error_msg : ErrMsg
  cycles : Nat
  instructions : Nat

/-- Read a general register (`uint8_t r[8]`). -/
def reg (cpu : CPU) (i : Nat) : Nat := cpu.r (i % 8) % 256

/-- Write a general register, truncating to 8 bits. -/
def set_r (cpu : CPU) (i v : Nat) : CPU :=
  { cpu with r := Function.update cpu.r (i % 8) (v % 256) }

/-- `cpu_get_hl`: `(r[R5] << 8) | r[R6]`. -/
def cpu_get_hl (cpu : CPU) : Nat := reg cpu 5 * 256 + reg cpu 6

/-- `cpu_set_hl`. -/
def cpu_set_hl (cpu : CPU) (v : Nat) : CPU :=
  let v := v % 65536
  set_r (set_r cpu 5 (v >>> 8)) 6 (v &&& 0xFF)

/-- `cpu_get_bc`: `(r[R1] << 8) | r[R2]`. -/
def cpu_get_bc (cpu : CPU) : Nat := reg cpu 1 * 256 + reg cpu 2

/-- `cpu_set_bc`. -/
def cpu_set_bc (cpu : CPU) (v : Nat) : CPU :=
  let v := v % 65536
  set_r (set_r cpu 1 (v >>> 8)) 2 (v &&& 0xFF)

/-- `cpu_get_de`: `(r[R3] << 8) | r[R4]`. -/
def cpu_get_de (cpu : CPU) : Nat := reg cpu 3 * 256 + reg cpu 4

/-- `cpu_set_de`. -/
def cpu_set_de (cpu : CPU) (v : Nat) : CPU :=
  let v := v % 65536
  set_r (set_r cpu 3 (v >>> 8)) 4 (v &&& 0xFF)

/-- `update_flags_zs`: set Z iff the 8-bit result is zero and S from its
top bit. -/
def update_flags_zs (cpu : CPU) (result : Nat) : CPU :=
  let result := result % 256
  let f1 := if result = 0 then cpu.flags % 256 ||| FLAG_Z
            else cpu.flags % 256 &&& (0xFF ^^^ FLAG_Z)
  let f2 := if result &&& 0x80 ≠ 0 then f1 ||| FLAG_S
            else f1 &&& (0xFF ^^^ FLAG_S)
  { cpu with flags := f2 }

/-- `update_flags_add`: Z/S from the truncated result, C iff the 16-bit
sum exceeds `0xFF`, O from the two's-complement overflow test. -/
def update_flags_add (cpu : CPU) (a b result : Nat) : CPU :=
  let a := a % 256
  let b := b % 256
  let result := result % 65536
  let res8 := result % 256
  let cpu := update_flags_zs cpu res8
  let f1 := if 0xFF < result then cpu.flags ||| FLAG_C
            else cpu.flags &&& (0xFF ^^^ FLAG_C)
  let f2 := if (a ^^^ res8) &&& (b ^^^ res8) &&& 0x80 ≠ 0 then f1 ||| FLAG_O
            else f1 &&& (0xFF ^^^ FLAG_O)
  { cpu with flags := f2 }

/-- `update_flags_sub`: Z/S from the truncated result, C (borrow) iff
`a < b`, O from the two's-complement overflow test. -/
def update_flags_sub (cpu : CPU) (a b result : Nat) : CPU :=
  let a := a % 256
  let b := b % 256
  let result := result % 65536
  let res8 := result % 256
  let cpu := update_flags_zs cpu res8
  let f1 := if a < b then cpu.flags ||| FLAG_C
            else cpu.flags &&& (0xFF ^^^ FLAG_C)
  let f2 := if (a ^^^ b) &&& (a ^^^ res8) &&& 0x80 ≠ 0 then f1 ||| FLAG_O
            else f1 &&& (0xFF ^^^ FLAG_O)
  { cpu with flags := f2 }

/-- `update_flags_logic`: Z/S from the result; clear C and O. -/
def update_flags_logic (cpu : CPU) (result : Nat) : CPU :=
  let cpu := update_flags_zs cpu result
  { cpu with flags := cpu.flags &&& (0xFF ^^^ (FLAG_C ||| FLAG_O)) }

/-- `cpu_read_mem`: no bounds check (the 16-bit address covers exactly
the 64 KB array); sets `mar`/`mdr`. -/
def cpu_read_mem (cpu : CPU) (addr : Nat) : CPU × Nat :=
  let addr := addr % 65536
  let v := cpu.memory addr % 256
  ({ cpu with mar := addr, mdr := v }, v)

/-- `cpu_write_mem`. -/
def cpu_write_mem (cpu : CPU) (addr value : Nat) : CPU :=
  let addr := addr % 65536
  let value := value % 256
  { cpu with mar := addr, mdr := value,
             memory := Function.update cpu.memory addr value }

/-- `fetch_byte`: read at `pc`, then `pc++`. -/
def fetch_byte (cpu : CPU) : CPU × Nat :=
  let rb := cpu_read_mem cpu cpu.pc
  ({ rb.1 with pc := (rb.1.pc + 1) % 65536 }, rb.2)

/-- `fetch_word`: two bytes, little-endian. -/
def fetch_word (cpu : CPU) : CPU × Nat :=
  let lo := fetch_byte cpu
  let hi := fetch_byte lo.1
  (hi.1, lo.2 ||| hi.2 <<< 8)

/-- `push_byte`: write at `sp`, then `sp--`. -/
def push_byte (cpu : CPU) (value : Nat) : CPU :=
  let cpu := cpu_write_mem cpu cpu.sp value
  { cpu with sp := (cpu.sp + 65535) % 65536 }

/-- `pop_byte`: `sp++`, then read at `sp`. -/
def pop_byte (cpu : CPU) : CPU × Nat :=
  let cpu := { cpu with sp := (cpu.sp + 1) % 65536 }
  cpu_read_mem cpu cpu.sp

/-- `push_word`: high byte first, then low byte. -/
def push_word (cpu : CPU) (value : Nat) : CPU :=
  let value := value % 65536
  let cpu := push_byte cpu (value >>> 8)
  push_byte cpu (value &&& 0xFF)

/-- `pop_word`: low byte, then high byte. -/
def pop_word (cpu : CPU) : CPU × Nat :=
  let lo := pop_byte cpu
  let hi := pop_byte lo.1
  (hi.1, lo.2 ||| hi.2 <<< 8)

/-- `cpu_request_interrupt`: just records the pending bit. -/
def cpu_request_interrupt (cpu : CPU) : CPU :=
  { cpu with int_pending := true }

/-- `handle_interrupt`: when enabled and pending, clear both bits, push
`pc` then `flags`, and jump to `INT_VECTOR`. -/
def handle_interrupt (cpu : CPU) : CPU :=
  if cpu.ie ∧ cpu.int_pending then
    let cpu := { cpu with int_pending := false, ie := false }
    let cpu := push_word cpu cpu.pc
    let cpu := push_byte cpu cpu.flags
    { cpu with pc := INT_VECTOR }
  else cpu

/-- Sign-extend an 8-bit byte to the 16-bit two's-complement residue. -/
def sx8 (b : Nat) : Nat :=
  let b := b % 256
  if b < 128 then b else b + 65280

/-- 16-bit wrapping subtraction (C `uint16_t` arithmetic). -/
def sub16 (a b : Nat) : Nat := (a % 65536 + (65536 - b % 65536)) % 65536

/-- The if/else-if opcode dispatch of `micro8`'s `cpu_step`. Returns the
new state, the cycle count, and `true` for the normal exit or `false`
for the early `return` in the unknown-opcode branch. -/
def exec (cpu : CPU) (opcode cycles : Nat) : CPU × Nat × Bool :=
  if opcode = 0x00 then (cpu, cycles + 1, true)
  else if opcode = 0x01 then ({ cpu with halted := true }, cycles + 1, true)
  else if 0x06 ≤ opcode ∧ opcode ≤ 0x0D then
    let r := opcode - 0x06
    let f := fetch_byte cpu
    (set_r f.1 r f.2, cycles + 2, true)
  else if 0x0E ≤ opcode ∧ opcode ≤ 0x15 then
    let r := opcode - 0x0E
    let f := fetch_word cpu
    let rb := cpu_read_mem f.1 f.2
    (set_r rb.1 r rb.2, cycles + 4, true)
  else if 0x16 ≤ opcode ∧ opcode ≤ 0x1D then
    let r := opcode - 0x16
    let f := fetch_byte cpu
    let rb := cpu_read_mem f.1 f.2
    (set_r rb.1 r rb.2, cycles + 3, true)
  else if 0x1E ≤ opcode ∧ opcode ≤ 0x25 then
    let r := opcode - 0x1E
    let f := fetch_word cpu
    (cpu_write_mem f.1 f.2 (reg f.1 r), cycles + 4, true)
  else if 0x26 ≤ opcode ∧ opcode ≤ 0x2D then
    let r := opcode - 0x26
    let f := fetch_byte cpu
    (cpu_write_mem f.1 f.2 (reg f.1 r), cycles + 3, true)
  else if opcode = 0x2E then
    let f := fetch_byte cpu
    let r := f.2 &&& 0x07
    let rb := cpu_read_mem f.1 (cpu_get_hl f.1)
    (set_r rb.1 r rb.2, cycles + 3, true)
  else if opcode = 0x2F then
    let f := fetch_byte cpu
    let r := f.2 &&& 0x07
    (cpu_write_mem f.1 (cpu_get_hl f.1) (reg f.1 r), cycles + 3, true)
  else if opcode = 0x30 then
    let f := fetch_byte cpu
    let r := f.2 &&& 0x07
    let fo := fetch_byte f.1
    let addr := (cpu_get_hl fo.1 + sx8 fo.2) % 65536
    let rb := cpu_read_mem fo.1 addr
    (set_r rb.1 r rb.2, cycles + 4, true)
  else if opcode = 0x31 then
    let f := fetch_byte cpu
    let r := f.2 &&& 0x07
    let fo := fetch_byte f.1
    let addr := (cpu_get_hl fo.1 + sx8 fo.2) % 65536
    (cpu_write_mem fo.1 addr (reg fo.1 r), cycles + 4, true)
  else if opcode = 0x32 then
    let f := fetch_word cpu
    (cpu_set_hl f.1 f.2, cycles + 3, true)
  else if opcode = 0x33 then
    let f := fetch_word cpu
    (cpu_set_bc f.1 f.2, cycles + 3, true)
  else if opcode = 0x34 then
    let f := fetch_word cpu
    (cpu_set_de f.1 f.2, cycles + 3, true)
  else if opcode = 0x35 then
    let f := fetch_word cpu
    ({ f.1 with sp := f.2 % 65536 }, cycles + 3, true)
  else if opcode = 0x36 then
    (cpu_set_hl cpu (cpu.sp % 65536), cycles + 2, true)
  else if opcode = 0x37 then
    ({ cpu with sp := cpu_get_hl cpu }, cycles + 2, true)
  else if opcode = 0x38 then
    let f := fetch_byte cpu
    let r := f.2 &&& 0x07
    let fi := fetch_byte f.1
    let v := reg fi.1 r &&& fi.2
    (update_flags_logic (set_r fi.1 r v) v, cycles + 3, true)
  else if opcode = 0x39 then
    let f := fetch_byte cpu
    let r := f.2 &&& 0x07
    let fi := fetch_byte f.1
    let v := reg fi.1 r ||| fi.2
    (update_flags_logic (set_r fi.1 r v) v, cycles + 3, true)
  else if opcode = 0x3A then
    let f := fetch_byte cpu
    let r := f.2 &&& 0x07
    let fi := fetch_byte f.1
    let v := reg fi.1 r ^^^ fi.2
    (update_flags_logic (set_r fi.1 r v) v, cycles + 3, true)
  else if opcode = 0x3B then
    let f := fetch_byte cpu
    let r := f.2 &&& 0x07
    let val := reg f.1 r
    let cpu := { f.1 with flags := f.1.flags % 256 &&& (0xFF ^^^ FLAG_C) |||
                            (if val &&& 0x80 ≠ 0 then FLAG_C else 0) }
    let v := (val <<< 1) % 256
    (update_flags_zs (set_r cpu r v) v, cycles + 2, true)
  else if opcode = 0x3C then
    let f := fetch_byte cpu
    let r := f.2 &&& 0x07
    let val := reg f.1 r
    let cpu := { f.1 with flags := f.1.flags % 256 &&& (0xFF ^^^ FLAG_C) |||
                            (if val &&& 0x01 ≠ 0 then FLAG_C else 0) }
    let v := val >>> 1
    (update_flags_zs (set_r cpu r v) v, cycles + 2, true)
  else if opcode = 0x3D then
    let f := fetch_byte cpu
    let r := f.2 &&& 0x07
    let val := reg f.1 r
    let cpu := { f.1 with flags := f.1.flags % 256 &&& (0xFF ^^^ FLAG_C) |||
                            (if val &&& 0x01 ≠ 0 then FLAG_C else 0) }
    let v := (val >>> 1) ||| (val &&& 0x80)
    (update_flags_zs (set_r cpu r v) v, cycles + 2, true)
  else if opcode = 0x3E then
    let f := fetch_byte cpu
    let r := f.2 &&& 0x07
    let val := reg f.1 r
    let carry_in := if f.1.flags &&& FLAG_C ≠ 0 then 1 else 0
    let cpu := { f.1 with flags := f.1.flags % 256 &&& (0xFF ^^^ FLAG_C) |||
                            (if val &&& 0x80 ≠ 0 then FLAG_C else 0) }
    let v := ((val <<< 1) ||| carry_in) % 256
    (update_flags_zs (set_r cpu r v) v, cycles + 2, true)
  else if opcode = 0x3F then
    let f := fetch_byte cpu
    let r := f.2 &&& 0x07
    let val := reg f.1 r
    let carry_in := if f.1.flags &&& FLAG_C ≠ 0 then 0x80 else 0
    let cpu := { f.1 with flags := f.1.flags % 256 &&& (0xFF ^^^ FLAG_C) |||
                            (if val &&& 0x01 ≠ 0 then FLAG_C else 0) }
    let v := (val >>> 1) ||| carry_in
    (update_flags_zs (set_r cpu r v) v, cycles + 2, true)
  else if 0x40 ≤ opcode ∧ opcode ≤ 0x47 then
    let src := opcode &&& 0x07
    let result := reg cpu 0 + reg cpu src
    let cpu := update_flags_add cpu (reg cpu 0) (reg cpu src) result
    (set_r cpu 0 result, cycles + 1, true)
  else if 0x48 ≤ opcode ∧ opcode ≤ 0x4F then
    let src := opcode &&& 0x07
    let carry := if cpu.flags &&& FLAG_C ≠ 0 then 1 else 0
    let result := reg cpu 0 + reg cpu src + carry
    let cpu := update_flags_add cpu (reg cpu 0) (reg cpu src + carry) result
    (set_r cpu 0 result, cycles + 1, true)
  else if 0x50 ≤ opcode ∧ opcode ≤ 0x57 then
    let src := opcode &&& 0x07
    let result := sub16 (reg cpu 0) (reg cpu src)
    let cpu := update_flags_sub cpu (reg cpu 0) (reg cpu src) result
    (set_r cpu 0 result, cycles + 1, true)
  else if 0x58 ≤ opcode ∧ opcode ≤ 0x5F then
    let src := opcode &&& 0x07
    let borrow := if cpu.flags &&& FLAG_C ≠ 0 then 1 else 0
    let result := sub16 (reg cpu 0) (reg cpu src + borrow)
    let cpu := update_flags_sub cpu (reg cpu 0) (reg cpu src + borrow) result
    (set_r cpu 0 result, cycles + 1, true)
  else if 0x60 ≤ opcode ∧ opcode ≤ 0x67 then
    let r := opcode &&& 0x07
    let f := fetch_byte cpu
    let result := reg f.1 r + f.2
    let cpu := update_flags_add f.1 (reg f.1 r) f.2 result
    (set_r cpu r result, cycles + 2, true)
  else if 0x68 ≤ opcode ∧ opcode ≤ 0x6F then
    let r := opcode &&& 0x07
    let f := fetch_byte cpu
    let result := sub16 (reg f.1 r) f.2
    let cpu := update_flags_sub f.1 (reg f.1 r) f.2 result
    (set_r cpu r result, cycles + 2, true)
  else if 0x70 ≤ opcode ∧ opcode ≤ 0x77 then
    let r := opcode &&& 0x07
    let old := reg cpu r
    let cpu := set_r cpu r (old + 1)
    let cpu := update_flags_zs cpu (reg cpu r)
    let cpu := { cpu with flags := if old = 0x7F then cpu.flags ||| FLAG_O
                                   else cpu.flags &&& (0xFF ^^^ FLAG_O) }
    (cpu, cycles + 1, true)
  else if 0x78 ≤ opcode ∧ opcode ≤ 0x7F then
    let r := opcode &&& 0x07
    let old := reg cpu r
    let cpu := set_r cpu r (old + 255)
    let cpu := update_flags_zs cpu (reg cpu r)
    let cpu := { cpu with flags := if old = 0x80 then cpu.flags ||| FLAG_O
                                   else cpu.flags &&& (0xFF ^^^ FLAG_O) }
    (cpu, cycles + 1, true)
  else if 0x80 ≤ opcode ∧ opcode ≤ 0x87 then
    let src := opcode &&& 0x07
    let result := sub16 (reg cpu 0) (reg cpu src)
    (update_flags_sub cpu (reg cpu 0) (reg cpu src) result, cycles + 1, true)
  else if 0x88 ≤ opcode ∧ opcode ≤ 0x8F then
    let r := opcode &&& 0x07
    let f := fetch_byte cpu
    let result := sub16 (reg f.1 r) f.2
    (update_flags_sub f.1 (reg f.1 r) f.2 result, cycles + 2, true)
  else if opcode = 0x90 then (cpu_set_hl cpu (cpu_get_hl cpu + 1), cycles + 2, true)
  else if opcode = 0x91 then (cpu_set_hl cpu (cpu_get_hl cpu + 65535), cycles + 2, true)
  else if opcode = 0x92 then (cpu_set_bc cpu (cpu_get_bc cpu + 1), cycles + 2, true)
  else if opcode = 0x93 then (cpu_set_bc cpu (cpu_get_bc cpu + 65535), cycles + 2, true)
  else if opcode = 0x94 then
    let result := cpu_get_hl cpu + cpu_get_bc cpu
    let cpu := cpu_set_hl cpu result
    let cpu := { cpu with flags := if 0xFFFF < result then cpu.flags % 256 ||| FLAG_C
                                   else cpu.flags % 256 &&& (0xFF ^^^ FLAG_C) }
    (cpu, cycles + 3, true)
  else if opcode = 0x95 then
    let result := cpu_get_hl cpu + cpu_get_de cpu
    let cpu := cpu_set_hl cpu result
    let cpu := { cpu with flags := if 0xFFFF < result then cpu.flags % 256 ||| FLAG_C
                                   else cpu.flags % 256 &&& (0xFF ^^^ FLAG_C) }
    (cpu, cycles + 3, true)
  else if opcode = 0x96 then
    let f := fetch_byte cpu
    let r := f.2 &&& 0x07
    let v := reg f.1 r
    let result := if v = 0 then 0 else if v < 0x80 then 65536 - v else 256 - v
    let cpu := update_flags_sub f.1 0 v result
    (set_r cpu r result, cycles + 2, true)
  else if 0xA0 ≤ opcode ∧ opcode ≤ 0xA7 then
    let src := opcode &&& 0x07
    let v := reg cpu 0 &&& reg cpu src
    (update_flags_logic (set_r cpu 0 v) v, cycles + 1, true)
  else if 0xA8 ≤ opcode ∧ opcode ≤ 0xAF then
    let src := opcode &&& 0x07
    let v := reg cpu 0 ||| reg cpu src
    (update_flags_logic (set_r cpu 0 v) v, cycles + 1, true)
  else if 0xB0 ≤ opcode ∧ opcode ≤ 0xB7 then
    let src := opcode &&& 0x07
    let v := reg cpu 0 ^^^ reg cpu src
    (update_flags_logic (set_r cpu 0 v) v, cycles + 1, true)
  else if 0xB8 ≤ opcode ∧ opcode ≤ 0xBF then
    let r := opcode &&& 0x07
    let v := 0xFF ^^^ reg cpu r
    (update_flags_logic (set_r cpu r v) v, cycles + 1, true)
  else if opcode = 0xC0 then
    let f := fetch_word cpu
    ({ f.1 with pc := f.2 % 65536 }, cycles + 3, true)
  else if opcode = 0xC1 then
    let f := fetch_byte cpu
    ({ f.1 with pc := (f.1.pc + sx8 f.2) % 65536 }, cycles + 2, true)
  else if opcode = 0xC2 then
    let f := fetch_word cpu
    (if f.1.flags &&& FLAG_Z ≠ 0 then { f.1 with pc := f.2 % 65536 } else f.1,
     cycles + 3, true)
  else if opcode = 0xC3 then
    let f := fetch_word cpu
    (if f.1.flags &&& FLAG_Z = 0 then { f.1 with pc := f.2 % 65536 } else f.1,
     cycles + 3, true)
  else if opcode = 0xC4 then
    let f := fetch_word cpu
    (if f.1.flags &&& FLAG_C ≠ 0 then { f.1 with pc := f.2 % 65536 } else f.1,
     cycles + 3, true)
  else if opcode = 0xC5 then
    let f := fetch_word cpu
    (if f.1.flags &&& FLAG_C = 0 then { f.1 with pc := f.2 % 65536 } else f.1,
     cycles + 3, true)
  else if opcode = 0xC6 then
    let f := fetch_word cpu
    (if f.1.flags &&& FLAG_S ≠ 0 then { f.1 with pc := f.2 % 65536 } else f.1,
     cycles + 3, true)
  else if opcode = 0xC7 then
    let f := fetch_word cpu
    (if f.1.flags &&& FLAG_S = 0 then { f.1 with pc := f.2 % 65536 } else f.1,
     cycles + 3, true)
  else if opcode = 0xC8 then
    let f := fetch_word cpu
    (if f.1.flags &&& FLAG_O ≠ 0 then { f.1 with pc := f.2 % 65536 } else f.1,
     cycles + 3, true)
  else if opcode = 0xC9 then
    let f := fetch_word cpu
    (if f.1.flags &&& FLAG_O = 0 then { f.1 with pc := f.2 % 65536 } else f.1,
     cycles + 3, true)
  else if opcode = 0xCA then
    let f := fetch_byte cpu
    (if f.1.flags &&& FLAG_Z ≠ 0 then { f.1 with pc := (f.1.pc + sx8 f.2) % 65536 }
     else f.1, cycles + 2, true)
  else if opcode = 0xCB then
    let f := fetch_byte cpu
    (if f.1.flags &&& FLAG_Z = 0 then { f.1 with pc := (f.1.pc + sx8 f.2) % 65536 }
     else f.1, cycles + 2, true)
  else if opcode = 0xCC then
    let f := fetch_byte cpu
    (if f.1.flags &&& FLAG_C ≠ 0 then { f.1 with pc := (f.1.pc + sx8 f.2) % 65536 }
     else f.1, cycles + 2, true)
  else if opcode = 0xCD then
    let f := fetch_byte cpu
    (if f.1.flags &&& FLAG_C = 0 then { f.1 with pc := (f.1.pc + sx8 f.2) % 65536 }
     else f.1, cycles + 2, true)
  else if opcode = 0xCE then
    ({ cpu with pc := cpu_get_hl cpu }, cycles + 2, true)
  else if opcode = 0xCF then
    let f := fetch_word cpu
    let cpu := push_word f.1 f.1.pc
    ({ cpu with pc := f.2 % 65536 }, cycles + 5, true)
  else if opcode = 0xD0 then
    let p := pop_word cpu
    ({ p.1 with pc := p.2 % 65536 }, cycles + 4, true)
  else if opcode = 0xD1 then
    let pf := pop_byte cpu
    let cpu := { pf.1 with flags := pf.2 % 256 }
    let p := pop_word cpu
    ({ p.1 with pc := p.2 % 65536, ie := true }, cycles + 5, true)
  else if 0xD2 ≤ opcode ∧ opcode ≤ 0xD9 then
    let r := opcode &&& 0x07
    (push_byte cpu (reg cpu r), cycles + 2, true)
  else if 0xDA ≤ opcode ∧ opcode ≤ 0xE1 then
    let r := opcode &&& 0x07
    let p := pop_byte cpu
    (set_r p.1 r p.2, cycles + 2, true)
  else if opcode = 0xE2 then (push_word cpu (cpu_get_hl cpu), cycles + 3, true)
  else if opcode = 0xE3 then
    let p := pop_word cpu
    (cpu_set_hl p.1 p.2, cycles + 3, true)
  else if opcode = 0xE4 then (push_word cpu (cpu_get_bc cpu), cycles + 3, true)
  else if opcode = 0xE5 then
    let p := pop_word cpu
    (cpu_set_bc p.1 p.2, cycles + 3, true)
  else if opcode = 0xE6 then (push_byte cpu cpu.flags, cycles + 2, true)
  else if opcode = 0xE7 then
    let p := pop_byte cpu
    ({ p.1 with flags := p.2 % 256 }, cycles + 2, true)
  else if opcode = 0xE8 then ({ cpu with ie := true }, cycles + 1, true)
  else if opcode = 0xE9 then ({ cpu with ie := false }, cycles + 1, true)
  else if opcode = 0xEA then
    ({ cpu with flags := cpu.flags % 256 ||| FLAG_C }, cycles + 1, true)
  else if opcode = 0xEB then
    ({ cpu with flags := cpu.flags % 256 &&& (0xFF ^^^ FLAG_C) }, cycles + 1, true)
  else if opcode = 0xEC then
    ({ cpu with flags := cpu.flags % 256 ^^^ FLAG_C }, cycles + 1, true)
  else if opcode = 0xED then
    let f := fetch_byte cpu
    let r := f.2 &&& 0x07
    let fp := fetch_byte f.1
    (set_r fp.1 r (fp.1.ports (fp.2 % 256) % 256), cycles + 3, true)
  else if opcode = 0xEE then
    let fp := fetch_byte cpu
    let f := fetch_byte fp.1
    let r := f.2 &&& 0x07
    ({ f.1 with ports := Function.update f.1.ports (fp.2 % 256) (reg f.1 r) },
     cycles + 3, true)
  else if opcode = 0xEF then
    let f := fetch_byte cpu
    let r := f.2 &&& 0x07
    let val := reg f.1 r
    let v := (val &&& 0x0F) <<< 4 ||| (val &&& 0xF0) >>> 4
    (update_flags_zs (set_r f.1 r v) v, cycles + 2, true)
  else if opcode = 0xF0 then
    let f := fetch_byte cpu
    let rd := (f.2 >>> 4) &&& 0x07
    let rs := f.2 &&& 0x07
    (set_r f.1 rd (reg f.1 rs), cycles + 2, true)
  else
    ({ cpu with error := true,
                error_msg := .unknownOpcode opcode ((cpu.pc + 65535) % 65536),
                halted := true }, cycles, false)

/-- `cpu_step` of `src/micro8/cpu.c`: no-op when halted, deliver any
enabled pending interrupt, fetch, dispatch, and do the instruction /
cycle bookkeeping on the normal exit. -/
def cpu_step (cpu : CPU) : CPU × Nat :=
  if cpu.halted then (cpu, 0)
  else
    let cpu := handle_interrupt cpu
    let f := fetch_byte cpu
    let cpu1 := { f.1 with ir := f.2 }
    match exec cpu1 f.2 1 with
    | (c2, cyc, true) =>
        ({ c2 with instructions := c2.instructions + 1,
                   cycles := c2.cycles + cyc }, cyc)
    | (c2, cyc, false) => (c2, cyc)

end Micro8

/-! ## The 16-bit CPU (src/micro16/cpu.c) -/

namespace Micro16

/-- Physical memory: 1 MB (20-bit address bus). -/
def MEM_SIZE : Nat := 0x100000

/-- Interrupt vector table base address. -/
def IVT_BASE : Nat := 0x00000

/-- Memory-mapped I/O region base (top 64 KB). -/
def MMIO_BASE : Nat := 0xF0000

def FLAG_C : Nat := 0x0001
def FLAG_Z : Nat := 0x0002
def FLAG_S : Nat := 0x0004
def FLAG_O : Nat := 0x0008
def FLAG_D : Nat := 0x0010
def FLAG_I : Nat := 0x0020
def FLAG_T : Nat := 0x0040
def FLAG_P : Nat := 0x0080

def SEG_CS : Nat := 0
def SEG_DS : Nat := 1
def SEG_SS : Nat := 2
def SEG_ES : Nat := 3

/-- Diagnostic messages (structured stand-ins for the `snprintf` strings,
carrying exactly the interpolated numbers). -/
inductive ErrMsg where
  | noMsg : ErrMsg
  | physOutOfRange (addr : Nat) : ErrMsg
  | invalidAfterRep (opcode : Nat) : ErrMsg
  | invalidAfterRepz (opcode : Nat) : ErrMsg
  | invalidAfterRepnz (opcode : Nat) : ErrMsg
  | unknownOpcode (opcode cs pc phys : Nat) : ErrMsg
  deriving DecidableEq

/-- The `Micro16CPU` struct. -/
structure CPU where
  r : Nat → Nat
  seg : Nat → Nat
  pc : Nat
  sp : Nat
  flags : Nat
  int_pending : Bool
  int_vector : Nat
  ir : Nat
  mar : Nat
  mdr : Nat
  memory : Nat → Nat
  halted : Bool
  waiting : Bool
  error : Bool
  error_msg : ErrMsg
  cycles : Nat
  instructions : Nat

/-- Read a general register (`uint16_t r[8]`). -/
def reg (cpu : CPU) (i : Nat) : Nat := cpu.r (i % 8) % 65536

/-- Write a general register, truncating to 16 bits. -/
def set_r (cpu : CPU) (i v : Nat) : CPU :=
  { cpu with r := Function.update cpu.r (i % 8) (v % 65536) }

/-- Read a segment register (`uint16_t seg[4]`). -/
def segr (cpu : CPU) (i : Nat) : Nat := cpu.seg (i % 4) % 65536

/-- Write a segment register. -/
def set_seg (cpu : CPU) (i v : Nat) : CPU :=
  { cpu with seg := Function.update cpu.seg (i % 4) (v % 65536) }

/-- `seg_offset_to_phys`: `(segment << 4) + offset` as a 20-bit-capable
physical address. -/
def seg_offset_to_phys (segment offset : Nat) : Nat :=
  (segment % 65536) * 16 + offset % 65536

/-- `cpu_get_flag`. -/
def cpu_get_flag (cpu : CPU) (flag : Nat) : Bool :=
  cpu.flags &&& flag ≠ 0

/-- `cpu_set_flag`. -/
def cpu_set_flag (cpu : CPU) (flag : Nat) (value : Bool) : CPU :=
  if value then { cpu with flags := cpu.flags % 65536 ||| flag }
  else { cpu with flags := cpu.flags % 65536 &&& (0xFFFF ^^^ flag) }

/-- `cpu_get_r0r3`: the 32-bit DX:AX pair. -/
def cpu_get_r0r3 (cpu : CPU) : Nat := reg cpu 3 * 65536 + reg cpu 0

/-- `cpu_set_r0r3`. -/
def cpu_set_r0r3 (cpu : CPU) (v : Nat) : CPU :=
  let v := v % 4294967296
  set_r (set_r cpu 0 (v &&& 0xFFFF)) 3 (v >>> 16)

/-- `update_flags_zs`: Zero and Sign from a 16-bit result. -/
def update_flags_zs (cpu : CPU) (result : Nat) : CPU :=
  let result := result % 65536
  let cpu := cpu_set_flag cpu FLAG_Z (decide (result = 0))
  cpu_set_flag cpu FLAG_S (decide (result &&& 0x8000 ≠ 0))

/-- Population count of a byte via the C `while (low)` loop. -/
def bit_count (n : Nat) : Nat :=
  if h : n = 0 then 0 else n % 2 + bit_count (n / 2)
termination_by n
decreasing_by exact Nat.div_lt_self (Nat.pos_of_ne_zero h) one_lt_two

/-- `update_flag_p`: even parity of the low byte. -/
def update_flag_p (cpu : CPU) (result : Nat) : CPU :=
  let low := result % 65536 &&& 0xFF
  cpu_set_flag cpu FLAG_P (decide (bit_count low &&& 1 = 0))

/-- `update_flags_add16`: Z/S/P from the truncated result, C iff the
untruncated 32-bit sum exceeds `0xFFFF`, O from the two's-complement
overflow test `((a ^ res) & (b ^ res) & 0x8000) != 0`. -/
def update_flags_add16 (cpu : CPU) (a b result : Nat) : CPU :=
  let a := a % 65536
  let b := b % 65536
  let result := result % 4294967296
  let res16 := result % 65536
  let cpu := update_flags_zs cpu res16
  let cpu := update_flag_p cpu res16
  let cpu := cpu_set_flag cpu FLAG_C (decide (0xFFFF < result))
  cpu_set_flag cpu FLAG_O
    (decide ((a ^^^ res16) &&& (b ^^^ res16) &&& 0x8000 ≠ 0))

/-- `update_flags_sub16`: Z/S/P from the truncated result, C (borrow)
iff `a < b`, O from `((a ^ b) & (a ^ res) & 0x8000) != 0`. -/
def update_flags_sub16 (cpu : CPU) (a b result : Nat) : CPU :=
  let a := a % 65536
  let b := b % 65536
  let result := result % 4294967296
  let res16 := result % 65536
  let cpu := update_flags_zs cpu res16
  let cpu := update_flag_p cpu res16
  let cpu := cpu_set_flag cpu FLAG_C (decide (a < b))
  cpu_set_flag cpu FLAG_O
    (decide ((a ^^^ b) &&& (a ^^^ res16) &&& 0x8000 ≠ 0))

/-- `update_flags_logic`: Z/S/P from the result, clear C and O. -/
def update_flags_logic (cpu : CPU) (result : Nat) : CPU :=
  let cpu := update_flags_zs cpu result
  let cpu := update_flag_p cpu result
  let cpu := cpu_set_flag cpu FLAG_C false
  cpu_set_flag cpu FLAG_O false

/-- `cpu_read_phys_byte`: out-of-range physical addresses set the error
state (with the faulting address) and read as zero. -/
def cpu_read_phys_byte (cpu : CPU) (addr : Nat) : CPU × Nat :=
  let addr := addr % 4294967296
  if MEM_SIZE ≤ addr then
    ({ cpu with error := true, error_msg := .physOutOfRange addr }, 0)
  else
    let v := cpu.memory addr % 256
    ({ cpu with mar := addr, mdr := v }, v)

/-- `cpu_read_phys_word`: two bytes, little-endian. -/
def cpu_read_phys_word (cpu : CPU) (addr : Nat) : CPU × Nat :=
  let lo := cpu_read_phys_byte cpu addr
  let hi := cpu_read_phys_byte lo.1 (addr + 1)
  (hi.1, lo.2 ||| hi.2 <<< 8)

/-- `cpu_write_phys_byte`: out-of-range physical addresses set the error
state (with the faulting address) and write nothing. -/
def cpu_write_phys_byte (cpu : CPU) (addr value : Nat) : CPU :=
  let addr := addr % 4294967296
  let value := value % 256
  if MEM_SIZE ≤ addr then
    { cpu with error := true, error_msg := .physOutOfRange addr }
  else
    { cpu with mar := addr, mdr := value,
               memory := Function.update cpu.memory addr value }

/-- `cpu_write_phys_word`: low byte at `addr`, high byte at `addr + 1`. -/
def cpu_write_phys_word (cpu : CPU) (addr value : Nat) : CPU :=
  let value := value % 65536
  let cpu := cpu_write_phys_byte cpu addr (value &&& 0xFF)
  cpu_write_phys_byte cpu (addr + 1) (value >>> 8)

/-- `cpu_read_byte` (segmented). -/
def cpu_read_byte (cpu : CPU) (segment offset : Nat) : CPU × Nat :=
  cpu_read_phys_byte cpu (seg_offset_to_phys segment offset)

/-- `cpu_read_word` (segmented). -/
def cpu_read_word (cpu : CPU) (segment offset : Nat) : CPU × Nat :=
  cpu_read_phys_word cpu (seg_offset_to_phys segment offset)

/-- `cpu_write_byte` (segmented). -/
def cpu_write_byte (cpu : CPU) (segment offset value : Nat) : CPU :=
  cpu_write_phys_byte cpu (seg_offset_to_phys segment offset) value

/-- `cpu_write_word` (segmented). -/
def cpu_write_word (cpu : CPU) (segment offset value : Nat) : CPU :=
  cpu_write_phys_word cpu (seg_offset_to_phys segment offset) value

/-- `fetch_byte`: read at CS:PC, then `pc++`. -/
def fetch_byte (cpu : CPU) : CPU × Nat :=
  let rb := cpu_read_byte cpu (cpu.seg 0) cpu.pc
  ({ rb.1 with pc := (rb.1.pc + 1) % 65536 }, rb.2)

/-- `fetch_word`: two bytes, little-endian. -/
def fetch_word (cpu : CPU) : CPU × Nat :=
  let lo := fetch_byte cpu
  let hi := fetch_byte lo.1
  (hi.1, lo.2 ||| hi.2 <<< 8)

/-- `push_word`: `sp -= 2`, then write the word at SS:SP. -/
def push_word (cpu : CPU) (value : Nat) : CPU :=
  let cpu := { cpu with sp := (cpu.sp + 65534) % 65536 }
  cpu_write_word cpu (cpu.seg 2) cpu.sp value

/-- `pop_word`: read the word at SS:SP, then `sp += 2`. -/
def pop_word (cpu : CPU) : CPU × Nat :=
  let rw := cpu_read_word cpu (cpu.seg 2) cpu.sp
  ({ rw.1 with sp := (rw.1.sp + 2) % 65536 }, rw.2)

/-- `cpu_request_interrupt`: only records the pending bit and vector. -/
def cpu_request_interrupt (cpu : CPU) (vector : Nat) : CPU :=
  { cpu with int_pending := true, int_vector := vector % 256 }

/-- `handle_interrupt`: push flags, CS and PC, clear the I and T flags,
then load PC and CS from IVT entry `vector * 4`. -/
def handle_interrupt (cpu : CPU) (vector : Nat) : CPU :=
  let vector := vector % 256
  let cpu := push_word cpu cpu.flags
  let cpu := push_word cpu (cpu.seg 0)
  let cpu := push_word cpu cpu.pc
  let cpu := cpu_set_flag cpu FLAG_I false
  let cpu := cpu_set_flag cpu FLAG_T false
  let ivt_entry := IVT_BASE + vector * 4
  let rp := cpu_read_phys_word cpu ivt_entry
  let rc := cpu_read_phys_word rp.1 (ivt_entry + 2)
  { rc.1 with pc := rp.2 % 65536,
              seg := Function.update rc.1.seg 0 (rc.2 % 65536) }

/-- `check_interrupt`: deliver a pending interrupt iff the I flag is
set, consuming the pending bit. -/
def check_interrupt (cpu : CPU) : CPU :=
  if cpu.int_pending ∧ cpu_get_flag cpu FLAG_I then
    handle_interrupt { cpu with int_pending := false } cpu.int_vector
  else cpu

/-- Sign-extend an 8-bit byte to the 16-bit two's-complement residue. -/
def sx8 (b : Nat) : Nat :=
  let b := b % 256
  if b < 128 then b else b + 65280

/-- 32-bit wrapping subtraction (C `uint32_t` arithmetic). -/
def sub32 (a b : Nat) : Nat :=
  (a % 4294967296 + (4294967296 - b % 4294967296)) % 4294967296

/-- The C cast chain `(uint32_t)(-(int16_t)r)`. -/
def neg32 (r : Nat) : Nat :=
  let r := r % 65536
  if r = 0 then 0 else if r < 0x8000 then 4294967296 - r else 65536 - r

/-- The C cast `(int16_t)` of a 16-bit value. -/
def toInt16 (x : Nat) : Int :=
  let x := x % 65536
  if x < 0x8000 then (x : Int) else (x : Int) - 65536

/-- The C cast `(int32_t)` of a 32-bit value. -/
def toInt32 (x : Nat) : Int :=
  let x := x % 4294967296
  if x < 0x80000000 then (x : Int) else (x : Int) - 4294967296

/-- The C cast `(uint32_t)` of a signed value (two's complement). -/
def ofInt32 (i : Int) : Nat := (i % 4294967296).toNat

/-- The C cast `(uint16_t)` of a signed value (two's complement). -/
def ofInt16 (i : Int) : Nat := (i % 65536).toNat

/-- Run a loop body `n` times (the `while (reg2--)` shift/rotate loops,
whose count is fixed before entry). -/
def iterate_op : Nat → (CPU → CPU) → CPU → CPU
  | 0, _, cpu => cpu
  | n + 1, f, cpu => iterate_op n f (f cpu)

/-- The `ENTER` display-copy loop (`for (i = 1; i < level; i++)`),
recursing on the remaining iteration count. -/
def enter_loop : Nat → CPU → CPU
  | 0, cpu => cpu
  | n + 1, cpu =>
      let cpu := set_r cpu 6 (reg cpu 6 + 65534)
      let rw := cpu_read_word cpu (cpu.seg 2) (reg cpu 6)
      enter_loop n (push_word rw.1 rw.2)

/-- One iteration of a string primitive under the `REP` prefix (the
inner `switch (next_op)`); `none` is the invalid-opcode default. -/
def rep_body (cpu : CPU) (next_op : Nat) : Option CPU :=
  if next_op = 0xE0 then
    let rb := cpu_read_byte cpu (cpu.seg 1) (reg cpu 4)
    let cpu := cpu_write_byte rb.1 (rb.1.seg 3) (reg rb.1 5) rb.2
    some (if cpu_get_flag cpu FLAG_D then
            set_r (set_r cpu 4 (reg cpu 4 + 65535)) 5 (reg cpu 5 + 65535)
          else set_r (set_r cpu 4 (reg cpu 4 + 1)) 5 (reg cpu 5 + 1))
  else if next_op = 0xE1 then
    let rw := cpu_read_word cpu (cpu.seg 1) (reg cpu 4)
    let cpu := cpu_write_word rw.1 (rw.1.seg 3) (reg rw.1 5) rw.2
    some (if cpu_get_flag cpu FLAG_D then
            set_r (set_r cpu 4 (reg cpu 4 + 65534)) 5 (reg cpu 5 + 65534)
          else set_r (set_r cpu 4 (reg cpu 4 + 2)) 5 (reg cpu 5 + 2))
  else if next_op = 0xE4 then
    let cpu := cpu_write_byte cpu (cpu.seg 3) (reg cpu 5) (reg cpu 0 &&& 0xFF)
    some (if cpu_get_flag cpu FLAG_D then set_r cpu 5 (reg cpu 5 + 65535)
          else set_r cpu 5 (reg cpu 5 + 1))
  else if next_op = 0xE5 then
    let cpu := cpu_write_word cpu (cpu.seg 3) (reg cpu 5) (reg cpu 0)
    some (if cpu_get_flag cpu FLAG_D then set_r cpu 5 (reg cpu 5 + 65534)
          else set_r cpu 5 (reg cpu 5 + 2))
  else if next_op = 0xE6 then
    let rb := cpu_read_byte cpu (cpu.seg 1) (reg cpu 4)
    let cpu := set_r rb.1 0 (reg rb.1 0 &&& 0xFF00 ||| rb.2)
    some (if cpu_get_flag cpu FLAG_D then set_r cpu 4 (reg cpu 4 + 65535)
          else set_r cpu 4 (reg cpu 4 + 1))
  else if next_op = 0xE7 then
    let rw := cpu_read_word cpu (cpu.seg 1) (reg cpu 4)
    let cpu := set_r rw.1 0 rw.2
    some (if cpu_get_flag cpu FLAG_D then set_r cpu 4 (reg cpu 4 + 65534)
          else set_r cpu 4 (reg cpu 4 + 2))
  else none

/-- One iteration of a compare primitive under `REPZ`/`REPNZ` (the inner
`switch (next_op)` of those prefixes). -/
def rep_cmp_body (cpu : CPU) (next_op : Nat) : Option CPU :=
  if next_op = 0xE2 then
    let rs := cpu_read_byte cpu (cpu.seg 1) (reg cpu 4)
    let rd := cpu_read_byte rs.1 (rs.1.seg 3) (reg rs.1 5)
    let cpu := update_flags_sub16 rd.1 rs.2 rd.2 (sub32 rs.2 rd.2)
    some (if cpu_get_flag cpu FLAG_D then
            set_r (set_r cpu 4 (reg cpu 4 + 65535)) 5 (reg cpu 5 + 65535)
          else set_r (set_r cpu 4 (reg cpu 4 + 1)) 5 (reg cpu 5 + 1))
  else if next_op = 0xE3 then
    let rs := cpu_read_word cpu (cpu.seg 1) (reg cpu 4)
    let rd := cpu_read_word rs.1 (rs.1.seg 3) (reg rs.1 5)
    let cpu := update_flags_sub16 rd.1 rs.2 rd.2 (sub32 rs.2 rd.2)
    some (if cpu_get_flag cpu FLAG_D then
            set_r (set_r cpu 4 (reg cpu 4 + 65534)) 5 (reg cpu 5 + 65534)
          else set_r (set_r cpu 4 (reg cpu 4 + 2)) 5 (reg cpu 5 + 2))
  else none

/-- The `REP` prefix loop (`while (cpu->r[REG_R2] != 0)`), recursing on
the entry value of CX, which the loop decrements exactly once per
iteration. -/
def rep_loop : Nat → CPU → Nat → Nat → CPU × Nat × Bool
  | 0, cpu, _, cycles => (cpu, cycles, true)
  | fuel + 1, cpu, next_op, cycles =>
      if reg cpu 2 = 0 then (cpu, cycles, true)
      else
        match rep_body cpu next_op with
        | none =>
            ({ cpu with error := true, error_msg := .invalidAfterRep next_op },
             cycles, false)
        | some cpu2 => rep_loop fuel (set_r cpu2 2 (reg cpu2 2 + 65535)) next_op (cycles + 2)

/-- The `REPZ` prefix loop: stop early when the Z flag clears. -/
def repz_loop : Nat → CPU → Nat → Nat → CPU × Nat × Bool
  | 0, cpu, _, cycles => (cpu, cycles, true)
  | fuel + 1, cpu, next_op, cycles =>
      if reg cpu 2 = 0 then (cpu, cycles, true)
      else
        match rep_cmp_body cpu next_op with
        | none =>
            ({ cpu with error := true, error_msg := .invalidAfterRepz next_op },
             cycles, false)
        | some cpu2 =>
            let cpu3 := set_r cpu2 2 (reg cpu2 2 + 65535)
            if ¬ cpu_get_flag cpu3 FLAG_Z then (cpu3, cycles + 2, true)
            else repz_loop fuel cpu3 next_op (cycles + 2)

/-- The `REPNZ` prefix loop: stop early when the Z flag sets. -/
def repnz_loop : Nat → CPU → Nat → Nat → CPU × Nat × Bool
  | 0, cpu, _, cycles => (cpu, cycles, true)
  | fuel + 1, cpu, next_op, cycles =>
      if reg cpu 2 = 0 then (cpu, cycles, true)
      else
        match rep_cmp_body cpu next_op with
        | none =>
            ({ cpu with error := true, error_msg := .invalidAfterRepnz next_op },
             cycles, false)
        | some cpu2 =>
            let cpu3 := set_r cpu2 2 (reg cpu2 2 + 65535)
            if cpu_get_flag cpu3 FLAG_Z then (cpu3, cycles + 2, true)
            else repnz_loop fuel cpu3 next_op (cycles + 2)

/-- The `switch (opcode)` of `micro16`'s `cpu_step`. Returns the new
state, the cycle count, and `true` for the normal exit (`break`) or
`false` for an early `return` (unknown opcode, invalid opcode after a
repeat prefix). -/
def exec_instr (cpu : CPU) (opcode cycles : Nat) : CPU × Nat × Bool :=
  match opcode with
  | 0x00 => (cpu, cycles + 1, true)
  | 0x01 => ({ cpu with halted := true }, cycles + 1, true)
  | 0x02 => ({ cpu with waiting := true }, cycles + 1, true)
  | 0x04 =>
      let f := fetch_byte cpu
      (handle_interrupt f.1 f.2, cycles + 5, true)
  | 0x05 =>
      let p1 := pop_word cpu
      let cpu := { p1.1 with pc := p1.2 % 65536 }
      let p2 := pop_word cpu
      let cpu := set_seg p2.1 0 p2.2
      let p3 := pop_word cpu
      ({ p3.1 with flags := p3.2 % 65536 }, cycles + 5, true)
  | 0x06 => (cpu_set_flag cpu FLAG_I false, cycles + 1, true)
  | 0x07 => (cpu_set_flag cpu FLAG_I true, cycles + 1, true)
  | 0x08 => (cpu_set_flag cpu FLAG_C false, cycles + 1, true)
  | 0x09 => (cpu_set_flag cpu FLAG_C true, cycles + 1, true)
  | 0x0A => (cpu_set_flag cpu FLAG_C (! cpu_get_flag cpu FLAG_C), cycles + 1, true)
  | 0x0B => (cpu_set_flag cpu FLAG_D false, cycles + 1, true)
  | 0x0C => (cpu_set_flag cpu FLAG_D true, cycles + 1, true)
  | 0x0D => (push_word cpu cpu.flags, cycles + 2, true)
  | 0x0E =>
      let p := pop_word cpu
      ({ p.1 with flags := p.2 % 65536 }, cycles + 2, true)
  | 0x10 =>
      let f := fetch_byte cpu
      let rs := f.2 &&& 0x07
      let rd := (f.2 >>> 4) &&& 0x07
      (set_r f.1 rd (reg f.1 rs), cycles + 2, true)
  | 0x11 =>
      let f := fetch_byte cpu
      let rd := f.2 &&& 0x07
      let fi := fetch_word f.1
      (set_r fi.1 rd fi.2, cycles + 3, true)
  | 0x12 =>
      let f := fetch_byte cpu
      let rs := f.2 &&& 0x07
      let rd := (f.2 >>> 4) &&& 0x07
      let tmp := reg f.1 rd
      let cpu := set_r f.1 rd (reg f.1 rs)
      (set_r cpu rs tmp, cycles + 3, true)
  | 0x13 =>
      let f := fetch_byte cpu
      let sg := (f.2 >>> 4) &&& 0x03
      let rs := f.2 &&& 0x07
      (set_seg f.1 sg (reg f.1 rs), cycles + 2, true)
  | 0x14 =>
      let f := fetch_byte cpu
      let rd := (f.2 >>> 4) &&& 0x07
      let sg := f.2 &&& 0x03
      (set_r f.1 rd (segr f.1 sg), cycles + 2, true)
  | 0x20 =>
      let f := fetch_byte cpu
      let rd := f.2 &&& 0x07
      let fa := fetch_word f.1
      let rw := cpu_read_word fa.1 (fa.1.seg 1) fa.2
      (set_r rw.1 rd rw.2, cycles + 4, true)
  | 0x21 =>
      let f := fetch_byte cpu
      let rs := f.2 &&& 0x07
      let fa := fetch_word f.1
      (cpu_write_word fa.1 (fa.1.seg 1) fa.2 (reg fa.1 rs), cycles + 4, true)
  | 0x22 =>
      let f := fetch_byte cpu
      let rd := f.2 &&& 0x07
      let fa := fetch_word f.1
      let rb := cpu_read_byte fa.1 (fa.1.seg 1) fa.2
      (set_r rb.1 rd rb.2, cycles + 4, true)
  | 0x23 =>
      let f := fetch_byte cpu
      let rs := f.2 &&& 0x07
      let fa := fetch_word f.1
      (cpu_write_byte fa.1 (fa.1.seg 1) fa.2 (reg fa.1 rs &&& 0xFF), cycles + 4, true)
  | 0x24 =>
      let f := fetch_byte cpu
      let rd := (f.2 >>> 4) &&& 0x07
      let rb := f.2 &&& 0x07
      let fo := fetch_word f.1
      let eff := (reg fo.1 rb + fo.2) % 65536
      let rw := cpu_read_word fo.1 (fo.1.seg 1) eff
      (set_r rw.1 rd rw.2, cycles + 5, true)
  | 0x25 =>
      let f := fetch_byte cpu
      let rb := (f.2 >>> 4) &&& 0x07
      let rs := f.2 &&& 0x07
      let fo := fetch_word f.1
      let eff := (reg fo.1 rb + fo.2) % 65536
      (cpu_write_word fo.1 (fo.1.seg 1) eff (reg fo.1 rs), cycles + 5, true)
  | 0x26 =>
      let f := fetch_byte cpu
      let rd := f.2 &&& 0x07
      let fa := fetch_word f.1
      (set_r fa.1 rd fa.2, cycles + 3, true)
  | 0x27 =>
      let f := fetch_byte cpu
      let rd := f.2 &&& 0x07
      let fa := fetch_word f.1
      let rw := cpu_read_word fa.1 (fa.1.seg 1) fa.2
      let cpu := set_r rw.1 rd rw.2
      let rw2 := cpu_read_word cpu (cpu.seg 1) (fa.2 + 2)
      (set_seg rw2.1 1 rw2.2, cycles + 6, true)
  | 0x28 =>
      let f := fetch_byte cpu
      let rd := f.2 &&& 0x07
      let fa := fetch_word f.1
      let rw := cpu_read_word fa.1 (fa.1.seg 1) fa.2
      let cpu := set_r rw.1 rd rw.2
      let rw2 := cpu_read_word cpu (cpu.seg 1) (fa.2 + 2)
      (set_seg rw2.1 3 rw2.2, cycles + 6, true)
  | 0x40 =>
      let f := fetch_byte cpu
      let rd := f.2 &&& 0x07
      (push_word f.1 (reg f.1 rd), cycles + 2, true)
  | 0x41 =>
      let f := fetch_byte cpu
      let rd := f.2 &&& 0x07
      let p := pop_word f.1
      (set_r p.1 rd p.2, cycles + 2, true)
  | 0x42 =>
      let f := fetch_byte cpu
      let sg := f.2 &&& 0x03
      (push_word f.1 (segr f.1 sg), cycles + 2, true)
  | 0x43 =>
      let f := fetch_byte cpu
      let sg := f.2 &&& 0x03
      let p := pop_word f.1
      (set_seg p.1 sg p.2, cycles + 2, true)
  | 0x44 =>
      ((List.range 8).foldl (fun c i => push_word c (reg c i)) cpu, cycles + 10, true)
  | 0x45 =>
      (([7, 6, 5, 4, 3, 2, 1, 0] : List Nat).foldl
        (fun c i => let p := pop_word c; set_r p.1 i p.2) cpu, cycles + 10, true)
  | 0x46 =>
      let fs := fetch_word cpu
      let fl := fetch_byte fs.1
      let size := fs.2
      let level := fl.2
      let cpu := push_word fl.1 (reg fl.1 6)
      let frame_ptr := cpu.sp % 65536
      let cpu :=
        if 0 < level then
          push_word (enter_loop (level - 1) cpu) frame_ptr
        else cpu
      let cpu := set_r cpu 6 frame_ptr
      ({ cpu with sp := (cpu.sp % 65536 + (65536 - size % 65536)) % 65536 },
       cycles + 10, true)
  | 0x47 =>
      let cpu := { cpu with sp := reg cpu 6 }
      let p := pop_word cpu
      (set_r p.1 6 p.2, cycles + 4, true)
  | 0x50 =>
      let f := fetch_byte cpu
      let rs := f.2 &&& 0x07
      let rd := (f.2 >>> 4) &&& 0x07
      let result := reg f.1 rd + reg f.1 rs
      let cpu := update_flags_add16 f.1 (reg f.1 rd) (reg f.1 rs) result
      (set_r cpu rd result, cycles + 2, true)
  | 0x51 =>
      let f := fetch_byte cpu
      let rd := f.2 &&& 0x07
      let fi := fetch_word f.1
      let result := reg fi.1 rd + fi.2
      let cpu := update_flags_add16 fi.1 (reg fi.1 rd) fi.2 result
      (set_r cpu rd result, cycles + 3, true)
  | 0x52 =>
      let f := fetch_byte cpu
      let rs := f.2 &&& 0x07
      let rd := (f.2 >>> 4) &&& 0x07
      let result := reg f.1 rd + reg f.1 rs +
        (if cpu_get_flag f.1 FLAG_C then 1 else 0)
      let cpu := update_flags_add16 f.1 (reg f.1 rd) (reg f.1 rs) result
      (set_r cpu rd result, cycles + 2, true)
  | 0x53 =>
      let f := fetch_byte cpu
      let rd := f.2 &&& 0x07
      let fi := fetch_word f.1
      let result := reg fi.1 rd + fi.2 +
        (if cpu_get_flag fi.1 FLAG_C then 1 else 0)
      let cpu := update_flags_add16 fi.1 (reg fi.1 rd) fi.2 result
      (set_r cpu rd result, cycles + 3, true)
  | 0x54 =>
      let f := fetch_byte cpu
      let rs := f.2 &&& 0x07
      let rd := (f.2 >>> 4) &&& 0x07
      let result := sub32 (reg f.1 rd) (reg f.1 rs)
      let cpu := update_flags_sub16 f.1 (reg f.1 rd) (reg f.1 rs) result
      (set_r cpu rd result, cycles + 2, true)
  | 0x55 =>
      let f := fetch_byte cpu
      let rd := f.2 &&& 0x07
      let fi := fetch_word f.1
      let result := sub32 (reg fi.1 rd) fi.2
      let cpu := update_flags_sub16 fi.1 (reg fi.1 rd) fi.2 result
      (set_r cpu rd result, cycles + 3, true)
  | 0x56 =>
      let f := fetch_byte cpu
      let rs := f.2 &&& 0x07
      let rd := (f.2 >>> 4) &&& 0x07
      let r0 := sub32 (reg f.1 rd) (reg f.1 rs)
      let result := if cpu_get_flag f.1 FLAG_C then sub32 r0 1 else r0
      let cpu := update_flags_sub16 f.1 (reg f.1 rd) (reg f.1 rs) result
      (set_r cpu rd result, cycles + 2, true)
  | 0x57 =>
      let f := fetch_byte cpu
      let rd := f.2 &&& 0x07
      let fi := fetch_word f.1
      let r0 := sub32 (reg fi.1 rd) fi.2
      let result := if cpu_get_flag fi.1 FLAG_C then sub32 r0 1 else r0
      let cpu := update_flags_sub16 fi.1 (reg fi.1 rd) fi.2 result
      (set_r cpu rd result, cycles + 3, true)
  | 0x58 =>
      let f := fetch_byte cpu
      let rs := f.2 &&& 0x07
      let rd := (f.2 >>> 4) &&& 0x07
      let result := sub32 (reg f.1 rd) (reg f.1 rs)
      (update_flags_sub16 f.1 (reg f.1 rd) (reg f.1 rs) result, cycles + 2, true)
  | 0x59 =>
      let f := fetch_byte cpu
      let rd := f.2 &&& 0x07
      let fi := fetch_word f.1
      let result := sub32 (reg fi.1 rd) fi.2
      (update_flags_sub16 fi.1 (reg fi.1 rd) fi.2 result, cycles + 3, true)
  | 0x5A =>
      let f := fetch_byte cpu
      let rd := f.2 &&& 0x07
      let result := neg32 (reg f.1 rd)
      let cpu := update_flags_sub16 f.1 0 (reg f.1 rd) result
      (set_r cpu rd result, cycles + 2, true)
  | 0x5B =>
      let f := fetch_byte cpu
      let rd := f.2 &&& 0x07
      let result := reg f.1 rd + 1
      let old_c := cpu_get_flag f.1 FLAG_C
      let cpu := update_flags_add16 f.1 (reg f.1 rd) 1 result
      let cpu := cpu_set_flag cpu FLAG_C old_c
      (set_r cpu rd result, cycles + 1, true)
  | 0x5C =>
      let f := fetch_byte cpu
      let rd := f.2 &&& 0x07
      let result := sub32 (reg f.1 rd) 1
      let old_c := cpu_get_flag f.1 FLAG_C
      let cpu := update_flags_sub16 f.1 (reg f.1 rd) 1 result
      let cpu := cpu_set_flag cpu FLAG_C old_c
      (set_r cpu rd result, cycles + 1, true)
  | 0x60 =>
      let f := fetch_byte cpu
      let rs := f.2 &&& 0x07
      let result := reg f.1 0 * reg f.1 rs
      let cpu := cpu_set_r0r3 f.1 result
      let cpu := cpu_set_flag cpu FLAG_C (decide (result >>> 16 ≠ 0))
      (cpu_set_flag cpu FLAG_O (decide (result >>> 16 ≠ 0)), cycles + 10, true)
  | 0x61 =>
      let f := fetch_byte cpu
      let rs := f.2 &&& 0x07
      let sres : Int := toInt16 (reg f.1 0) * toInt16 (reg f.1 rs)
      let cpu := cpu_set_r0r3 f.1 (ofInt32 sres)
      let ax_signed := toInt16 (ofInt32 sres &&& 0xFFFF)
      let cpu := cpu_set_flag cpu FLAG_C (decide (sres ≠ ax_signed))
      (cpu_set_flag cpu FLAG_O (decide (sres ≠ ax_signed)), cycles + 12, true)
  | 0x62 =>
      let f := fetch_byte cpu
      let rs := f.2 &&& 0x07
      if reg f.1 rs = 0 then
        (handle_interrupt f.1 0, cycles + 15, true)
      else
        let dividend := cpu_get_r0r3 f.1
        let quotient := dividend / reg f.1 rs
        let remainder := dividend % reg f.1 rs
        let cpu := set_r f.1 0 quotient
        (set_r cpu 3 remainder, cycles + 15, true)
  | 0x63 =>
      let f := fetch_byte cpu
      let rs := f.2 &&& 0x07
      if reg f.1 rs = 0 then
        (handle_interrupt f.1 0, cycles + 18, true)
      else
        let dividend := toInt32 (cpu_get_r0r3 f.1)
        let divisor := toInt16 (reg f.1 rs)
        let quotient := dividend.tdiv divisor
        let remainder := dividend.tmod divisor
        let cpu := set_r f.1 0 (ofInt16 quotient)
        (set_r cpu 3 (ofInt16 remainder), cycles + 18, true)
  | 0x70 =>
      let f := fetch_byte cpu
      let rs := f.2 &&& 0x07
      let rd := (f.2 >>> 4) &&& 0x07
      let v := reg f.1 rd &&& reg f.1 rs
      (update_flags_logic (set_r f.1 rd v) v, cycles + 2, true)
  | 0x71 =>
      let f := fetch_byte cpu
      let rd := f.2 &&& 0x07
      let fi := fetch_word f.1
      let v := reg fi.1 rd &&& fi.2
      (update_flags_logic (set_r fi.1 rd v) v, cycles + 3, true)
  | 0x72 =>
      let f := fetch_byte cpu
      let rs := f.2 &&& 0x07
      let rd := (f.2 >>> 4) &&& 0x07
      let v := reg f.1 rd ||| reg f.1 rs
      (update_flags_logic (set_r f.1 rd v) v, cycles + 2, true)
  | 0x73 =>
      let f := fetch_byte cpu
      let rd := f.2 &&& 0x07
      let fi := fetch_word f.1
      let v := reg fi.1 rd ||| fi.2
      (update_flags_logic (set_r fi.1 rd v) v, cycles + 3, true)
  | 0x74 =>
      let f := fetch_byte cpu
      let rs := f.2 &&& 0x07
      let rd := (f.2 >>> 4) &&& 0x07
      let v := reg f.1 rd ^^^ reg f.1 rs
      (update_flags_logic (set_r f.1 rd v) v, cycles + 2, true)
  | 0x75 =>
      let f := fetch_byte cpu
      let rd := f.2 &&& 0x07
      let fi := fetch_word f.1
      let v := reg fi.1 rd ^^^ fi.2
      (update_flags_logic (set_r fi.1 rd v) v, cycles + 3, true)
  | 0x76 =>
      let f := fetch_byte cpu
      let rd := f.2 &&& 0x07
      (set_r f.1 rd (0xFFFF ^^^ reg f.1 rd), cycles + 2, true)
  | 0x77 =>
      let f := fetch_byte cpu
      let rs := f.2 &&& 0x07
      let rd := (f.2 >>> 4) &&& 0x07
      (update_flags_logic f.1 (reg f.1 rd &&& reg f.1 rs), cycles + 2, true)
  | 0x78 =>
      let f := fetch_byte cpu
      let rd := f.2 &&& 0x07
      let fi := fetch_word f.1
      (update_flags_logic fi.1 (reg fi.1 rd &&& fi.2), cycles + 3, true)
  | 0x80 =>
      let f := fetch_byte cpu
      let cnt0 := f.2 &&& 0x0F
      let rd := (f.2 >>> 4) &&& 0x07
      let cnt := if cnt0 = 0 then reg f.1 2 &&& 0x0F else cnt0
      let cpu := iterate_op cnt
        (fun c =>
          let c := cpu_set_flag c FLAG_C (decide (reg c rd &&& 0x8000 ≠ 0))
          set_r c rd (reg c rd <<< 1)) f.1
      (update_flags_zs cpu (reg cpu rd), cycles + 3, true)
  | 0x81 =>
      let f := fetch_byte cpu
      let cnt0 := f.2 &&& 0x0F
      let rd := (f.2 >>> 4) &&& 0x07
      let cnt := if cnt0 = 0 then reg f.1 2 &&& 0x0F else cnt0
      let cpu := iterate_op cnt
        (fun c =>
          let c := cpu_set_flag c FLAG_C (decide (reg c rd &&& 0x0001 ≠ 0))
          set_r c rd (reg c rd >>> 1)) f.1
      (update_flags_zs cpu (reg cpu rd), cycles + 3, true)
  | 0x82 =>
      let f := fetch_byte cpu
      let cnt0 := f.2 &&& 0x0F
      let rd := (f.2 >>> 4) &&& 0x07
      let cnt := if cnt0 = 0 then reg f.1 2 &&& 0x0F else cnt0
      let cpu := iterate_op cnt
        (fun c =>
          let c := cpu_set_flag c FLAG_C (decide (reg c rd &&& 0x0001 ≠ 0))
          set_r c rd ((reg c rd >>> 1) ||| (reg c rd &&& 0x8000))) f.1
      (update_flags_zs cpu (reg cpu rd), cycles + 3, true)
  | 0x83 =>
      let f := fetch_byte cpu
      let cnt0 := f.2 &&& 0x0F
      let rd := (f.2 >>> 4) &&& 0x07
      let cnt := if cnt0 = 0 then reg f.1 2 &&& 0x0F else cnt0
      let cpu := iterate_op cnt
        (fun c =>
          let msb := reg c rd &&& 0x8000 ≠ 0
          let c := set_r c rd ((reg c rd <<< 1) ||| (if msb then 1 else 0))
          cpu_set_flag c FLAG_C (decide msb)) f.1
      (cpu, cycles + 3, true)
  | 0x84 =>
      let f := fetch_byte cpu
      let cnt0 := f.2 &&& 0x0F
      let rd := (f.2 >>> 4) &&& 0x07
      let cnt := if cnt0 = 0 then reg f.1 2 &&& 0x0F else cnt0
      let cpu := iterate_op cnt
        (fun c =>
          let lsb := reg c rd &&& 0x0001 ≠ 0
          let c := set_r c rd ((reg c rd >>> 1) ||| (if lsb then 0x8000 else 0))
          cpu_set_flag c FLAG_C (decide lsb)) f.1
      (cpu, cycles + 3, true)
  | 0x85 =>
      let f := fetch_byte cpu
      let cnt0 := f.2 &&& 0x0F
      let rd := (f.2 >>> 4) &&& 0x07
      let cnt := if cnt0 = 0 then reg f.1 2 &&& 0x0F else cnt0
      let cpu := iterate_op cnt
        (fun c =>
          let old_c := cpu_get_flag c FLAG_C
          let c := cpu_set_flag c FLAG_C (decide (reg c rd &&& 0x8000 ≠ 0))
          set_r c rd ((reg c rd <<< 1) ||| (if old_c then 1 else 0))) f.1
      (cpu, cycles + 3, true)
  | 0x86 =>
      let f := fetch_byte cpu
      let cnt0 := f.2 &&& 0x0F
      let rd := (f.2 >>> 4) &&& 0x07
      let cnt := if cnt0 = 0 then reg f.1 2 &&& 0x0F else cnt0
      let cpu := iterate_op cnt
        (fun c =>
          let old_c := cpu_get_flag c FLAG_C
          let c := cpu_set_flag c FLAG_C (decide (reg c rd &&& 0x0001 ≠ 0))
          set_r c rd ((reg c rd >>> 1) ||| (if old_c then 0x8000 else 0))) f.1
      (cpu, cycles + 3, true)
  | 0xA0 =>
      let f := fetch_word cpu
      ({ f.1 with pc := f.2 % 65536 }, cycles + 3, true)
  | 0xA1 =>
      let fo := fetch_word cpu
      let fs := fetch_word fo.1
      (set_seg { fs.1 with pc := fo.2 % 65536 } 0 fs.2, cycles + 4, true)
  | 0xA2 =>
      let f := fetch_byte cpu
      let rd := f.2 &&& 0x07
      ({ f.1 with pc := reg f.1 rd }, cycles + 2, true)
  | 0xA3 =>
      let f := fetch_byte cpu
      ({ f.1 with pc := (f.1.pc + sx8 f.2) % 65536 }, cycles + 2, true)
  | 0xB0 =>
      let f := fetch_word cpu
      (if cpu_get_flag f.1 FLAG_Z then { f.1 with pc := f.2 % 65536 } else f.1,
       cycles + 3, true)
  | 0xB1 =>
      let f := fetch_word cpu
      (if ¬ cpu_get_flag f.1 FLAG_Z then { f.1 with pc := f.2 % 65536 } else f.1,
       cycles + 3, true)
  | 0xB2 =>
      let f := fetch_word cpu
      (if cpu_get_flag f.1 FLAG_C then { f.1 with pc := f.2 % 65536 } else f.1,
       cycles + 3, true)
  | 0xB3 =>
      let f := fetch_word cpu
      (if ¬ cpu_get_flag f.1 FLAG_C then { f.1 with pc := f.2 % 65536 } else f.1,
       cycles + 3, true)
  | 0xB4 =>
      let f := fetch_word cpu
      (if cpu_get_flag f.1 FLAG_S then { f.1 with pc := f.2 % 65536 } else f.1,
       cycles + 3, true)
  | 0xB5 =>
      let f := fetch_word cpu
      (if ¬ cpu_get_flag f.1 FLAG_S then { f.1 with pc := f.2 % 65536 } else f.1,
       cycles + 3, true)
  | 0xB6 =>
      let f := fetch_word cpu
      (if cpu_get_flag f.1 FLAG_O then { f.1 with pc := f.2 % 65536 } else f.1,
       cycles + 3, true)
  | 0xB7 =>
      let f := fetch_word cpu
      (if ¬ cpu_get_flag f.1 FLAG_O then { f.1 with pc := f.2 % 65536 } else f.1,
       cycles + 3, true)
  | 0xB8 =>
      let f := fetch_word cpu
      (if cpu_get_flag f.1 FLAG_S ≠ cpu_get_flag f.1 FLAG_O then
         { f.1 with pc := f.2 % 65536 } else f.1, cycles + 3, true)
  | 0xB9 =>
      let f := fetch_word cpu
      (if cpu_get_flag f.1 FLAG_S = cpu_get_flag f.1 FLAG_O then
         { f.1 with pc := f.2 % 65536 } else f.1, cycles + 3, true)
  | 0xBA =>
      let f := fetch_word cpu
      (if cpu_get_flag f.1 FLAG_Z ∨ cpu_get_flag f.1 FLAG_S ≠ cpu_get_flag f.1 FLAG_O
       then { f.1 with pc := f.2 % 65536 } else f.1, cycles + 3, true)
  | 0xBB =>
      let f := fetch_word cpu
      (if ¬ cpu_get_flag f.1 FLAG_Z ∧ cpu_get_flag f.1 FLAG_S = cpu_get_flag f.1 FLAG_O
       then { f.1 with pc := f.2 % 65536 } else f.1, cycles + 3, true)
  | 0xBC =>
      let f := fetch_word cpu
      (if ¬ cpu_get_flag f.1 FLAG_C ∧ ¬ cpu_get_flag f.1 FLAG_Z then
         { f.1 with pc := f.2 % 65536 } else f.1, cycles + 3, true)
  | 0xBD =>
      let f := fetch_word cpu
      (if cpu_get_flag f.1 FLAG_C ∨ cpu_get_flag f.1 FLAG_Z then
         { f.1 with pc := f.2 % 65536 } else f.1, cycles + 3, true)
  | 0xC0 =>
      let f := fetch_word cpu
      let cpu := push_word f.1 f.1.pc
      ({ cpu with pc := f.2 % 65536 }, cycles + 4, true)
  | 0xC1 =>
      let fo := fetch_word cpu
      let fs := fetch_word fo.1
      let cpu := push_word fs.1 (fs.1.seg 0)
      let cpu := push_word cpu cpu.pc
      (set_seg { cpu with pc := fo.2 % 65536 } 0 fs.2, cycles + 6, true)
  | 0xC2 =>
      let f := fetch_byte cpu
      let rd := f.2 &&& 0x07
      let cpu := push_word f.1 f.1.pc
      ({ cpu with pc := reg cpu rd }, cycles + 3, true)
  | 0xC3 =>
      let p := pop_word cpu
      ({ p.1 with pc := p.2 % 65536 }, cycles + 3, true)
  | 0xC4 =>
      let p := pop_word cpu
      let cpu := { p.1 with pc := p.2 % 65536 }
      let p2 := pop_word cpu
      (set_seg p2.1 0 p2.2, cycles + 4, true)
  | 0xC5 =>
      let f := fetch_word cpu
      let p := pop_word f.1
      ({ p.1 with pc := p.2 % 65536, sp := (p.1.sp % 65536 + f.2) % 65536 },
       cycles + 4, true)
  | 0xD0 =>
      let f := fetch_byte cpu
      let cpu := set_r f.1 2 (reg f.1 2 + 65535)
      (if reg cpu 2 ≠ 0 then { cpu with pc := (cpu.pc + sx8 f.2) % 65536 } else cpu,
       cycles + 2, true)
  | 0xD1 =>
      let f := fetch_byte cpu
      let cpu := set_r f.1 2 (reg f.1 2 + 65535)
      (if reg cpu 2 ≠ 0 ∧ cpu_get_flag cpu FLAG_Z then
         { cpu with pc := (cpu.pc + sx8 f.2) % 65536 } else cpu, cycles + 2, true)
  | 0xD2 =>
      let f := fetch_byte cpu
      let cpu := set_r f.1 2 (reg f.1 2 + 65535)
      (if reg cpu 2 ≠ 0 ∧ ¬ cpu_get_flag cpu FLAG_Z then
         { cpu with pc := (cpu.pc + sx8 f.2) % 65536 } else cpu, cycles + 2, true)
  | 0xE0 =>
      let rb := cpu_read_byte cpu (cpu.seg 1) (reg cpu 4)
      let cpu := cpu_write_byte rb.1 (rb.1.seg 3) (reg rb.1 5) rb.2
      let cpu :=
        if cpu_get_flag cpu FLAG_D then
          set_r (set_r cpu 4 (reg cpu 4 + 65535)) 5 (reg cpu 5 + 65535)
        else set_r (set_r cpu 4 (reg cpu 4 + 1)) 5 (reg cpu 5 + 1)
      (cpu, cycles + 4, true)
  | 0xE1 =>
      let rw := cpu_read_word cpu (cpu.seg 1) (reg cpu 4)
      let cpu := cpu_write_word rw.1 (rw.1.seg 3) (reg rw.1 5) rw.2
      let cpu :=
        if cpu_get_flag cpu FLAG_D then
          set_r (set_r cpu 4 (reg cpu 4 + 65534)) 5 (reg cpu 5 + 65534)
        else set_r (set_r cpu 4 (reg cpu 4 + 2)) 5 (reg cpu 5 + 2)
      (cpu, cycles + 4, true)
  | 0xE2 =>
      let rs := cpu_read_byte cpu (cpu.seg 1) (reg cpu 4)
      let rd := cpu_read_byte rs.1 (rs.1.seg 3) (reg rs.1 5)
      let cpu := update_flags_sub16 rd.1 rs.2 rd.2 (sub32 rs.2 rd.2)
      let cpu :=
        if cpu_get_flag cpu FLAG_D then
          set_r (set_r cpu 4 (reg cpu 4 + 65535)) 5 (reg cpu 5 + 65535)
        else set_r (set_r cpu 4 (reg cpu 4 + 1)) 5 (reg cpu 5 + 1)
      (cpu, cycles + 4, true)
  | 0xE3 =>
      let rs := cpu_read_word cpu (cpu.seg 1) (reg cpu 4)
      let rd := cpu_read_word rs.1 (rs.1.seg 3) (reg rs.1 5)
      let cpu := update_flags_sub16 rd.1 rs.2 rd.2 (sub32 rs.2 rd.2)
      let cpu :=
        if cpu_get_flag cpu FLAG_D then
          set_r (set_r cpu 4 (reg cpu 4 + 65534)) 5 (reg cpu 5 + 65534)
        else set_r (set_r cpu 4 (reg cpu 4 + 2)) 5 (reg cpu 5 + 2)
      (cpu, cycles + 4, true)
  | 0xE4 =>
      let cpu := cpu_write_byte cpu (cpu.seg 3) (reg cpu 5) (reg cpu 0 &&& 0xFF)
      let cpu :=
        if cpu_get_flag cpu FLAG_D then set_r cpu 5 (reg cpu 5 + 65535)
        else set_r cpu 5 (reg cpu 5 + 1)
      (cpu, cycles + 3, true)
  | 0xE5 =>
      let cpu := cpu_write_word cpu (cpu.seg 3) (reg cpu 5) (reg cpu 0)
      let cpu :=
        if cpu_get_flag cpu FLAG_D then set_r cpu 5 (reg cpu 5 + 65534)
        else set_r cpu 5 (reg cpu 5 + 2)
      (cpu, cycles + 3, true)
  | 0xE6 =>
      let rb := cpu_read_byte cpu (cpu.seg 1) (reg cpu 4)
      let cpu := set_r rb.1 0 (reg rb.1 0 &&& 0xFF00 ||| rb.2)
      let cpu :=
        if cpu_get_flag cpu FLAG_D then set_r cpu 4 (reg cpu 4 + 65535)
        else set_r cpu 4 (reg cpu 4 + 1)
      (cpu, cycles + 3, true)
  | 0xE7 =>
      let rw := cpu_read_word cpu (cpu.seg 1) (reg cpu 4)
      let cpu := set_r rw.1 0 rw.2
      let cpu :=
        if cpu_get_flag cpu FLAG_D then set_r cpu 4 (reg cpu 4 + 65534)
        else set_r cpu 4 (reg cpu 4 + 2)
      (cpu, cycles + 3, true)
  | 0xE8 =>
      let f := fetch_byte cpu
      rep_loop (reg f.1 2) f.1 f.2 cycles
  | 0xE9 =>
      let f := fetch_byte cpu
      repz_loop (reg f.1 2) f.1 f.2 cycles
  | 0xEA =>
      let f := fetch_byte cpu
      repnz_loop (reg f.1 2) f.1 f.2 cycles
  | 0xF0 =>
      let f := fetch_byte cpu
      let rd := f.2 &&& 0x07
      let fp := fetch_word f.1
      let io_addr := MMIO_BASE + (fp.2 &&& 0xFFFF)
      let rw := cpu_read_phys_word fp.1 io_addr
      (set_r rw.1 rd rw.2, cycles + 4, true)
  | 0xF1 =>
      let f := fetch_byte cpu
      let rs := f.2 &&& 0x07
      let fp := fetch_word f.1
      let io_addr := MMIO_BASE + (fp.2 &&& 0xFFFF)
      (cpu_write_phys_word fp.1 io_addr (reg fp.1 rs), cycles + 4, true)
  | 0xF2 =>
      let f := fetch_byte cpu
      let rd := f.2 &&& 0x07
      let fp := fetch_word f.1
      let io_addr := MMIO_BASE + (fp.2 &&& 0xFFFF)
      let rb := cpu_read_phys_byte fp.1 io_addr
      (set_r rb.1 rd rb.2, cycles + 4, true)
  | 0xF3 =>
      let f := fetch_byte cpu
      let rs := f.2 &&& 0x07
      let fp := fetch_word f.1
      let io_addr := MMIO_BASE + (fp.2 &&& 0xFFFF)
      (cpu_write_phys_byte fp.1 io_addr (reg fp.1 rs &&& 0xFF), cycles + 4, true)
  | _ =>
      ({ cpu with
          error := true,
          error_msg := .unknownOpcode opcode (segr cpu 0) ((cpu.pc + 65535) % 65536)
            (seg_offset_to_phys (cpu.seg 0) ((cpu.pc + 65535) % 65536)),
          halted := true }, cycles, false)

/-- `cpu_step` of `src/micro16/cpu.c`: terminal when halted or errored,
wait-state handling, interrupt delivery, fetch, dispatch, bookkeeping. -/
def cpu_step (cpu : CPU) : CPU × Nat :=
  if cpu.halted ∨ cpu.error then (cpu, 0)
  else if cpu.waiting ∧ ¬(cpu.int_pending ∧ cpu_get_flag cpu FLAG_I) then (cpu, 1)
  else
    let cpu := if cpu.waiting then { cpu with waiting := false } else cpu
    let cpu := check_interrupt cpu
    let f := fetch_byte cpu
    let cpu1 := { f.1 with ir := f.2 }
    match exec_instr cpu1 f.2 1 with
    | (c2, cyc, true) =>
        ({ c2 with instructions := c2.instructions + 1,
                   cycles := c2.cycles + cyc }, cyc)
    | (c2, cyc, false) => (c2, cyc)

end Micro16

/-! ## The 16-bit assembler's emission core (src/micro16/assembler.c) -/

namespace Asm16

/-- Output buffer capacity: 1 MB. -/
def MAX_OUTPUT : Nat := 0x100000

/-- Assembler diagnostics (structured stand-ins for the `snprintf`
strings, carrying the interpolated values). -/
inductive AsmMsg where
  | noMsg : AsmMsg
  | relOutOfRange (offset : Int) : AsmMsg
  deriving DecidableEq

/-- The output-generation state of the `Assembler` struct: the output
byte buffer, origin, current address, highest address written, byte
count and error state. -/
structure Assembler where
  output : Nat → Nat
  origin : Nat
  current_addr : Nat
  max_addr : Nat
  bytes_generated : Nat
  error : Bool
  error_msg : AsmMsg

/-- `emit_byte`: store at `current_addr` when below capacity, track the
maximum address written, and advance the address and byte counters. -/
def emit_byte (asm : Assembler) (value : Nat) : Assembler :=
  if asm.current_addr < MAX_OUTPUT then
    let asm := { asm with
      output := Function.update asm.output asm.current_addr (value % 256) }
    let asm := if asm.max_addr < asm.current_addr
               then { asm with max_addr := asm.current_addr } else asm
    { asm with current_addr := asm.current_addr + 1,
               bytes_generated := asm.bytes_generated + 1 }
  else asm

/-- `emit_word`: low byte first, then high byte (little-endian). -/
def emit_word (asm : Assembler) (value : Nat) : Assembler :=
  let value := value % 65536
  let asm := emit_byte asm (value &&& 0xFF)
  emit_byte asm ((value >>> 8) &&& 0xFF)

/-- One value of a pass-2 `DW` directive: `emit_word(as, (uint16_t)value)`
(from `process_directive`). -/
def process_dw_value (asm : Assembler) (value : Nat) : Assembler :=
  emit_word asm (value % 65536)

/-- The C cast `(int)` of a `uint32_t` value (32-bit two's complement). -/
def toIntC (x : Nat) : Int :=
  let x := x % 4294967296
  if x < 0x80000000 then (x : Int) else (x : Int) - 4294967296

/-- The pass-2 `INSTR_REL8` branch of `process_line`: compute
`offset = (int)target - (int)(current_addr + 2)`; fail with the
out-of-range diagnostic naming the offset when it does not fit in a
signed byte, otherwise emit the opcode byte and the offset byte. -/
def instr_rel8_pass2 (asm : Assembler) (base_opcode target : Nat) : Assembler :=
  let offset : Int := toIntC target - toIntC (asm.current_addr + 2)
  if offset < -128 ∨ 127 < offset then
    { asm with error := true, error_msg := .relOutOfRange offset }
  else
    let asm := emit_byte asm base_opcode
    emit_byte asm (offset % 256).toNat

end Asm16

/-! ## Shared example states for concrete witnesses -/

/-- A concrete, freshly-reset 16-bit CPU (the register/segment defaults
of `cpu_reset` with zeroed memory). -/
def m16ex : Micro16.CPU :=
  { r := fun _ => 0
    seg := fun i => if i = 2 then 0x0F00 else 0
    pc := 0x0100
    sp := 0xFFFE
    flags := 0
    int_pending := false
    int_vector := 0
    ir := 0
    mar := 0
    mdr := 0
    memory := fun _ => 0
    halted := false
    waiting := false
    error := false
    error_msg := .noMsg
    cycles := 0
    instructions := 0 }

/-- A concrete, freshly-reset 4-bit CPU with zeroed memory. -/
def m4ex : Micro4.CPU :=
  { pc := 0
    a := 0
    z := false
    ir := 0
    mar := 0
    mdr := 0
    memory := fun _ => 0
    halted := false
    error := false
    error_msg := .noMsg
    cycles := 0
    instructions := 0 }

/-- A concrete, freshly-reset 8-bit CPU with zeroed memory. -/
def m8ex : Micro8.CPU :=
  { r := fun _ => 0
    pc := 0x0200
    sp := 0xFFFF
    flags := 0
    ie := false
    int_pending := false
    ir := 0
    mar := 0
    mdr := 0
    memory := fun _ => 0
    ports := fun _ => 0
    halted := false
    error := false
    error_msg := .noMsg
    cycles := 0
    instructions := 0 }

/-- A concrete assembler state at the default origin with empty output. -/
def asmEx : Asm16.Assembler :=
  { output := fun _ => 0
    origin := 0x0100
    current_addr := 0x0100
    max_addr := 0
    bytes_generated := 0
    error := false
    error_msg := .noMsg }

/-! ## Specification-side state descriptions used by the theorems -/

/-- Low byte of a pushed 16-bit word. -/
def lo16 (x : Nat) : Nat := (x % 65536 &&& 255) % 256

/-- High byte of a pushed 16-bit word. -/
def hi16 (x : Nat) : Nat := ((x % 65536) >>> 8) % 256

/-- The memory contents after `handle_interrupt`'s three pushes: the
flags word at SS:(SP−2), the CS word at SS:(SP−4) and the PC word at
SS:(SP−6), each little-endian. A specification-side description, proved
to match the code by `handle_interrupt_spec`. -/
def int_frame_mem (c : Micro16.CPU) : Nat → Nat :=
  Function.update (Function.update (Function.update (Function.update
    (Function.update (Function.update c.memory
      (Micro16.seg_offset_to_phys (c.seg 2) (c.sp % 65536 - 2)) (lo16 c.flags))
      (Micro16.seg_offset_to_phys (c.seg 2) (c.sp % 65536 - 2) + 1) (hi16 c.flags))
      (Micro16.seg_offset_to_phys (c.seg 2) (c.sp % 65536 - 4)) (lo16 (c.seg 0)))
      (Micro16.seg_offset_to_phys (c.seg 2) (c.sp % 65536 - 4) + 1) (hi16 (c.seg 0)))
      (Micro16.seg_offset_to_phys (c.seg 2) (c.sp % 65536 - 6)) (lo16 c.pc))
      (Micro16.seg_offset_to_phys (c.seg 2) (c.sp % 65536 - 6) + 1) (hi16 c.pc)

/-- The CPU state after a (in-range) `handle_interrupt c vec`: frame
pushed, I/T cleared, PC/CS loaded little-endian from IVT entry
`vec * 4`; everything else untouched. A specification-side description,
proved to match the code by `handle_interrupt_spec`. -/
def delivered (c : Micro16.CPU) (vec : Nat) : Micro16.CPU :=
  { c with
    sp := c.sp % 65536 - 6,
    flags := (c.flags % 65536 &&& (0xFFFF ^^^ Micro16.FLAG_I)) % 65536 &&&
      (0xFFFF ^^^ Micro16.FLAG_T),
    memory := int_frame_mem c,
    mar := Micro16.IVT_BASE + vec % 256 * 4 + 3,
    mdr := int_frame_mem c (Micro16.IVT_BASE + vec % 256 * 4 + 3) % 256,
    pc := (int_frame_mem c (Micro16.IVT_BASE + vec % 256 * 4) % 256 |||
      (int_frame_mem c (Micro16.IVT_BASE + vec % 256 * 4 + 1) % 256) <<< 8) % 65536,
    seg := Function.update c.seg 0
      ((int_frame_mem c (Micro16.IVT_BASE + vec % 256 * 4 + 2) % 256 |||
        (int_frame_mem c (Micro16.IVT_BASE + vec % 256 * 4 + 3) % 256) <<< 8) %
        65536) }


/-- The tail of `cpu_step` after the waiting/interrupt preamble: fetch
the opcode into IR and dispatch it, with the early-`return` convention
on the instruction/cycle bookkeeping. -/
def step_fetch_exec (cpu : Micro16.CPU) : Micro16.CPU × Nat :=
  let f := Micro16.fetch_byte cpu
  let cpu1 := { f.1 with ir := f.2 }
  match Micro16.exec_instr cpu1 f.2 1 with
  | (c2, cyc, true) =>
      ({ c2 with instructions := c2.instructions + 1,
                 cycles := c2.cycles + cyc }, cyc)
  | (c2, cyc, false) => (c2, cyc)

/-- The opcode bytes that appear as cases of the `cpu_step` switch of
`src/micro16/cpu.c` (every byte outside this list falls to the
unknown-opcode default). -/
def validOpcodes16 : List Nat :=
  [0x00, 0x01, 0x02, 0x04, 0x05, 0x06, 0x07, 0x08, 0x09, 0x0A,
   0x0B, 0x0C, 0x0D, 0x0E, 0x10, 0x11, 0x12, 0x13, 0x14, 0x20,
   0x21, 0x22, 0x23, 0x24, 0x25, 0x26, 0x27, 0x28, 0x40, 0x41,
   0x42, 0x43, 0x44, 0x45, 0x46, 0x47, 0x50, 0x51, 0x52, 0x53,
   0x54, 0x55, 0x56, 0x57, 0x58, 0x59, 0x5A, 0x5B, 0x5C, 0x60,
   0x61, 0x62, 0x63, 0x70, 0x71, 0x72, 0x73, 0x74, 0x75, 0x76,
   0x77, 0x78, 0x80, 0x81, 0x82, 0x83, 0x84, 0x85, 0x86, 0xA0,
   0xA1, 0xA2, 0xA3, 0xB0, 0xB1, 0xB2, 0xB3, 0xB4, 0xB5, 0xB6,
   0xB7, 0xB8, 0xB9, 0xBA, 0xBB, 0xBC, 0xBD, 0xC0, 0xC1, 0xC2,
   0xC3, 0xC4, 0xC5, 0xD0, 0xD1, 0xD2, 0xE0, 0xE1, 0xE2, 0xE3,
   0xE4, 0xE5, 0xE6, 0xE7, 0xE8, 0xE9, 0xEA, 0xF0, 0xF1, 0xF2,
   0xF3]

/-- The high-nibble opcodes of the 4-bit CPU's dispatch switch. -/
def validOpcodes4 : List Nat := [0x0, 0x1, 0x2, 0x3, 0x4, 0x5, 0x6, 0x7]

/-! ## Bit-level helper lemmas -/

/-- Testing a single bit through a conjunction with a power of two. -/
theorem and_pow_ne_zero (x k : Nat) : (x &&& 2 ^ k ≠ 0) ↔ x.testBit k := by
  rw [Nat.and_two_pow]
  cases h : x.testBit k <;> simp [h]

theorem testBit_or_lemma (x y i : Nat) :
    (x ||| y).testBit i = (x.testBit i || y.testBit i) := Nat.testBit_or x y i

theorem testBit_and_lemma (x y i : Nat) :
    (x &&& y).testBit i = (x.testBit i && y.testBit i) := Nat.testBit_and x y i

theorem testBit_xor_lemma (x y i : Nat) :
    (x ^^^ y).testBit i = (Bool.xor (x.testBit i) (y.testBit i)) := Nat.testBit_xor x y i

theorem testBit_mod_two_pow_lemma (x n i : Nat) :
    (x % 2 ^ n).testBit i = (decide (i < n) && x.testBit i) :=
  Nat.testBit_mod_two_pow x n i

/-! ## C8: halted/errored idempotence -/

/-- Every branch of the 4-bit dispatch either leaves `error` unchanged
or sets `error` and `halted` together. -/
theorem micro4_exec_error_halted (cpu : Micro4.CPU) (op opr cyc : Nat) :
    (Micro4.exec cpu op opr cyc).1.error = cpu.error ∨
      ((Micro4.exec cpu op opr cyc).1.error = true ∧
        (Micro4.exec cpu op opr cyc).1.halted = true) := by
  unfold Micro4.exec
  split
  · exact Or.inl rfl
  · exact Or.inl rfl
  · exact Or.inl rfl
  · exact Or.inl rfl
  · exact Or.inl rfl
  · exact Or.inl rfl
  · simp only []
    split <;> exact Or.inl rfl
  · exact Or.inl rfl
  · exact Or.inr ⟨rfl, rfl⟩

/-- Equation form of `micro4_exec_error_halted`: the dispatched state's
error bit comes from the pre-state unless it was set together with
`halted`. -/
theorem micro4_exec_error_halted_of_eq {cpu c2 : Micro4.CPU} {op opr cyc0 cyc : Nat}
    {flag : Bool} (h : Micro4.exec cpu op opr cyc0 = (c2, cyc, flag)) :
    c2.error = cpu.error ∨ (c2.error = true ∧ c2.halted = true) := by
  have hh := micro4_exec_error_halted cpu op opr cyc0
  rw [h] at hh
  exact hh

/-- C8: once the CPU is `Halted` (or `Errored`), every further `step`
returns 0 cycles and changes nothing: literally `cpu_step cpu = (cpu, 0)`
for the 16-bit CPU with either flag set and for the 4-bit CPU when
halted; in the 4-bit CPU, `step` only ever enters the `Errored` state
together with `Halted`, so an errored 4-bit CPU is halted as well. -/
theorem claim_halted_idempotence :
    (∀ cpu : Micro16.CPU, cpu.halted = true ∨ cpu.error = true →
        Micro16.cpu_step cpu = (cpu, 0)) ∧
    (∀ cpu : Micro4.CPU, cpu.halted = true → Micro4.cpu_step cpu = (cpu, 0)) ∧
    (∀ cpu : Micro4.CPU, (Micro4.cpu_step cpu).1.error = true →
        (Micro4.cpu_step cpu).1.halted = true ∨ cpu.error = true) := by
  refine ⟨?_, ?_, ?_⟩
  · intro cpu h
    rcases h with h | h <;> simp [Micro16.cpu_step, h]
  · intro cpu h
    simp [Micro4.cpu_step, h]
  · intro cpu
    unfold Micro4.cpu_step
    split
    · exact fun h => Or.inr h
    · split
      · exact fun _ => Or.inl rfl
      · dsimp only
        split
        · rename_i c2 cyc heq
          intro herr
          dsimp only at herr
          have hh := micro4_exec_error_halted_of_eq heq
          rcases hh with hh | hh
          · refine Or.inr ?_
            rw [herr] at hh
            simpa [Micro4.fetch_byte] using hh.symm
          · exact Or.inl hh.2
        · rename_i c2 cyc heq
          intro herr
          have hh := micro4_exec_error_halted_of_eq heq
          rcases hh with hh | hh
          · refine Or.inr ?_
            rw [herr] at hh
            simpa [Micro4.fetch_byte] using hh.symm
          · exact Or.inl hh.2

/-- Witness for C8 at concrete inputs: a halted 16-bit CPU, a halted
4-bit CPU, and a 4-bit CPU that steps into the error state. -/
theorem claim_halted_idempotence_witness :
    ({ m16ex with halted := true }.halted = true ∨
        { m16ex with halted := true }.error = true) ∧
    Micro16.cpu_step { m16ex with halted := true } =
      ({ m16ex with halted := true }, 0) ∧
    { m4ex with halted := true }.halted = true ∧
    Micro4.cpu_step { m4ex with halted := true } = ({ m4ex with halted := true }, 0) ∧
    ((Micro4.cpu_step { m4ex with pc := 255 }).1.error = true →
      (Micro4.cpu_step { m4ex with pc := 255 }).1.halted = true ∨
        { m4ex with pc := 255 }.error = true) :=
  ⟨Or.inl rfl,
   claim_halted_idempotence.1 _ (Or.inl rfl),
   rfl,
   claim_halted_idempotence.2.1 _ rfl,
   claim_halted_idempotence.2.2 _⟩

/-! ## C9: DW emits little-endian words -/

/-- C9: a pass-2 `DW v` value emits exactly two bytes at the current
output address — the low byte of `v` first, the high byte at the next
address — and reading them back in little-endian order yields `v`; the
address and byte counters advance by two. -/
theorem claim_dw_little_endian (asm : Asm16.Assembler) (v : Nat)
    (hv : v < 65536) (ha : asm.current_addr + 1 < Asm16.MAX_OUTPUT) :
    (Asm16.process_dw_value asm v).output asm.current_addr = v % 256 ∧
    (Asm16.process_dw_value asm v).output (asm.current_addr + 1) = v / 256 ∧
    (Asm16.process_dw_value asm v).output asm.current_addr +
      256 * (Asm16.process_dw_value asm v).output (asm.current_addr + 1) = v ∧
    (Asm16.process_dw_value asm v).current_addr = asm.current_addr + 2 ∧
    (Asm16.process_dw_value asm v).bytes_generated = asm.bytes_generated + 2 := by
  have h0 : asm.current_addr < Asm16.MAX_OUTPUT := by omega
  have hand : ∀ x : Nat, x &&& 255 = x % 256 := by
    intro x
    have := Nat.and_pow_two_sub_one_eq_mod x 8
    norm_num at this
    exact this
  have hshift : ∀ x : Nat, x >>> 8 = x / 256 := by
    intro x
    have := Nat.shiftRight_eq_div_pow x 8
    norm_num at this
    exact this
  have hne1 : asm.current_addr ≠ asm.current_addr + 1 := by omega
  have hne2 : asm.current_addr + 1 ≠ asm.current_addr := by omega
  unfold Asm16.process_dw_value Asm16.emit_word Asm16.emit_byte
  simp only [hand, hshift]
  split_ifs <;>
    first
      | (exfalso; simp_all; omega)
      | (refine ⟨?_, ?_, ?_, ?_, ?_⟩ <;>
          simp [Function.update_same, Function.update_noteq hne1,
                Function.update_noteq hne2] <;> omega)

/-- Witness for C9 at the boundary values `0x0000` and `0xFFFF`. -/
theorem claim_dw_little_endian_witness :
    ((0 : Nat) < 65536 ∧ asmEx.current_addr + 1 < Asm16.MAX_OUTPUT ∧
      (Asm16.process_dw_value asmEx 0).output asmEx.current_addr = 0 % 256) ∧
    ((0xFFFF : Nat) < 65536 ∧
      (Asm16.process_dw_value asmEx 0xFFFF).output asmEx.current_addr +
        256 * (Asm16.process_dw_value asmEx 0xFFFF).output (asmEx.current_addr + 1) =
          0xFFFF) :=
  ⟨⟨by decide, by decide, (claim_dw_little_endian asmEx 0 (by decide) (by decide)).1⟩,
   ⟨by decide,
    (claim_dw_little_endian asmEx 0xFFFF (by decide) (by decide)).2.2.1⟩⟩

/-! ## C6: relative-branch range checking -/

/-- `emit_byte` never touches the error flag. -/
theorem emit_byte_error (asm : Asm16.Assembler) (v : Nat) :
    (Asm16.emit_byte asm v).error = asm.error := by
  unfold Asm16.emit_byte
  dsimp only
  split_ifs <;> rfl

/-- `emit_byte` never touches the error message. -/
theorem emit_byte_error_msg (asm : Asm16.Assembler) (v : Nat) :
    (Asm16.emit_byte asm v).error_msg = asm.error_msg := by
  unfold Asm16.emit_byte
  dsimp only
  split_ifs <;> rfl

/-- Below capacity, `emit_byte` stores the truncated byte at the current
address. -/
theorem emit_byte_output (asm : Asm16.Assembler) (v : Nat)
    (h : asm.current_addr < Asm16.MAX_OUTPUT) :
    (Asm16.emit_byte asm v).output =
      Function.update asm.output asm.current_addr (v % 256) := by
  unfold Asm16.emit_byte
  rw [if_pos h]
  dsimp only
  split <;> rfl

/-- Below capacity, `emit_byte` advances the current address by one. -/
theorem emit_byte_current (asm : Asm16.Assembler) (v : Nat)
    (h : asm.current_addr < Asm16.MAX_OUTPUT) :
    (Asm16.emit_byte asm v).current_addr = asm.current_addr + 1 := by
  unfold Asm16.emit_byte
  rw [if_pos h]
  dsimp only
  split <;> rfl

/-- C6: pass 2 computes the relative-branch offset as the target address
minus the address immediately after the 2-byte instruction
(`current_addr + 2`); the branch assembles without error iff that offset
lies in `[-128, 127]`, and otherwise the assembler records the
out-of-range diagnostic naming the computed offset; on success the
opcode byte and the two's-complement offset byte are emitted. -/
theorem claim_rel8_range (asm : Asm16.Assembler) (base_opcode target : Nat)
    (herr : asm.error = false)
    (haddr : asm.current_addr + 2 < 2147483648)
    (htgt : target < 2147483648)
    (hout : asm.current_addr + 1 < Asm16.MAX_OUTPUT) :
    ((Asm16.instr_rel8_pass2 asm base_opcode target).error = false ↔
      -128 ≤ (target : Int) - ((asm.current_addr : Int) + 2) ∧
        (target : Int) - ((asm.current_addr : Int) + 2) ≤ 127) ∧
    ((target : Int) - ((asm.current_addr : Int) + 2) < -128 ∨
       127 < (target : Int) - ((asm.current_addr : Int) + 2) →
      (Asm16.instr_rel8_pass2 asm base_opcode target).error_msg =
        .relOutOfRange ((target : Int) - ((asm.current_addr : Int) + 2))) ∧
    (-128 ≤ (target : Int) - ((asm.current_addr : Int) + 2) →
      (target : Int) - ((asm.current_addr : Int) + 2) ≤ 127 →
      (Asm16.instr_rel8_pass2 asm base_opcode target).output asm.current_addr =
        base_opcode % 256 ∧
      (Asm16.instr_rel8_pass2 asm base_opcode target).output (asm.current_addr + 1) =
        (((target : Int) - ((asm.current_addr : Int) + 2)) % 256).toNat ∧
      (Asm16.instr_rel8_pass2 asm base_opcode target).current_addr =
        asm.current_addr + 2) := by
  have htc : Asm16.toIntC target = (target : Int) := by
    unfold Asm16.toIntC
    rw [Nat.mod_eq_of_lt (by omega)]
    rw [if_pos (by exact_mod_cast htgt)]
  have hac : Asm16.toIntC (asm.current_addr + 2) = (asm.current_addr : Int) + 2 := by
    unfold Asm16.toIntC
    rw [Nat.mod_eq_of_lt (by omega)]
    rw [if_pos (by exact_mod_cast haddr)]
    push_cast
    ring
  have h0 : asm.current_addr < Asm16.MAX_OUTPUT := by omega
  have hne1 : asm.current_addr ≠ asm.current_addr + 1 := by omega
  have hne2 : asm.current_addr + 1 ≠ asm.current_addr := by omega
  unfold Asm16.instr_rel8_pass2
  simp only [htc, hac]
  split
  · rename_i hrange
    refine ⟨?_, fun _ => rfl, fun hlo hhi => absurd hrange (by omega)⟩
    simp only [herr]
    constructor
    · intro hfalse
      exact absurd hfalse.symm (by simp)
    · intro hin
      omega
  · rename_i hrange
    push_neg at hrange
    have hmodlt : (((target : Int) - ((asm.current_addr : Int) + 2)) % 256).toNat < 256 := by
      have h1 : (0 : Int) ≤ ((target : Int) - ((asm.current_addr : Int) + 2)) % 256 :=
        Int.emod_nonneg _ (by norm_num)
      have h2 : ((target : Int) - ((asm.current_addr : Int) + 2)) % 256 < 256 :=
        Int.emod_lt_of_pos _ (by norm_num)
      omega
    have hc1 : (Asm16.emit_byte asm base_opcode).current_addr =
        asm.current_addr + 1 := emit_byte_current asm base_opcode h0
    have hlt1 : (Asm16.emit_byte asm base_opcode).current_addr <
        Asm16.MAX_OUTPUT := by rw [hc1]; omega
    refine ⟨?_, fun h => absurd h (by omega), fun _ _ => ?_⟩
    · rw [emit_byte_error, emit_byte_error, herr]
      exact iff_of_true rfl hrange
    · rw [emit_byte_output _ _ hlt1, emit_byte_current _ _ hlt1, hc1,
          emit_byte_output _ _ h0]
      refine ⟨?_, ?_, rfl⟩
      · rw [Function.update_noteq hne1, Function.update_same]
      · rw [Function.update_same, Nat.mod_eq_of_lt hmodlt]

/-- Witness for C6 at the four boundary offsets from the default origin
(after-instruction address `0x0102`): targets `0x0181` (offset 127) and
`0x0082` (offset −128) assemble; targets `0x0182` (offset 128) and
`0x0081` (offset −129) fail with the diagnostic naming the offset. -/
theorem claim_rel8_range_witness :
    asmEx.error = false ∧
    (Asm16.instr_rel8_pass2 asmEx 0xA3 0x0181).error = false ∧
    (Asm16.instr_rel8_pass2 asmEx 0xA3 0x0082).error = false ∧
    (Asm16.instr_rel8_pass2 asmEx 0xA3 0x0182).error_msg =
      .relOutOfRange 128 ∧
    (Asm16.instr_rel8_pass2 asmEx 0xA3 0x0081).error_msg =
      .relOutOfRange (-129) :=
  ⟨rfl,
   (claim_rel8_range asmEx 0xA3 0x0181 rfl (by decide) (by decide) (by decide)).1.mpr
     (by constructor <;> decide),
   (claim_rel8_range asmEx 0xA3 0x0082 rfl (by decide) (by decide) (by decide)).1.mpr
     (by constructor <;> decide),
   by
     have h := (claim_rel8_range asmEx 0xA3 0x0182 rfl (by decide) (by decide)
       (by decide)).2.1 (by right; decide)
     simpa using h,
   by
     have h := (claim_rel8_range asmEx 0xA3 0x0081 rfl (by decide) (by decide)
       (by decide)).2.1 (by left; decide)
     simpa using h⟩

/-! ## C2: out-of-bounds memory access (corrected) -/

/-- C2 (amended): every out-of-bounds physical memory access — reachable
in the 16-bit variant through segment:offset pairs whose 20-bit sum
exceeds 1 MB — sets the Errored state with the out-of-range diagnostic
naming the address, leaves memory (and the `halted` bit) unchanged, and
reads as zero; because `step` refuses to run an errored CPU, no
resumption path short of `reset`/`init` exists even though `Halted` is
not set. -/
theorem claim_oob_access_errors (cpu : Micro16.CPU) (addr v : Nat)
    (h : Micro16.MEM_SIZE ≤ addr) (h32 : addr < 4294967296) :
    (Micro16.cpu_write_phys_byte cpu addr v).error = true ∧
    (Micro16.cpu_write_phys_byte cpu addr v).halted = cpu.halted ∧
    (Micro16.cpu_write_phys_byte cpu addr v).memory = cpu.memory ∧
    (Micro16.cpu_write_phys_byte cpu addr v).error_msg = .physOutOfRange addr ∧
    (Micro16.cpu_read_phys_byte cpu addr).1.error = true ∧
    (Micro16.cpu_read_phys_byte cpu addr).2 = 0 ∧
    (Micro16.cpu_read_phys_byte cpu addr).1.halted = cpu.halted ∧
    (∀ s : Micro16.CPU, s.error = true → Micro16.cpu_step s = (s, 0)) ∧
    Micro16.MEM_SIZE ≤ Micro16.seg_offset_to_phys 0xFFFF 0xFFFF := by
  have hm : addr % 4294967296 = addr := Nat.mod_eq_of_lt h32
  have hge : Micro16.MEM_SIZE ≤ addr % 4294967296 := by omega
  unfold Micro16.cpu_write_phys_byte Micro16.cpu_read_phys_byte
  rw [hm]
  simp only [if_pos h]
  refine ⟨?_, ?_, ?_, ?_, ?_, ?_, ?_, ?_, ?_⟩ <;>
    first
      | rfl
      | trivial
      | decide
      | (intro s hs; simp [Micro16.cpu_step, hs])

/-- Witness for C2's amended statement at a concrete out-of-range
address (`0xFFFF:0xFFFF`, physical `0x10FFEF`). -/
theorem claim_oob_access_errors_witness :
    Micro16.MEM_SIZE ≤ Micro16.seg_offset_to_phys 0xFFFF 0xFFFF ∧
    (Micro16.cpu_write_phys_byte m16ex
      (Micro16.seg_offset_to_phys 0xFFFF 0xFFFF) 0x12).error = true ∧
    (Micro16.cpu_write_phys_byte m16ex
      (Micro16.seg_offset_to_phys 0xFFFF 0xFFFF) 0x12).halted = m16ex.halted :=
  ⟨by decide,
   (claim_oob_access_errors m16ex _ 0x12 (by decide) (by decide)).1,
   (claim_oob_access_errors m16ex _ 0x12 (by decide) (by decide)).2.1⟩

/-- Counterexample to C2 as stated: writing one byte past the end of
memory (and a full `cpu_step` whose instruction fetch falls past the end
of memory) sets `error` but leaves `halted` false — the two terminal
bits are not entered together for out-of-bounds accesses. -/
theorem claim_oob_access_counterexample :
    (Micro16.cpu_write_phys_byte m16ex 0x100000 0x12).error = true ∧
    (Micro16.cpu_write_phys_byte m16ex 0x100000 0x12).halted = false ∧
    (Micro16.cpu_step { m16ex with seg := fun _ => 0xFFFF, pc := 0xFFFF }).1.error
      = true ∧
    (Micro16.cpu_step { m16ex with seg := fun _ => 0xFFFF, pc := 0xFFFF }).1.halted
      = false :=
  ⟨rfl, rfl, rfl, rfl⟩

/-! ## Interrupt-delivery machinery: in-range characterizations -/

/-- In-range `cpu_write_phys_byte` as an explicit record. -/
theorem write_phys_byte_spec (c : Micro16.CPU) (addr v : Nat)
    (h : addr < Micro16.MEM_SIZE) :
    Micro16.cpu_write_phys_byte c addr v =
      { c with mar := addr, mdr := v % 256,
               memory := Function.update c.memory addr (v % 256) } := by
  unfold Micro16.cpu_write_phys_byte
  rw [Nat.mod_eq_of_lt (by
    have : Micro16.MEM_SIZE = 0x100000 := rfl
    omega)]
  rw [if_neg (by omega)]

/-- In-range `cpu_read_phys_byte` as an explicit record and value. -/
theorem read_phys_byte_spec (c : Micro16.CPU) (addr : Nat)
    (h : addr < Micro16.MEM_SIZE) :
    Micro16.cpu_read_phys_byte c addr =
      ({ c with mar := addr, mdr := c.memory addr % 256 }, c.memory addr % 256) := by
  unfold Micro16.cpu_read_phys_byte
  rw [Nat.mod_eq_of_lt (by
    have : Micro16.MEM_SIZE = 0x100000 := rfl
    omega)]
  rw [if_neg (by omega)]

/-- In-range `cpu_read_phys_word` as an explicit record and value. -/
theorem read_phys_word_spec (c : Micro16.CPU) (addr : Nat)
    (h : addr + 1 < Micro16.MEM_SIZE) :
    Micro16.cpu_read_phys_word c addr =
      ({ c with mar := addr + 1, mdr := c.memory (addr + 1) % 256 },
       c.memory addr % 256 ||| (c.memory (addr + 1) % 256) <<< 8) := by
  simp only [Micro16.cpu_read_phys_word]
  rw [read_phys_byte_spec c addr (by omega)]
  rw [read_phys_byte_spec _ (addr + 1) (by omega)]

/-- In-range `cpu_write_phys_word` as an explicit record: low byte at
`addr`, high byte at `addr + 1`. -/
theorem write_phys_word_spec (c : Micro16.CPU) (addr v : Nat)
    (h : addr + 1 < Micro16.MEM_SIZE) :
    Micro16.cpu_write_phys_word c addr v =
      { c with mar := addr + 1, mdr := ((v % 65536) >>> 8) % 256,
               memory := Function.update
                 (Function.update c.memory addr ((v % 65536 &&& 255) % 256))
                 (addr + 1) (((v % 65536) >>> 8) % 256) } := by
  simp only [Micro16.cpu_write_phys_word]
  rw [write_phys_byte_spec c addr _ (by omega)]
  rw [write_phys_byte_spec _ (addr + 1) _ (by omega)]

/-- In-range `push_word` as an explicit record. -/
theorem push_word_spec (c : Micro16.CPU) (v : Nat)
    (h : Micro16.seg_offset_to_phys (c.seg 2) ((c.sp + 65534) % 65536) + 1 <
      Micro16.MEM_SIZE) :
    Micro16.push_word c v =
      { c with
        sp := (c.sp + 65534) % 65536,
        mar := Micro16.seg_offset_to_phys (c.seg 2) ((c.sp + 65534) % 65536) + 1,
        mdr := ((v % 65536) >>> 8) % 256,
        memory := Function.update
          (Function.update c.memory
            (Micro16.seg_offset_to_phys (c.seg 2) ((c.sp + 65534) % 65536))
            ((v % 65536 &&& 255) % 256))
          (Micro16.seg_offset_to_phys (c.seg 2) ((c.sp + 65534) % 65536) + 1)
          (((v % 65536) >>> 8) % 256) } := by
  simp only [Micro16.push_word, Micro16.cpu_write_word]
  rw [write_phys_word_spec _ _ _ h]

/-- `handle_interrupt` computes exactly `delivered` whenever the
three-word stack frame fits below the end of physical memory. -/
theorem handle_interrupt_spec (c : Micro16.CPU) (vec : Nat)
    (hsp : 6 ≤ c.sp % 65536)
    (hph : Micro16.seg_offset_to_phys (c.seg 2) (c.sp % 65536 - 1) <
      Micro16.MEM_SIZE) :
    Micro16.handle_interrupt c vec = delivered c vec := by
  have hphm : (c.seg 2 % 65536) * 16 + (c.sp % 65536 - 1) < Micro16.MEM_SIZE := by
    unfold Micro16.seg_offset_to_phys at hph
    omega
  have s1 : Micro16.push_word c c.flags = { c with sp := c.sp % 65536 - 2, mar := Micro16.seg_offset_to_phys (c.seg 2) (c.sp % 65536 - 2) + 1, mdr := hi16 c.flags, memory := Function.update (Function.update c.memory (Micro16.seg_offset_to_phys (c.seg 2) (c.sp % 65536 - 2)) (lo16 c.flags)) (Micro16.seg_offset_to_phys (c.seg 2) (c.sp % 65536 - 2) + 1) (hi16 c.flags) } := by
    rw [push_word_spec c c.flags (by unfold Micro16.seg_offset_to_phys; omega)]
    rw [show (c.sp + 65534) % 65536 = c.sp % 65536 - 2 from by omega]
    rfl
  have s2 : Micro16.push_word ({ c with sp := c.sp % 65536 - 2, mar := Micro16.seg_offset_to_phys (c.seg 2) (c.sp % 65536 - 2) + 1, mdr := hi16 c.flags, memory := Function.update (Function.update c.memory (Micro16.seg_offset_to_phys (c.seg 2) (c.sp % 65536 - 2)) (lo16 c.flags)) (Micro16.seg_offset_to_phys (c.seg 2) (c.sp % 65536 - 2) + 1) (hi16 c.flags) }) (c.seg 0) = { c with sp := c.sp % 65536 - 4, mar := Micro16.seg_offset_to_phys (c.seg 2) (c.sp % 65536 - 4) + 1, mdr := hi16 (c.seg 0), memory := Function.update (Function.update (Function.update (Function.update c.memory (Micro16.seg_offset_to_phys (c.seg 2) (c.sp % 65536 - 2)) (lo16 c.flags)) (Micro16.seg_offset_to_phys (c.seg 2) (c.sp % 65536 - 2) + 1) (hi16 c.flags)) (Micro16.seg_offset_to_phys (c.seg 2) (c.sp % 65536 - 4)) (lo16 (c.seg 0))) (Micro16.seg_offset_to_phys (c.seg 2) (c.sp % 65536 - 4) + 1) (hi16 (c.seg 0)) } := by
    rw [push_word_spec ({ c with sp := c.sp % 65536 - 2, mar := Micro16.seg_offset_to_phys (c.seg 2) (c.sp % 65536 - 2) + 1, mdr := hi16 c.flags, memory := Function.update (Function.update c.memory (Micro16.seg_offset_to_phys (c.seg 2) (c.sp % 65536 - 2)) (lo16 c.flags)) (Micro16.seg_offset_to_phys (c.seg 2) (c.sp % 65536 - 2) + 1) (hi16 c.flags) }) (c.seg 0)
      (show Micro16.seg_offset_to_phys (c.seg 2)
      ((c.sp % 65536 - 2 + 65534) % 65536) + 1 < Micro16.MEM_SIZE from by
        unfold Micro16.seg_offset_to_phys; omega)]
    dsimp only
    rw [show (c.sp % 65536 - 2 + 65534) % 65536 = c.sp % 65536 - 4 from by omega]
    rfl
  have s3 : Micro16.push_word ({ c with sp := c.sp % 65536 - 4, mar := Micro16.seg_offset_to_phys (c.seg 2) (c.sp % 65536 - 4) + 1, mdr := hi16 (c.seg 0), memory := Function.update (Function.update (Function.update (Function.update c.memory (Micro16.seg_offset_to_phys (c.seg 2) (c.sp % 65536 - 2)) (lo16 c.flags)) (Micro16.seg_offset_to_phys (c.seg 2) (c.sp % 65536 - 2) + 1) (hi16 c.flags)) (Micro16.seg_offset_to_phys (c.seg 2) (c.sp % 65536 - 4)) (lo16 (c.seg 0))) (Micro16.seg_offset_to_phys (c.seg 2) (c.sp % 65536 - 4) + 1) (hi16 (c.seg 0)) }) c.pc = { c with sp := c.sp % 65536 - 6, mar := Micro16.seg_offset_to_phys (c.seg 2) (c.sp % 65536 - 6) + 1, mdr := hi16 c.pc, memory := Function.update (Function.update (Function.update (Function.update (Function.update (Function.update c.memory (Micro16.seg_offset_to_phys (c.seg 2) (c.sp % 65536 - 2)) (lo16 c.flags)) (Micro16.seg_offset_to_phys (c.seg 2) (c.sp % 65536 - 2) + 1) (hi16 c.flags)) (Micro16.seg_offset_to_phys (c.seg 2) (c.sp % 65536 - 4)) (lo16 (c.seg 0))) (Micro16.seg_offset_to_phys (c.seg 2) (c.sp % 65536 - 4) + 1) (hi16 (c.seg 0))) (Micro16.seg_offset_to_phys (c.seg 2) (c.sp % 65536 - 6)) (lo16 c.pc)) (Micro16.seg_offset_to_phys (c.seg 2) (c.sp % 65536 - 6) + 1) (hi16 c.pc) } := by
    rw [push_word_spec ({ c with sp := c.sp % 65536 - 4, mar := Micro16.seg_offset_to_phys (c.seg 2) (c.sp % 65536 - 4) + 1, mdr := hi16 (c.seg 0), memory := Function.update (Function.update (Function.update (Function.update c.memory (Micro16.seg_offset_to_phys (c.seg 2) (c.sp % 65536 - 2)) (lo16 c.flags)) (Micro16.seg_offset_to_phys (c.seg 2) (c.sp % 65536 - 2) + 1) (hi16 c.flags)) (Micro16.seg_offset_to_phys (c.seg 2) (c.sp % 65536 - 4)) (lo16 (c.seg 0))) (Micro16.seg_offset_to_phys (c.seg 2) (c.sp % 65536 - 4) + 1) (hi16 (c.seg 0)) }) c.pc
      (show Micro16.seg_offset_to_phys (c.seg 2)
      ((c.sp % 65536 - 4 + 65534) % 65536) + 1 < Micro16.MEM_SIZE from by
        unfold Micro16.seg_offset_to_phys; omega)]
    dsimp only
    rw [show (c.sp % 65536 - 4 + 65534) % 65536 = c.sp % 65536 - 6 from by omega]
    rfl
  have s4 : Micro16.cpu_set_flag (Micro16.cpu_set_flag ({ c with sp := c.sp % 65536 - 6, mar := Micro16.seg_offset_to_phys (c.seg 2) (c.sp % 65536 - 6) + 1, mdr := hi16 c.pc, memory := Function.update (Function.update (Function.update (Function.update (Function.update (Function.update c.memory (Micro16.seg_offset_to_phys (c.seg 2) (c.sp % 65536 - 2)) (lo16 c.flags)) (Micro16.seg_offset_to_phys (c.seg 2) (c.sp % 65536 - 2) + 1) (hi16 c.flags)) (Micro16.seg_offset_to_phys (c.seg 2) (c.sp % 65536 - 4)) (lo16 (c.seg 0))) (Micro16.seg_offset_to_phys (c.seg 2) (c.sp % 65536 - 4) + 1) (hi16 (c.seg 0))) (Micro16.seg_offset_to_phys (c.seg 2) (c.sp % 65536 - 6)) (lo16 c.pc)) (Micro16.seg_offset_to_phys (c.seg 2) (c.sp % 65536 - 6) + 1) (hi16 c.pc) })
      Micro16.FLAG_I false) Micro16.FLAG_T false = { c with sp := c.sp % 65536 - 6, flags := (c.flags % 65536 &&& (0xFFFF ^^^ Micro16.FLAG_I)) % 65536 &&& (0xFFFF ^^^ Micro16.FLAG_T), mar := Micro16.seg_offset_to_phys (c.seg 2) (c.sp % 65536 - 6) + 1, mdr := hi16 c.pc, memory := Function.update (Function.update (Function.update (Function.update (Function.update (Function.update c.memory (Micro16.seg_offset_to_phys (c.seg 2) (c.sp % 65536 - 2)) (lo16 c.flags)) (Micro16.seg_offset_to_phys (c.seg 2) (c.sp % 65536 - 2) + 1) (hi16 c.flags)) (Micro16.seg_offset_to_phys (c.seg 2) (c.sp % 65536 - 4)) (lo16 (c.seg 0))) (Micro16.seg_offset_to_phys (c.seg 2) (c.sp % 65536 - 4) + 1) (hi16 (c.seg 0))) (Micro16.seg_offset_to_phys (c.seg 2) (c.sp % 65536 - 6)) (lo16 c.pc)) (Micro16.seg_offset_to_phys (c.seg 2) (c.sp % 65536 - 6) + 1) (hi16 c.pc) } := rfl
  have s5 : Micro16.cpu_read_phys_word ({ c with sp := c.sp % 65536 - 6, flags := (c.flags % 65536 &&& (0xFFFF ^^^ Micro16.FLAG_I)) % 65536 &&& (0xFFFF ^^^ Micro16.FLAG_T), mar := Micro16.seg_offset_to_phys (c.seg 2) (c.sp % 65536 - 6) + 1, mdr := hi16 c.pc, memory := Function.update (Function.update (Function.update (Function.update (Function.update (Function.update c.memory (Micro16.seg_offset_to_phys (c.seg 2) (c.sp % 65536 - 2)) (lo16 c.flags)) (Micro16.seg_offset_to_phys (c.seg 2) (c.sp % 65536 - 2) + 1) (hi16 c.flags)) (Micro16.seg_offset_to_phys (c.seg 2) (c.sp % 65536 - 4)) (lo16 (c.seg 0))) (Micro16.seg_offset_to_phys (c.seg 2) (c.sp % 65536 - 4) + 1) (hi16 (c.seg 0))) (Micro16.seg_offset_to_phys (c.seg 2) (c.sp % 65536 - 6)) (lo16 c.pc)) (Micro16.seg_offset_to_phys (c.seg 2) (c.sp % 65536 - 6) + 1) (hi16 c.pc) }) (Micro16.IVT_BASE + vec % 256 * 4) =
      ({ c with sp := c.sp % 65536 - 6, flags := (c.flags % 65536 &&& (0xFFFF ^^^ Micro16.FLAG_I)) % 65536 &&& (0xFFFF ^^^ Micro16.FLAG_T), mar := Micro16.IVT_BASE + vec % 256 * 4 + 1, mdr := (Function.update (Function.update (Function.update (Function.update (Function.update (Function.update c.memory (Micro16.seg_offset_to_phys (c.seg 2) (c.sp % 65536 - 2)) (lo16 c.flags)) (Micro16.seg_offset_to_phys (c.seg 2) (c.sp % 65536 - 2) + 1) (hi16 c.flags)) (Micro16.seg_offset_to_phys (c.seg 2) (c.sp % 65536 - 4)) (lo16 (c.seg 0))) (Micro16.seg_offset_to_phys (c.seg 2) (c.sp % 65536 - 4) + 1) (hi16 (c.seg 0))) (Micro16.seg_offset_to_phys (c.seg 2) (c.sp % 65536 - 6)) (lo16 c.pc)) (Micro16.seg_offset_to_phys (c.seg 2) (c.sp % 65536 - 6) + 1) (hi16 c.pc)) (Micro16.IVT_BASE + vec % 256 * 4 + 1) % 256, memory := Function.update (Function.update (Function.update (Function.update (Function.update (Function.update c.memory (Micro16.seg_offset_to_phys (c.seg 2) (c.sp % 65536 - 2)) (lo16 c.flags)) (Micro16.seg_offset_to_phys (c.seg 2) (c.sp % 65536 - 2) + 1) (hi16 c.flags)) (Micro16.seg_offset_to_phys (c.seg 2) (c.sp % 65536 - 4)) (lo16 (c.seg 0))) (Micro16.seg_offset_to_phys (c.seg 2) (c.sp % 65536 - 4) + 1) (hi16 (c.seg 0))) (Micro16.seg_offset_to_phys (c.seg 2) (c.sp % 65536 - 6)) (lo16 c.pc)) (Micro16.seg_offset_to_phys (c.seg 2) (c.sp % 65536 - 6) + 1) (hi16 c.pc) }, (Function.update (Function.update (Function.update (Function.update (Function.update (Function.update c.memory (Micro16.seg_offset_to_phys (c.seg 2) (c.sp % 65536 - 2)) (lo16 c.flags)) (Micro16.seg_offset_to_phys (c.seg 2) (c.sp % 65536 - 2) + 1) (hi16 c.flags)) (Micro16.seg_offset_to_phys (c.seg 2) (c.sp % 65536 - 4)) (lo16 (c.seg 0))) (Micro16.seg_offset_to_phys (c.seg 2) (c.sp % 65536 - 4) + 1) (hi16 (c.seg 0))) (Micro16.seg_offset_to_phys (c.seg 2) (c.sp % 65536 - 6)) (lo16 c.pc)) (Micro16.seg_offset_to_phys (c.seg 2) (c.sp % 65536 - 6) + 1) (hi16 c.pc)) (Micro16.IVT_BASE + vec % 256 * 4) % 256 ||| ((Function.update (Function.update (Function.update (Function.update (Function.update (Function.update c.memory (Micro16.seg_offset_to_phys (c.seg 2) (c.sp % 65536 - 2)) (lo16 c.flags)) (Micro16.seg_offset_to_phys (c.seg 2) (c.sp % 65536 - 2) + 1) (hi16 c.flags)) (Micro16.seg_offset_to_phys (c.seg 2) (c.sp % 65536 - 4)) (lo16 (c.seg 0))) (Micro16.seg_offset_to_phys (c.seg 2) (c.sp % 65536 - 4) + 1) (hi16 (c.seg 0))) (Micro16.seg_offset_to_phys (c.seg 2) (c.sp % 65536 - 6)) (lo16 c.pc)) (Micro16.seg_offset_to_phys (c.seg 2) (c.sp % 65536 - 6) + 1) (hi16 c.pc)) (Micro16.IVT_BASE + vec % 256 * 4 + 1) % 256) <<< 8) := by
    rw [read_phys_word_spec ({ c with sp := c.sp % 65536 - 6, flags := (c.flags % 65536 &&& (0xFFFF ^^^ Micro16.FLAG_I)) % 65536 &&& (0xFFFF ^^^ Micro16.FLAG_T), mar := Micro16.seg_offset_to_phys (c.seg 2) (c.sp % 65536 - 6) + 1, mdr := hi16 c.pc, memory := Function.update (Function.update (Function.update (Function.update (Function.update (Function.update c.memory (Micro16.seg_offset_to_phys (c.seg 2) (c.sp % 65536 - 2)) (lo16 c.flags)) (Micro16.seg_offset_to_phys (c.seg 2) (c.sp % 65536 - 2) + 1) (hi16 c.flags)) (Micro16.seg_offset_to_phys (c.seg 2) (c.sp % 65536 - 4)) (lo16 (c.seg 0))) (Micro16.seg_offset_to_phys (c.seg 2) (c.sp % 65536 - 4) + 1) (hi16 (c.seg 0))) (Micro16.seg_offset_to_phys (c.seg 2) (c.sp % 65536 - 6)) (lo16 c.pc)) (Micro16.seg_offset_to_phys (c.seg 2) (c.sp % 65536 - 6) + 1) (hi16 c.pc) }) (Micro16.IVT_BASE + vec % 256 * 4)
      (show Micro16.IVT_BASE + vec % 256 * 4 + 1 < Micro16.MEM_SIZE from by
        unfold Micro16.IVT_BASE Micro16.MEM_SIZE; omega)]
  have s6 : Micro16.cpu_read_phys_word ({ c with sp := c.sp % 65536 - 6, flags := (c.flags % 65536 &&& (0xFFFF ^^^ Micro16.FLAG_I)) % 65536 &&& (0xFFFF ^^^ Micro16.FLAG_T), mar := Micro16.IVT_BASE + vec % 256 * 4 + 1, mdr := (Function.update (Function.update (Function.update (Function.update (Function.update (Function.update c.memory (Micro16.seg_offset_to_phys (c.seg 2) (c.sp % 65536 - 2)) (lo16 c.flags)) (Micro16.seg_offset_to_phys (c.seg 2) (c.sp % 65536 - 2) + 1) (hi16 c.flags)) (Micro16.seg_offset_to_phys (c.seg 2) (c.sp % 65536 - 4)) (lo16 (c.seg 0))) (Micro16.seg_offset_to_phys (c.seg 2) (c.sp % 65536 - 4) + 1) (hi16 (c.seg 0))) (Micro16.seg_offset_to_phys (c.seg 2) (c.sp % 65536 - 6)) (lo16 c.pc)) (Micro16.seg_offset_to_phys (c.seg 2) (c.sp % 65536 - 6) + 1) (hi16 c.pc)) (Micro16.IVT_BASE + vec % 256 * 4 + 1) % 256, memory := Function.update (Function.update (Function.update (Function.update (Function.update (Function.update c.memory (Micro16.seg_offset_to_phys (c.seg 2) (c.sp % 65536 - 2)) (lo16 c.flags)) (Micro16.seg_offset_to_phys (c.seg 2) (c.sp % 65536 - 2) + 1) (hi16 c.flags)) (Micro16.seg_offset_to_phys (c.seg 2) (c.sp % 65536 - 4)) (lo16 (c.seg 0))) (Micro16.seg_offset_to_phys (c.seg 2) (c.sp % 65536 - 4) + 1) (hi16 (c.seg 0))) (Micro16.seg_offset_to_phys (c.seg 2) (c.sp % 65536 - 6)) (lo16 c.pc)) (Micro16.seg_offset_to_phys (c.seg 2) (c.sp % 65536 - 6) + 1) (hi16 c.pc) }) (Micro16.IVT_BASE + vec % 256 * 4 + 2) =
      ({ c with sp := c.sp % 65536 - 6, flags := (c.flags % 65536 &&& (0xFFFF ^^^ Micro16.FLAG_I)) % 65536 &&& (0xFFFF ^^^ Micro16.FLAG_T), mar := Micro16.IVT_BASE + vec % 256 * 4 + 3, mdr := (Function.update (Function.update (Function.update (Function.update (Function.update (Function.update c.memory (Micro16.seg_offset_to_phys (c.seg 2) (c.sp % 65536 - 2)) (lo16 c.flags)) (Micro16.seg_offset_to_phys (c.seg 2) (c.sp % 65536 - 2) + 1) (hi16 c.flags)) (Micro16.seg_offset_to_phys (c.seg 2) (c.sp % 65536 - 4)) (lo16 (c.seg 0))) (Micro16.seg_offset_to_phys (c.seg 2) (c.sp % 65536 - 4) + 1) (hi16 (c.seg 0))) (Micro16.seg_offset_to_phys (c.seg 2) (c.sp % 65536 - 6)) (lo16 c.pc)) (Micro16.seg_offset_to_phys (c.seg 2) (c.sp % 65536 - 6) + 1) (hi16 c.pc)) (Micro16.IVT_BASE + vec % 256 * 4 + 3) % 256, memory := Function.update (Function.update (Function.update (Function.update (Function.update (Function.update c.memory (Micro16.seg_offset_to_phys (c.seg 2) (c.sp % 65536 - 2)) (lo16 c.flags)) (Micro16.seg_offset_to_phys (c.seg 2) (c.sp % 65536 - 2) + 1) (hi16 c.flags)) (Micro16.seg_offset_to_phys (c.seg 2) (c.sp % 65536 - 4)) (lo16 (c.seg 0))) (Micro16.seg_offset_to_phys (c.seg 2) (c.sp % 65536 - 4) + 1) (hi16 (c.seg 0))) (Micro16.seg_offset_to_phys (c.seg 2) (c.sp % 65536 - 6)) (lo16 c.pc)) (Micro16.seg_offset_to_phys (c.seg 2) (c.sp % 65536 - 6) + 1) (hi16 c.pc) }, (Function.update (Function.update (Function.update (Function.update (Function.update (Function.update c.memory (Micro16.seg_offset_to_phys (c.seg 2) (c.sp % 65536 - 2)) (lo16 c.flags)) (Micro16.seg_offset_to_phys (c.seg 2) (c.sp % 65536 - 2) + 1) (hi16 c.flags)) (Micro16.seg_offset_to_phys (c.seg 2) (c.sp % 65536 - 4)) (lo16 (c.seg 0))) (Micro16.seg_offset_to_phys (c.seg 2) (c.sp % 65536 - 4) + 1) (hi16 (c.seg 0))) (Micro16.seg_offset_to_phys (c.seg 2) (c.sp % 65536 - 6)) (lo16 c.pc)) (Micro16.seg_offset_to_phys (c.seg 2) (c.sp % 65536 - 6) + 1) (hi16 c.pc)) (Micro16.IVT_BASE + vec % 256 * 4 + 2) % 256 ||| ((Function.update (Function.update (Function.update (Function.update (Function.update (Function.update c.memory (Micro16.seg_offset_to_phys (c.seg 2) (c.sp % 65536 - 2)) (lo16 c.flags)) (Micro16.seg_offset_to_phys (c.seg 2) (c.sp % 65536 - 2) + 1) (hi16 c.flags)) (Micro16.seg_offset_to_phys (c.seg 2) (c.sp % 65536 - 4)) (lo16 (c.seg 0))) (Micro16.seg_offset_to_phys (c.seg 2) (c.sp % 65536 - 4) + 1) (hi16 (c.seg 0))) (Micro16.seg_offset_to_phys (c.seg 2) (c.sp % 65536 - 6)) (lo16 c.pc)) (Micro16.seg_offset_to_phys (c.seg 2) (c.sp % 65536 - 6) + 1) (hi16 c.pc)) (Micro16.IVT_BASE + vec % 256 * 4 + 3) % 256) <<< 8) := by
    rw [read_phys_word_spec ({ c with sp := c.sp % 65536 - 6, flags := (c.flags % 65536 &&& (0xFFFF ^^^ Micro16.FLAG_I)) % 65536 &&& (0xFFFF ^^^ Micro16.FLAG_T), mar := Micro16.IVT_BASE + vec % 256 * 4 + 1, mdr := (Function.update (Function.update (Function.update (Function.update (Function.update (Function.update c.memory (Micro16.seg_offset_to_phys (c.seg 2) (c.sp % 65536 - 2)) (lo16 c.flags)) (Micro16.seg_offset_to_phys (c.seg 2) (c.sp % 65536 - 2) + 1) (hi16 c.flags)) (Micro16.seg_offset_to_phys (c.seg 2) (c.sp % 65536 - 4)) (lo16 (c.seg 0))) (Micro16.seg_offset_to_phys (c.seg 2) (c.sp % 65536 - 4) + 1) (hi16 (c.seg 0))) (Micro16.seg_offset_to_phys (c.seg 2) (c.sp % 65536 - 6)) (lo16 c.pc)) (Micro16.seg_offset_to_phys (c.seg 2) (c.sp % 65536 - 6) + 1) (hi16 c.pc)) (Micro16.IVT_BASE + vec % 256 * 4 + 1) % 256, memory := Function.update (Function.update (Function.update (Function.update (Function.update (Function.update c.memory (Micro16.seg_offset_to_phys (c.seg 2) (c.sp % 65536 - 2)) (lo16 c.flags)) (Micro16.seg_offset_to_phys (c.seg 2) (c.sp % 65536 - 2) + 1) (hi16 c.flags)) (Micro16.seg_offset_to_phys (c.seg 2) (c.sp % 65536 - 4)) (lo16 (c.seg 0))) (Micro16.seg_offset_to_phys (c.seg 2) (c.sp % 65536 - 4) + 1) (hi16 (c.seg 0))) (Micro16.seg_offset_to_phys (c.seg 2) (c.sp % 65536 - 6)) (lo16 c.pc)) (Micro16.seg_offset_to_phys (c.seg 2) (c.sp % 65536 - 6) + 1) (hi16 c.pc) }) (Micro16.IVT_BASE + vec % 256 * 4 + 2)
      (show Micro16.IVT_BASE + vec % 256 * 4 + 2 + 1 < Micro16.MEM_SIZE from by
        unfold Micro16.IVT_BASE Micro16.MEM_SIZE; omega)]
  simp only [Micro16.handle_interrupt]
  rw [s1]
  dsimp only
  rw [s2]
  dsimp only
  rw [s3, s4, s5]
  dsimp only
  rw [s6]
  rfl

/-! ## C5: interrupt request, gating, and dispatch -/

/-- Recombining a byte with a shifted second byte is plain arithmetic. -/
theorem or_shift8 (a b : Nat) (ha : a < 256) : a ||| b <<< 8 = a + b * 256 := by
  have ha' : a < 2 ^ 8 := ha
  rw [Nat.shiftLeft_eq]
  apply Nat.eq_of_testBit_eq
  intro j
  rw [Nat.testBit_or]
  rw [show a + b * 256 = 2 ^ 8 * b + a from by ring]
  rw [Nat.testBit_mul_pow_two_add b ha' j]
  rw [show b * 2 ^ 8 = 2 ^ 8 * b from by ring, Nat.testBit_mul_pow_two]
  by_cases hj : j < 8
  · simp [hj, Nat.not_le.mpr hj]
  · simp [hj, Nat.le_of_not_lt hj,
      Nat.testBit_eq_false_of_lt (lt_of_lt_of_le ha'
        (Nat.pow_le_pow_right (by norm_num) (Nat.le_of_not_lt hj)))]

/-- The two bytes a `push_word` stores recombine little-endian to the
pushed 16-bit value. -/
theorem lo16_hi16_recombine (x : Nat) :
    lo16 x % 256 ||| (hi16 x % 256) <<< 8 = x % 65536 := by
  have h1 : lo16 x % 256 = x % 256 := by
    unfold lo16
    have := Nat.and_pow_two_sub_one_eq_mod (x % 65536) 8
    norm_num at this
    omega
  have h2 : hi16 x % 256 = x % 65536 / 256 := by
    unfold hi16
    have := Nat.shiftRight_eq_div_pow (x % 65536) 8
    norm_num at this
    omega
  rw [h1, h2, or_shift8 _ _ (by omega)]
  omega

/-- `check_interrupt` is the identity whenever the I flag is clear. -/
theorem check_interrupt_noop (t : Micro16.CPU)
    (h : Micro16.cpu_get_flag t Micro16.FLAG_I = false) :
    Micro16.check_interrupt t = t := by
  unfold Micro16.check_interrupt
  rw [if_neg]
  simp [h]

/-- With the I flag set and an interrupt pending, `check_interrupt`
performs the full delivery of the pending vector. -/
theorem check_interrupt_dispatch (s : Micro16.CPU)
    (hpend : s.int_pending = true)
    (hI : Micro16.cpu_get_flag s Micro16.FLAG_I = true)
    (hsp : 6 ≤ s.sp % 65536)
    (hph : Micro16.seg_offset_to_phys (s.seg 2) (s.sp % 65536 - 1) <
      Micro16.MEM_SIZE) :
    Micro16.check_interrupt s =
      delivered { s with int_pending := false } s.int_vector := by
  unfold Micro16.check_interrupt
  rw [if_pos ⟨hpend, hI⟩]
  exact handle_interrupt_spec { s with int_pending := false } s.int_vector hsp hph

/-- Reading the three stacked words back from the post-delivery state
yields exactly the pre-interrupt flags, CS and PC. -/
theorem delivered_frame_reads (c : Micro16.CPU) (vec : Nat)
    (hsp : 6 ≤ c.sp % 65536)
    (hph : Micro16.seg_offset_to_phys (c.seg 2) (c.sp % 65536 - 1) <
      Micro16.MEM_SIZE) :
    (Micro16.cpu_read_phys_word (delivered c vec)
      (Micro16.seg_offset_to_phys (c.seg 2) (c.sp % 65536 - 2))).2 = c.flags % 65536 ∧
    (Micro16.cpu_read_phys_word (delivered c vec)
      (Micro16.seg_offset_to_phys (c.seg 2) (c.sp % 65536 - 4))).2 = c.seg 0 % 65536 ∧
    (Micro16.cpu_read_phys_word (delivered c vec)
      (Micro16.seg_offset_to_phys (c.seg 2) (c.sp % 65536 - 6))).2 = c.pc % 65536 := by
  have hne0 : Micro16.seg_offset_to_phys (c.seg 2) (c.sp % 65536 - 2) ≠ Micro16.seg_offset_to_phys (c.seg 2) (c.sp % 65536 - 6) + 1 := by
    unfold Micro16.seg_offset_to_phys
    omega
  have hne1 : Micro16.seg_offset_to_phys (c.seg 2) (c.sp % 65536 - 2) ≠ Micro16.seg_offset_to_phys (c.seg 2) (c.sp % 65536 - 6) := by
    unfold Micro16.seg_offset_to_phys
    omega
  have hne2 : Micro16.seg_offset_to_phys (c.seg 2) (c.sp % 65536 - 2) ≠ Micro16.seg_offset_to_phys (c.seg 2) (c.sp % 65536 - 4) + 1 := by
    unfold Micro16.seg_offset_to_phys
    omega
  have hne3 : Micro16.seg_offset_to_phys (c.seg 2) (c.sp % 65536 - 2) ≠ Micro16.seg_offset_to_phys (c.seg 2) (c.sp % 65536 - 4) := by
    unfold Micro16.seg_offset_to_phys
    omega
  have hne4 : Micro16.seg_offset_to_phys (c.seg 2) (c.sp % 65536 - 2) ≠ Micro16.seg_offset_to_phys (c.seg 2) (c.sp % 65536 - 2) + 1 := by
    unfold Micro16.seg_offset_to_phys
    omega
  have hne5 : Micro16.seg_offset_to_phys (c.seg 2) (c.sp % 65536 - 2) + 1 ≠ Micro16.seg_offset_to_phys (c.seg 2) (c.sp % 65536 - 6) + 1 := by
    unfold Micro16.seg_offset_to_phys
    omega
  have hne6 : Micro16.seg_offset_to_phys (c.seg 2) (c.sp % 65536 - 2) + 1 ≠ Micro16.seg_offset_to_phys (c.seg 2) (c.sp % 65536 - 6) := by
    unfold Micro16.seg_offset_to_phys
    omega
  have hne7 : Micro16.seg_offset_to_phys (c.seg 2) (c.sp % 65536 - 2) + 1 ≠ Micro16.seg_offset_to_phys (c.seg 2) (c.sp % 65536 - 4) + 1 := by
    unfold Micro16.seg_offset_to_phys
    omega
  have hne8 : Micro16.seg_offset_to_phys (c.seg 2) (c.sp % 65536 - 2) + 1 ≠ Micro16.seg_offset_to_phys (c.seg 2) (c.sp % 65536 - 4) := by
    unfold Micro16.seg_offset_to_phys
    omega
  have hne9 : Micro16.seg_offset_to_phys (c.seg 2) (c.sp % 65536 - 4) ≠ Micro16.seg_offset_to_phys (c.seg 2) (c.sp % 65536 - 6) + 1 := by
    unfold Micro16.seg_offset_to_phys
    omega
  have hne10 : Micro16.seg_offset_to_phys (c.seg 2) (c.sp % 65536 - 4) ≠ Micro16.seg_offset_to_phys (c.seg 2) (c.sp % 65536 - 6) := by
    unfold Micro16.seg_offset_to_phys
    omega
  have hne11 : Micro16.seg_offset_to_phys (c.seg 2) (c.sp % 65536 - 4) ≠ Micro16.seg_offset_to_phys (c.seg 2) (c.sp % 65536 - 4) + 1 := by
    unfold Micro16.seg_offset_to_phys
    omega
  have hne12 : Micro16.seg_offset_to_phys (c.seg 2) (c.sp % 65536 - 4) + 1 ≠ Micro16.seg_offset_to_phys (c.seg 2) (c.sp % 65536 - 6) + 1 := by
    unfold Micro16.seg_offset_to_phys
    omega
  have hne13 : Micro16.seg_offset_to_phys (c.seg 2) (c.sp % 65536 - 4) + 1 ≠ Micro16.seg_offset_to_phys (c.seg 2) (c.sp % 65536 - 6) := by
    unfold Micro16.seg_offset_to_phys
    omega
  have hne14 : Micro16.seg_offset_to_phys (c.seg 2) (c.sp % 65536 - 6) ≠ Micro16.seg_offset_to_phys (c.seg 2) (c.sp % 65536 - 6) + 1 := by
    unfold Micro16.seg_offset_to_phys
    omega
  refine ⟨?_, ?_, ?_⟩
  · rw [read_phys_word_spec (delivered c vec) (Micro16.seg_offset_to_phys (c.seg 2) (c.sp % 65536 - 2))
      (show Micro16.seg_offset_to_phys (c.seg 2) (c.sp % 65536 - 2) + 1 < Micro16.MEM_SIZE from by
        unfold Micro16.seg_offset_to_phys at hph ⊢
        omega)]
    dsimp only
    simp only [delivered, int_frame_mem]
    simp only [Function.update_apply, hne0, hne1, hne2, hne3, hne4, hne5, hne6, hne7, hne8, hne9, hne10, hne11, hne12, hne13, hne14]
    simp only [if_neg, if_pos, if_true, if_false]
    exact lo16_hi16_recombine (c.flags)
  · rw [read_phys_word_spec (delivered c vec) (Micro16.seg_offset_to_phys (c.seg 2) (c.sp % 65536 - 4))
      (show Micro16.seg_offset_to_phys (c.seg 2) (c.sp % 65536 - 4) + 1 < Micro16.MEM_SIZE from by
        unfold Micro16.seg_offset_to_phys at hph ⊢
        omega)]
    dsimp only
    simp only [delivered, int_frame_mem]
    simp only [Function.update_apply, hne0, hne1, hne2, hne3, hne4, hne5, hne6, hne7, hne8, hne9, hne10, hne11, hne12, hne13, hne14]
    simp only [if_neg, if_pos, if_true, if_false]
    exact lo16_hi16_recombine (c.seg 0)
  · rw [read_phys_word_spec (delivered c vec) (Micro16.seg_offset_to_phys (c.seg 2) (c.sp % 65536 - 6))
      (show Micro16.seg_offset_to_phys (c.seg 2) (c.sp % 65536 - 6) + 1 < Micro16.MEM_SIZE from by
        unfold Micro16.seg_offset_to_phys at hph ⊢
        omega)]
    dsimp only
    simp only [delivered, int_frame_mem]
    simp only [Function.update_apply, hne0, hne1, hne2, hne3, hne4, hne5, hne6, hne7, hne8, hne9, hne10, hne11, hne12, hne13, hne14]
    simp only [if_neg, if_pos, if_true, if_false]
    exact lo16_hi16_recombine (c.pc)

/-- The I and T flags are clear after delivery. -/
theorem delivered_IT_clear (c : Micro16.CPU) (vec : Nat) :
    Micro16.cpu_get_flag (delivered c vec) Micro16.FLAG_I = false ∧
    Micro16.cpu_get_flag (delivered c vec) Micro16.FLAG_T = false := by
  have hlt : c.flags % 65536 &&& (0xFFFF ^^^ Micro16.FLAG_I) < 65536 :=
    lt_of_le_of_lt Nat.and_le_right (by decide)
  have hI : (delivered c vec).flags &&& Micro16.FLAG_I = 0 := by
    simp only [delivered]
    rw [Nat.mod_eq_of_lt hlt, Nat.and_assoc, Nat.and_assoc,
      show (0xFFFF ^^^ Micro16.FLAG_I) &&&
        ((0xFFFF ^^^ Micro16.FLAG_T) &&& Micro16.FLAG_I) = 0 from by decide,
      Nat.and_zero]
  have hT : (delivered c vec).flags &&& Micro16.FLAG_T = 0 := by
    simp only [delivered]
    rw [Nat.mod_eq_of_lt hlt, Nat.and_assoc, Nat.and_assoc,
      show (0xFFFF ^^^ Micro16.FLAG_I) &&&
        ((0xFFFF ^^^ Micro16.FLAG_T) &&& Micro16.FLAG_T) = 0 from by decide,
      Nat.and_zero]
  constructor <;> simp [Micro16.cpu_get_flag, hI, hT]

/-- After delivery, PC and CS hold exactly the little-endian words the
post-delivery memory stores at IVT entry `vec % 256 * 4`. -/
theorem delivered_pc_cs (c : Micro16.CPU) (vec : Nat) :
    (delivered c vec).pc =
      (Micro16.cpu_read_phys_word (delivered c vec)
        (Micro16.IVT_BASE + vec % 256 * 4)).2 % 65536 ∧
    (delivered c vec).seg 0 =
      (Micro16.cpu_read_phys_word (delivered c vec)
        (Micro16.IVT_BASE + vec % 256 * 4 + 2)).2 % 65536 := by
  constructor
  · rw [read_phys_word_spec (delivered c vec) (Micro16.IVT_BASE + vec % 256 * 4)
      (show Micro16.IVT_BASE + vec % 256 * 4 + 1 < Micro16.MEM_SIZE from by
        unfold Micro16.IVT_BASE Micro16.MEM_SIZE
        omega)]
    simp only [delivered]
  · rw [read_phys_word_spec (delivered c vec) (Micro16.IVT_BASE + vec % 256 * 4 + 2)
      (show Micro16.IVT_BASE + vec % 256 * 4 + 2 + 1 < Micro16.MEM_SIZE from by
        unfold Micro16.IVT_BASE Micro16.MEM_SIZE
        omega)]
    simp only [delivered]
    rw [Function.update_same]

/-- C5: `cpu_request_interrupt` only records the pending bit and the
vector (mod 256) and changes nothing else; with the I flag clear,
`check_interrupt` performs no dispatch; with the I flag set and an
interrupt pending, the next `cpu_step` begins by delivering the vector —
the flags, CS and PC words pushed onto the stack read back as their
pre-interrupt values exactly, the I and T flags are then clear, and
PC/CS hold the little-endian IVT words at entry `vector * 4`. -/
theorem claim_interrupt_request_and_dispatch
    (c s : Micro16.CPU) (vec : Nat)
    (hpend : s.int_pending = true)
    (hI : Micro16.cpu_get_flag s Micro16.FLAG_I = true)
    (hhalt : s.halted = false) (herr : s.error = false)
    (hwait : s.waiting = false)
    (hsp : 6 ≤ s.sp % 65536)
    (hph : Micro16.seg_offset_to_phys (s.seg 2) (s.sp % 65536 - 1) <
      Micro16.MEM_SIZE) :
    Micro16.cpu_request_interrupt c vec =
      { c with int_pending := true, int_vector := vec % 256 } ∧
    (∀ t : Micro16.CPU, Micro16.cpu_get_flag t Micro16.FLAG_I = false →
      Micro16.check_interrupt t = t) ∧
    Micro16.check_interrupt s =
      delivered { s with int_pending := false } s.int_vector ∧
    Micro16.cpu_step s =
      step_fetch_exec (delivered { s with int_pending := false } s.int_vector) ∧
    (Micro16.cpu_read_phys_word
      (delivered { s with int_pending := false } s.int_vector)
      (Micro16.seg_offset_to_phys (s.seg 2) (s.sp % 65536 - 2))).2 = s.flags % 65536 ∧
    (Micro16.cpu_read_phys_word
      (delivered { s with int_pending := false } s.int_vector)
      (Micro16.seg_offset_to_phys (s.seg 2) (s.sp % 65536 - 4))).2 = s.seg 0 % 65536 ∧
    (Micro16.cpu_read_phys_word
      (delivered { s with int_pending := false } s.int_vector)
      (Micro16.seg_offset_to_phys (s.seg 2) (s.sp % 65536 - 6))).2 = s.pc % 65536 ∧
    Micro16.cpu_get_flag
      (delivered { s with int_pending := false } s.int_vector)
      Micro16.FLAG_I = false ∧
    Micro16.cpu_get_flag
      (delivered { s with int_pending := false } s.int_vector)
      Micro16.FLAG_T = false ∧
    (delivered { s with int_pending := false } s.int_vector).pc =
      (Micro16.cpu_read_phys_word
        (delivered { s with int_pending := false } s.int_vector)
        (Micro16.IVT_BASE + s.int_vector % 256 * 4)).2 % 65536 ∧
    (delivered { s with int_pending := false } s.int_vector).seg 0 =
      (Micro16.cpu_read_phys_word
        (delivered { s with int_pending := false } s.int_vector)
        (Micro16.IVT_BASE + s.int_vector % 256 * 4 + 2)).2 % 65536 := by
  have hci : Micro16.check_interrupt s =
      delivered { s with int_pending := false } s.int_vector :=
    check_interrupt_dispatch s hpend hI hsp hph
  have hframe := delivered_frame_reads { s with int_pending := false }
    s.int_vector hsp hph
  have hit := delivered_IT_clear { s with int_pending := false } s.int_vector
  have hpccs := delivered_pc_cs { s with int_pending := false } s.int_vector
  refine ⟨rfl, fun t ht => check_interrupt_noop t ht, hci, ?_,
    hframe.1, hframe.2.1, hframe.2.2, hit.1, hit.2, hpccs.1, hpccs.2⟩
  simp only [Micro16.cpu_step]
  rw [if_neg (by simp [hhalt, herr])]
  rw [if_neg (by simp [hwait])]
  rw [if_neg (by simp [hwait])]
  rw [hci]
  rfl

/-- Witness for C5: a freshly-reset CPU with I set and vector 1 pending
is dispatched by the next step. -/
theorem claim_interrupt_request_and_dispatch_witness :
    ({ m16ex with flags := 32, int_pending := true, int_vector := 1 } : Micro16.CPU).int_pending = true ∧
    Micro16.cpu_get_flag { m16ex with flags := 32, int_pending := true, int_vector := 1 } Micro16.FLAG_I = true ∧
    ({ m16ex with flags := 32, int_pending := true, int_vector := 1 } : Micro16.CPU).halted = false ∧
    ({ m16ex with flags := 32, int_pending := true, int_vector := 1 } : Micro16.CPU).error = false ∧
    ({ m16ex with flags := 32, int_pending := true, int_vector := 1 } : Micro16.CPU).waiting = false ∧
    6 ≤ ({ m16ex with flags := 32, int_pending := true, int_vector := 1 } : Micro16.CPU).sp % 65536 ∧
    Micro16.seg_offset_to_phys (({ m16ex with flags := 32, int_pending := true, int_vector := 1 } : Micro16.CPU).seg 2)
      (({ m16ex with flags := 32, int_pending := true, int_vector := 1 } : Micro16.CPU).sp % 65536 - 1) < Micro16.MEM_SIZE ∧
    Micro16.check_interrupt { m16ex with flags := 32, int_pending := true, int_vector := 1 } =
      delivered { ({ m16ex with flags := 32, int_pending := true, int_vector := 1 } : Micro16.CPU) with int_pending := false }
        ({ m16ex with flags := 32, int_pending := true, int_vector := 1 } : Micro16.CPU).int_vector :=
  ⟨rfl, by decide, rfl, rfl, rfl, by decide, by decide,
   (claim_interrupt_request_and_dispatch m16ex { m16ex with flags := 32, int_pending := true, int_vector := 1 } 0
     rfl (by decide) rfl rfl rfl (by decide) (by decide)).2.2.1⟩

/-! ## C1/C10: divide-by-zero raises vector 0 inside the same step -/

/-- In-range `fetch_byte` as an explicit record and value. -/
theorem fetch_byte_spec (cpu : Micro16.CPU)
    (h : Micro16.seg_offset_to_phys (cpu.seg 0) cpu.pc < Micro16.MEM_SIZE) :
    Micro16.fetch_byte cpu =
      ({ cpu with mar := Micro16.seg_offset_to_phys (cpu.seg 0) cpu.pc, mdr := cpu.memory (Micro16.seg_offset_to_phys (cpu.seg 0) cpu.pc) % 256, pc := (cpu.pc + 1) % 65536 },
       cpu.memory (Micro16.seg_offset_to_phys (cpu.seg 0) cpu.pc) % 256) := by
  simp only [Micro16.fetch_byte, Micro16.cpu_read_byte]
  rw [read_phys_byte_spec cpu _ h]

/-- DIV/IDIV with a zero divisor register branch straight into
`handle_interrupt` for vector 0, i.e. into the `delivered` state. -/
theorem exec_div_zero_spec (cpu : Micro16.CPU) (cycles : Nat)
    (hfetch : Micro16.seg_offset_to_phys (cpu.seg 0) cpu.pc < Micro16.MEM_SIZE)
    (hzero : Micro16.reg (Micro16.fetch_byte cpu).1 ((Micro16.fetch_byte cpu).2 &&& 0x07) = 0)
    (hsp : 6 ≤ cpu.sp % 65536)
    (hph : Micro16.seg_offset_to_phys (cpu.seg 2) (cpu.sp % 65536 - 1) <
      Micro16.MEM_SIZE) :
    Micro16.exec_instr cpu 0x62 cycles =
      (delivered (Micro16.fetch_byte cpu).1 0, cycles + 15, true) ∧
    Micro16.exec_instr cpu 0x63 cycles =
      (delivered (Micro16.fetch_byte cpu).1 0, cycles + 18, true) := by
  have hfs := fetch_byte_spec cpu hfetch
  have hhi : Micro16.handle_interrupt (Micro16.fetch_byte cpu).1 0 = delivered (Micro16.fetch_byte cpu).1 0 := by
    rw [hfs]
    exact handle_interrupt_spec { cpu with mar := Micro16.seg_offset_to_phys (cpu.seg 0) cpu.pc, mdr := cpu.memory (Micro16.seg_offset_to_phys (cpu.seg 0) cpu.pc) % 256, pc := (cpu.pc + 1) % 65536 } 0 hsp hph
  constructor
  · rw [show Micro16.exec_instr cpu 0x62 cycles =
      (if Micro16.reg (Micro16.fetch_byte cpu).1 ((Micro16.fetch_byte cpu).2 &&& 0x07) = 0
       then (Micro16.handle_interrupt (Micro16.fetch_byte cpu).1 0, cycles + 15, true)
       else
         (Micro16.set_r
            (Micro16.set_r (Micro16.fetch_byte cpu).1 0
              (Micro16.cpu_get_r0r3 (Micro16.fetch_byte cpu).1 / Micro16.reg (Micro16.fetch_byte cpu).1 ((Micro16.fetch_byte cpu).2 &&& 0x07)))
            3
            (Micro16.cpu_get_r0r3 (Micro16.fetch_byte cpu).1 % Micro16.reg (Micro16.fetch_byte cpu).1 ((Micro16.fetch_byte cpu).2 &&& 0x07)),
          cycles + 15, true)) from rfl]
    rw [if_pos hzero, hhi]
  · rw [show Micro16.exec_instr cpu 0x63 cycles =
      (if Micro16.reg (Micro16.fetch_byte cpu).1 ((Micro16.fetch_byte cpu).2 &&& 0x07) = 0
       then (Micro16.handle_interrupt (Micro16.fetch_byte cpu).1 0, cycles + 18, true)
       else
         (Micro16.set_r
            (Micro16.set_r (Micro16.fetch_byte cpu).1 0
              (Micro16.ofInt16 ((Micro16.toInt32 (Micro16.cpu_get_r0r3 (Micro16.fetch_byte cpu).1)).tdiv
                (Micro16.toInt16 (Micro16.reg (Micro16.fetch_byte cpu).1 ((Micro16.fetch_byte cpu).2 &&& 0x07))))))
            3
            (Micro16.ofInt16 ((Micro16.toInt32 (Micro16.cpu_get_r0r3 (Micro16.fetch_byte cpu).1)).tmod
              (Micro16.toInt16 (Micro16.reg (Micro16.fetch_byte cpu).1 ((Micro16.fetch_byte cpu).2 &&& 0x07))))),
          cycles + 18, true)) from rfl]
    rw [if_pos hzero, hhi]

/-- C1: with the selected divisor register holding zero, DIV (0x62) and
IDIV (0x63) leave the error and halted bits exactly as they were and
instead deliver interrupt vector 0: the pre-instruction flags, CS and PC
are pushed, I and T are cleared, and PC/CS are loaded little-endian from
IVT entry 0 at physical address 0, where execution continues. -/
theorem claim_div_by_zero_raises_vector0 (cpu : Micro16.CPU) (cycles : Nat)
    (hfetch : Micro16.seg_offset_to_phys (cpu.seg 0) cpu.pc < Micro16.MEM_SIZE)
    (hzero : Micro16.reg (Micro16.fetch_byte cpu).1 ((Micro16.fetch_byte cpu).2 &&& 0x07) = 0)
    (hsp : 6 ≤ cpu.sp % 65536)
    (hph : Micro16.seg_offset_to_phys (cpu.seg 2) (cpu.sp % 65536 - 1) <
      Micro16.MEM_SIZE) :
    Micro16.exec_instr cpu 0x62 cycles =
      (delivered (Micro16.fetch_byte cpu).1 0, cycles + 15, true) ∧
    Micro16.exec_instr cpu 0x63 cycles =
      (delivered (Micro16.fetch_byte cpu).1 0, cycles + 18, true) ∧
    (delivered (Micro16.fetch_byte cpu).1 0).error = cpu.error ∧
    (delivered (Micro16.fetch_byte cpu).1 0).halted = cpu.halted ∧
    (delivered (Micro16.fetch_byte cpu).1 0).pc =
      (Micro16.cpu_read_phys_word (delivered (Micro16.fetch_byte cpu).1 0) 0).2 % 65536 ∧
    (delivered (Micro16.fetch_byte cpu).1 0).seg 0 =
      (Micro16.cpu_read_phys_word (delivered (Micro16.fetch_byte cpu).1 0) 2).2 % 65536 := by
  have hd := exec_div_zero_spec cpu cycles hfetch hzero hsp hph
  refine ⟨hd.1, hd.2, ?_, ?_, ?_, ?_⟩
  · rw [fetch_byte_spec cpu hfetch]
    rfl
  · rw [fetch_byte_spec cpu hfetch]
    rfl
  · exact (delivered_pc_cs (Micro16.fetch_byte cpu).1 0).1
  · exact (delivered_pc_cs (Micro16.fetch_byte cpu).1 0).2

/-- Witness for C1 on a freshly-reset CPU (all registers zero). -/
theorem claim_div_by_zero_raises_vector0_witness :
    Micro16.seg_offset_to_phys (m16ex.seg 0) m16ex.pc < Micro16.MEM_SIZE ∧
    Micro16.reg (Micro16.fetch_byte m16ex).1
      ((Micro16.fetch_byte m16ex).2 &&& 0x07) = 0 ∧
    6 ≤ m16ex.sp % 65536 ∧
    Micro16.seg_offset_to_phys (m16ex.seg 2) (m16ex.sp % 65536 - 1) <
      Micro16.MEM_SIZE ∧
    Micro16.exec_instr m16ex 0x62 0 =
      (delivered (Micro16.fetch_byte m16ex).1 0, 0 + 15, true) :=
  ⟨by decide, by decide, by decide, by decide,
   (claim_div_by_zero_raises_vector0 m16ex 0 (by decide) (by decide)
     (by decide) (by decide)).1⟩

/-- `check_interrupt` is the identity when nothing is pending. -/
theorem check_interrupt_not_pending (t : Micro16.CPU)
    (h : t.int_pending = false) :
    Micro16.check_interrupt t = t := by
  unfold Micro16.check_interrupt
  rw [if_neg]
  simp [h]

set_option maxHeartbeats 1000000 in
/-- C10: with the I flag CLEAR, no interrupt pending and a DIV opcode
(0x62) at CS:PC whose divisor register is zero, the very `cpu_step` that
executes the divide also delivers vector 0 — while an interrupt raised
by `cpu_request_interrupt` changes nothing but the pending bit and
vector during the requesting call and is never dispatched while the I
flag stays clear. -/
theorem claim_div0_same_step_even_when_I_clear (s : Micro16.CPU)
    (hI : Micro16.cpu_get_flag s Micro16.FLAG_I = false)
    (hhalt : s.halted = false) (herr : s.error = false)
    (hwait : s.waiting = false) (hpend : s.int_pending = false)
    (hopc : s.memory (Micro16.seg_offset_to_phys (s.seg 0) s.pc) = 0x62)
    (hr : ∀ i, s.r i = 0)
    (hf1 : Micro16.seg_offset_to_phys (s.seg 0) s.pc < Micro16.MEM_SIZE)
    (hf2 : Micro16.seg_offset_to_phys (s.seg 0) ((s.pc + 1) % 65536) <
      Micro16.MEM_SIZE)
    (hsp : 6 ≤ s.sp % 65536)
    (hph : Micro16.seg_offset_to_phys (s.seg 2) (s.sp % 65536 - 1) <
      Micro16.MEM_SIZE) :
    Micro16.cpu_step s =
      ({ delivered (Micro16.fetch_byte { (Micro16.fetch_byte s).1 with ir := (Micro16.fetch_byte s).2 }).1 0 with
           instructions := (delivered (Micro16.fetch_byte { (Micro16.fetch_byte s).1 with ir := (Micro16.fetch_byte s).2 }).1 0).instructions + 1,
           cycles := (delivered (Micro16.fetch_byte { (Micro16.fetch_byte s).1 with ir := (Micro16.fetch_byte s).2 }).1 0).cycles + 16 }, 16) ∧
    (∀ t : Micro16.CPU, ∀ v : Nat,
      Micro16.cpu_get_flag t Micro16.FLAG_I = false →
        Micro16.check_interrupt (Micro16.cpu_request_interrupt t v) =
          Micro16.cpu_request_interrupt t v) ∧
    (∀ t : Micro16.CPU, ∀ v : Nat,
      (Micro16.cpu_request_interrupt t v).pc = t.pc ∧
      (Micro16.cpu_request_interrupt t v).flags = t.flags ∧
      (Micro16.cpu_request_interrupt t v).memory = t.memory ∧
      (Micro16.cpu_request_interrupt t v).seg = t.seg) := by
  refine ⟨?_, fun t v ht => check_interrupt_noop _ ht,
    fun t v => ⟨rfl, rfl, rfl, rfl⟩⟩
  have hci : Micro16.check_interrupt s = s := check_interrupt_not_pending s hpend
  have hfs := fetch_byte_spec s hf1
  have hval : s.memory (Micro16.seg_offset_to_phys (s.seg 0) s.pc) % 256 = 0x62 := by rw [hopc]
  have hz : Micro16.reg (Micro16.fetch_byte ({ s with pc := (s.pc + 1) % 65536, ir := 0x62, mar := Micro16.seg_offset_to_phys (s.seg 0) s.pc, mdr := 0x62 })).1
      ((Micro16.fetch_byte ({ s with pc := (s.pc + 1) % 65536, ir := 0x62, mar := Micro16.seg_offset_to_phys (s.seg 0) s.pc, mdr := 0x62 })).2 &&& 0x07) = 0 := by
    rw [fetch_byte_spec ({ s with pc := (s.pc + 1) % 65536, ir := 0x62, mar := Micro16.seg_offset_to_phys (s.seg 0) s.pc, mdr := 0x62 })
      (by dsimp only; exact hf2)]
    dsimp only
    simp [Micro16.reg, hr]
  have hexec := (exec_div_zero_spec ({ s with pc := (s.pc + 1) % 65536, ir := 0x62, mar := Micro16.seg_offset_to_phys (s.seg 0) s.pc, mdr := 0x62 }) 1
    (by dsimp only; exact hf2)
    hz
    (by dsimp only; exact hsp)
    (by dsimp only; exact hph)).1
  simp only [Micro16.cpu_step]
  rw [if_neg (by simp [hhalt, herr])]
  rw [if_neg (by simp [hwait])]
  rw [if_neg (by simp [hwait])]
  rw [hci, hfs]
  dsimp only
  rw [hval]
  rw [hexec]

/-- Witness for C10: a reset CPU with I clear and `DIV` at CS:PC is
interrupted in the very step executing it. -/
theorem claim_div0_same_step_even_when_I_clear_witness :
    Micro16.cpu_get_flag ({ m16ex with memory := fun a => if a = 0x100 then 0x62 else 0 } : Micro16.CPU) Micro16.FLAG_I = false ∧
    ({ m16ex with memory := fun a => if a = 0x100 then 0x62 else 0 } : Micro16.CPU).memory
      (Micro16.seg_offset_to_phys (({ m16ex with memory := fun a => if a = 0x100 then 0x62 else 0 } : Micro16.CPU).seg 0)
        ({ m16ex with memory := fun a => if a = 0x100 then 0x62 else 0 } : Micro16.CPU).pc) = 0x62 ∧
    Micro16.cpu_step ({ m16ex with memory := fun a => if a = 0x100 then 0x62 else 0 } : Micro16.CPU) =
      ({ delivered (Micro16.fetch_byte { (Micro16.fetch_byte ({ m16ex with memory := fun a => if a = 0x100 then 0x62 else 0 } : Micro16.CPU)).1 with ir := (Micro16.fetch_byte ({ m16ex with memory := fun a => if a = 0x100 then 0x62 else 0 } : Micro16.CPU)).2 }).1 0 with
           instructions := (delivered (Micro16.fetch_byte { (Micro16.fetch_byte ({ m16ex with memory := fun a => if a = 0x100 then 0x62 else 0 } : Micro16.CPU)).1 with ir := (Micro16.fetch_byte ({ m16ex with memory := fun a => if a = 0x100 then 0x62 else 0 } : Micro16.CPU)).2 }).1 0).instructions + 1,
           cycles := (delivered (Micro16.fetch_byte { (Micro16.fetch_byte ({ m16ex with memory := fun a => if a = 0x100 then 0x62 else 0 } : Micro16.CPU)).1 with ir := (Micro16.fetch_byte ({ m16ex with memory := fun a => if a = 0x100 then 0x62 else 0 } : Micro16.CPU)).2 }).1 0).cycles + 16 }, 16) :=
  ⟨by decide, by decide,
   (claim_div0_same_step_even_when_I_clear { m16ex with memory := fun a => if a = 0x100 then 0x62 else 0 } (by decide) rfl rfl rfl rfl
     (by decide) (fun i => rfl) (by decide) (by decide) (by decide)
     (by decide)).1⟩

/-! ## C7: unknown opcodes are fatal with a structured diagnostic -/

/-- The 16-bit dispatch matcher falls through to its default branch for
every opcode byte outside the case list of the switch. -/
theorem exec_instr_match_default {motive : Nat → Sort u_1} (opcode : Nat)
    {h1 : Unit → motive 0x00}
    {h2 : Unit → motive 0x01}
    {h3 : Unit → motive 0x02}
    {h4 : Unit → motive 0x04}
    {h5 : Unit → motive 0x05}
    {h6 : Unit → motive 0x06}
    {h7 : Unit → motive 0x07}
    {h8 : Unit → motive 0x08}
    {h9 : Unit → motive 0x09}
    {h10 : Unit → motive 0x0A}
    {h11 : Unit → motive 0x0B}
    {h12 : Unit → motive 0x0C}
    {h13 : Unit → motive 0x0D}
    {h14 : Unit → motive 0x0E}
    {h15 : Unit → motive 0x10}
    {h16 : Unit → motive 0x11}
    {h17 : Unit → motive 0x12}
    {h18 : Unit → motive 0x13}
    {h19 : Unit → motive 0x14}
    {h20 : Unit → motive 0x20}
    {h21 : Unit → motive 0x21}
    {h22 : Unit → motive 0x22}
    {h23 : Unit → motive 0x23}
    {h24 : Unit → motive 0x24}
    {h25 : Unit → motive 0x25}
    {h26 : Unit → motive 0x26}
    {h27 : Unit → motive 0x27}
    {h28 : Unit → motive 0x28}
    {h29 : Unit → motive 0x40}
    {h30 : Unit → motive 0x41}
    {h31 : Unit → motive 0x42}
    {h32 : Unit → motive 0x43}
    {h33 : Unit → motive 0x44}
    {h34 : Unit → motive 0x45}
    {h35 : Unit → motive 0x46}
    {h36 : Unit → motive 0x47}
    {h37 : Unit → motive 0x50}
    {h38 : Unit → motive 0x51}
    {h39 : Unit → motive 0x52}
    {h40 : Unit → motive 0x53}
    {h41 : Unit → motive 0x54}
    {h42 : Unit → motive 0x55}
    {h43 : Unit → motive 0x56}
    {h44 : Unit → motive 0x57}
    {h45 : Unit → motive 0x58}
    {h46 : Unit → motive 0x59}
    {h47 : Unit → motive 0x5A}
    {h48 : Unit → motive 0x5B}
    {h49 : Unit → motive 0x5C}
    {h50 : Unit → motive 0x60}
    {h51 : Unit → motive 0x61}
    {h52 : Unit → motive 0x62}
    {h53 : Unit → motive 0x63}
    {h54 : Unit → motive 0x70}
    {h55 : Unit → motive 0x71}
    {h56 : Unit → motive 0x72}
    {h57 : Unit → motive 0x73}
    {h58 : Unit → motive 0x74}
    {h59 : Unit → motive 0x75}
    {h60 : Unit → motive 0x76}
    {h61 : Unit → motive 0x77}
    {h62 : Unit → motive 0x78}
    {h63 : Unit → motive 0x80}
    {h64 : Unit → motive 0x81}
    {h65 : Unit → motive 0x82}
    {h66 : Unit → motive 0x83}
    {h67 : Unit → motive 0x84}
    {h68 : Unit → motive 0x85}
    {h69 : Unit → motive 0x86}
    {h70 : Unit → motive 0xA0}
    {h71 : Unit → motive 0xA1}
    {h72 : Unit → motive 0xA2}
    {h73 : Unit → motive 0xA3}
    {h74 : Unit → motive 0xB0}
    {h75 : Unit → motive 0xB1}
    {h76 : Unit → motive 0xB2}
    {h77 : Unit → motive 0xB3}
    {h78 : Unit → motive 0xB4}
    {h79 : Unit → motive 0xB5}
    {h80 : Unit → motive 0xB6}
    {h81 : Unit → motive 0xB7}
    {h82 : Unit → motive 0xB8}
    {h83 : Unit → motive 0xB9}
    {h84 : Unit → motive 0xBA}
    {h85 : Unit → motive 0xBB}
    {h86 : Unit → motive 0xBC}
    {h87 : Unit → motive 0xBD}
    {h88 : Unit → motive 0xC0}
    {h89 : Unit → motive 0xC1}
    {h90 : Unit → motive 0xC2}
    {h91 : Unit → motive 0xC3}
    {h92 : Unit → motive 0xC4}
    {h93 : Unit → motive 0xC5}
    {h94 : Unit → motive 0xD0}
    {h95 : Unit → motive 0xD1}
    {h96 : Unit → motive 0xD2}
    {h97 : Unit → motive 0xE0}
    {h98 : Unit → motive 0xE1}
    {h99 : Unit → motive 0xE2}
    {h100 : Unit → motive 0xE3}
    {h101 : Unit → motive 0xE4}
    {h102 : Unit → motive 0xE5}
    {h103 : Unit → motive 0xE6}
    {h104 : Unit → motive 0xE7}
    {h105 : Unit → motive 0xE8}
    {h106 : Unit → motive 0xE9}
    {h107 : Unit → motive 0xEA}
    {h108 : Unit → motive 0xF0}
    {h109 : Unit → motive 0xF1}
    {h110 : Unit → motive 0xF2}
    {h111 : Unit → motive 0xF3}
    {hd : (x : Nat) → motive x}
    (hn : opcode ∉ validOpcodes16) :
    Micro16.exec_instr.match_1 motive opcode h1 h2 h3 h4 h5 h6 h7 h8 h9 h10 h11 h12 h13 h14 h15 h16 h17 h18 h19 h20 h21 h22 h23 h24 h25 h26 h27 h28 h29 h30 h31 h32 h33 h34 h35 h36 h37 h38 h39 h40 h41 h42 h43 h44 h45 h46 h47 h48 h49 h50 h51 h52 h53 h54 h55 h56 h57 h58 h59 h60 h61 h62 h63 h64 h65 h66 h67 h68 h69 h70 h71 h72 h73 h74 h75 h76 h77 h78 h79 h80 h81 h82 h83 h84 h85 h86 h87 h88 h89 h90 h91 h92 h93 h94 h95 h96 h97 h98 h99 h100 h101 h102 h103 h104 h105 h106 h107 h108 h109 h110 h111 hd = hd opcode := by
  have p1 : ¬(opcode = 0x00) := by rintro rfl; exact hn (by decide)
  have p2 : ¬(opcode = 0x01) := by rintro rfl; exact hn (by decide)
  have p3 : ¬(opcode = 0x02) := by rintro rfl; exact hn (by decide)
  have p4 : ¬(opcode = 0x04) := by rintro rfl; exact hn (by decide)
  have p5 : ¬(opcode = 0x05) := by rintro rfl; exact hn (by decide)
  have p6 : ¬(opcode = 0x06) := by rintro rfl; exact hn (by decide)
  have p7 : ¬(opcode = 0x07) := by rintro rfl; exact hn (by decide)
  have p8 : ¬(opcode = 0x08) := by rintro rfl; exact hn (by decide)
  have p9 : ¬(opcode = 0x09) := by rintro rfl; exact hn (by decide)
  have p10 : ¬(opcode = 0x0A) := by rintro rfl; exact hn (by decide)
  have p11 : ¬(opcode = 0x0B) := by rintro rfl; exact hn (by decide)
  have p12 : ¬(opcode = 0x0C) := by rintro rfl; exact hn (by decide)
  have p13 : ¬(opcode = 0x0D) := by rintro rfl; exact hn (by decide)
  have p14 : ¬(opcode = 0x0E) := by rintro rfl; exact hn (by decide)
  have p15 : ¬(opcode = 0x10) := by rintro rfl; exact hn (by decide)
  have p16 : ¬(opcode = 0x11) := by rintro rfl; exact hn (by decide)
  have p17 : ¬(opcode = 0x12) := by rintro rfl; exact hn (by decide)
  have p18 : ¬(opcode = 0x13) := by rintro rfl; exact hn (by decide)
  have p19 : ¬(opcode = 0x14) := by rintro rfl; exact hn (by decide)
  have p20 : ¬(opcode = 0x20) := by rintro rfl; exact hn (by decide)
  have p21 : ¬(opcode = 0x21) := by rintro rfl; exact hn (by decide)
  have p22 : ¬(opcode = 0x22) := by rintro rfl; exact hn (by decide)
  have p23 : ¬(opcode = 0x23) := by rintro rfl; exact hn (by decide)
  have p24 : ¬(opcode = 0x24) := by rintro rfl; exact hn (by decide)
  have p25 : ¬(opcode = 0x25) := by rintro rfl; exact hn (by decide)
  have p26 : ¬(opcode = 0x26) := by rintro rfl; exact hn (by decide)
  have p27 : ¬(opcode = 0x27) := by rintro rfl; exact hn (by decide)
  have p28 : ¬(opcode = 0x28) := by rintro rfl; exact hn (by decide)
  have p29 : ¬(opcode = 0x40) := by rintro rfl; exact hn (by decide)
  have p30 : ¬(opcode = 0x41) := by rintro rfl; exact hn (by decide)
  have p31 : ¬(opcode = 0x42) := by rintro rfl; exact hn (by decide)
  have p32 : ¬(opcode = 0x43) := by rintro rfl; exact hn (by decide)
  have p33 : ¬(opcode = 0x44) := by rintro rfl; exact hn (by decide)
  have p34 : ¬(opcode = 0x45) := by rintro rfl; exact hn (by decide)
  have p35 : ¬(opcode = 0x46) := by rintro rfl; exact hn (by decide)
  have p36 : ¬(opcode = 0x47) := by rintro rfl; exact hn (by decide)
  have p37 : ¬(opcode = 0x50) := by rintro rfl; exact hn (by decide)
  have p38 : ¬(opcode = 0x51) := by rintro rfl; exact hn (by decide)
  have p39 : ¬(opcode = 0x52) := by rintro rfl; exact hn (by decide)
  have p40 : ¬(opcode = 0x53) := by rintro rfl; exact hn (by decide)
  have p41 : ¬(opcode = 0x54) := by rintro rfl; exact hn (by decide)
  have p42 : ¬(opcode = 0x55) := by rintro rfl; exact hn (by decide)
  have p43 : ¬(opcode = 0x56) := by rintro rfl; exact hn (by decide)
  have p44 : ¬(opcode = 0x57) := by rintro rfl; exact hn (by decide)
  have p45 : ¬(opcode = 0x58) := by rintro rfl; exact hn (by decide)
  have p46 : ¬(opcode = 0x59) := by rintro rfl; exact hn (by decide)
  have p47 : ¬(opcode = 0x5A) := by rintro rfl; exact hn (by decide)
  have p48 : ¬(opcode = 0x5B) := by rintro rfl; exact hn (by decide)
  have p49 : ¬(opcode = 0x5C) := by rintro rfl; exact hn (by decide)
  have p50 : ¬(opcode = 0x60) := by rintro rfl; exact hn (by decide)
  have p51 : ¬(opcode = 0x61) := by rintro rfl; exact hn (by decide)
  have p52 : ¬(opcode = 0x62) := by rintro rfl; exact hn (by decide)
  have p53 : ¬(opcode = 0x63) := by rintro rfl; exact hn (by decide)
  have p54 : ¬(opcode = 0x70) := by rintro rfl; exact hn (by decide)
  have p55 : ¬(opcode = 0x71) := by rintro rfl; exact hn (by decide)
  have p56 : ¬(opcode = 0x72) := by rintro rfl; exact hn (by decide)
  have p57 : ¬(opcode = 0x73) := by rintro rfl; exact hn (by decide)
  have p58 : ¬(opcode = 0x74) := by rintro rfl; exact hn (by decide)
  have p59 : ¬(opcode = 0x75) := by rintro rfl; exact hn (by decide)
  have p60 : ¬(opcode = 0x76) := by rintro rfl; exact hn (by decide)
  have p61 : ¬(opcode = 0x77) := by rintro rfl; exact hn (by decide)
  have p62 : ¬(opcode = 0x78) := by rintro rfl; exact hn (by decide)
  have p63 : ¬(opcode = 0x80) := by rintro rfl; exact hn (by decide)
  have p64 : ¬(opcode = 0x81) := by rintro rfl; exact hn (by decide)
  have p65 : ¬(opcode = 0x82) := by rintro rfl; exact hn (by decide)
  have p66 : ¬(opcode = 0x83) := by rintro rfl; exact hn (by decide)
  have p67 : ¬(opcode = 0x84) := by rintro rfl; exact hn (by decide)
  have p68 : ¬(opcode = 0x85) := by rintro rfl; exact hn (by decide)
  have p69 : ¬(opcode = 0x86) := by rintro rfl; exact hn (by decide)
  have p70 : ¬(opcode = 0xA0) := by rintro rfl; exact hn (by decide)
  have p71 : ¬(opcode = 0xA1) := by rintro rfl; exact hn (by decide)
  have p72 : ¬(opcode = 0xA2) := by rintro rfl; exact hn (by decide)
  have p73 : ¬(opcode = 0xA3) := by rintro rfl; exact hn (by decide)
  have p74 : ¬(opcode = 0xB0) := by rintro rfl; exact hn (by decide)
  have p75 : ¬(opcode = 0xB1) := by rintro rfl; exact hn (by decide)
  have p76 : ¬(opcode = 0xB2) := by rintro rfl; exact hn (by decide)
  have p77 : ¬(opcode = 0xB3) := by rintro rfl; exact hn (by decide)
  have p78 : ¬(opcode = 0xB4) := by rintro rfl; exact hn (by decide)
  have p79 : ¬(opcode = 0xB5) := by rintro rfl; exact hn (by decide)
  have p80 : ¬(opcode = 0xB6) := by rintro rfl; exact hn (by decide)
  have p81 : ¬(opcode = 0xB7) := by rintro rfl; exact hn (by decide)
  have p82 : ¬(opcode = 0xB8) := by rintro rfl; exact hn (by decide)
  have p83 : ¬(opcode = 0xB9) := by rintro rfl; exact hn (by decide)
  have p84 : ¬(opcode = 0xBA) := by rintro rfl; exact hn (by decide)
  have p85 : ¬(opcode = 0xBB) := by rintro rfl; exact hn (by decide)
  have p86 : ¬(opcode = 0xBC) := by rintro rfl; exact hn (by decide)
  have p87 : ¬(opcode = 0xBD) := by rintro rfl; exact hn (by decide)
  have p88 : ¬(opcode = 0xC0) := by rintro rfl; exact hn (by decide)
  have p89 : ¬(opcode = 0xC1) := by rintro rfl; exact hn (by decide)
  have p90 : ¬(opcode = 0xC2) := by rintro rfl; exact hn (by decide)
  have p91 : ¬(opcode = 0xC3) := by rintro rfl; exact hn (by decide)
  have p92 : ¬(opcode = 0xC4) := by rintro rfl; exact hn (by decide)
  have p93 : ¬(opcode = 0xC5) := by rintro rfl; exact hn (by decide)
  have p94 : ¬(opcode = 0xD0) := by rintro rfl; exact hn (by decide)
  have p95 : ¬(opcode = 0xD1) := by rintro rfl; exact hn (by decide)
  have p96 : ¬(opcode = 0xD2) := by rintro rfl; exact hn (by decide)
  have p97 : ¬(opcode = 0xE0) := by rintro rfl; exact hn (by decide)
  have p98 : ¬(opcode = 0xE1) := by rintro rfl; exact hn (by decide)
  have p99 : ¬(opcode = 0xE2) := by rintro rfl; exact hn (by decide)
  have p100 : ¬(opcode = 0xE3) := by rintro rfl; exact hn (by decide)
  have p101 : ¬(opcode = 0xE4) := by rintro rfl; exact hn (by decide)
  have p102 : ¬(opcode = 0xE5) := by rintro rfl; exact hn (by decide)
  have p103 : ¬(opcode = 0xE6) := by rintro rfl; exact hn (by decide)
  have p104 : ¬(opcode = 0xE7) := by rintro rfl; exact hn (by decide)
  have p105 : ¬(opcode = 0xE8) := by rintro rfl; exact hn (by decide)
  have p106 : ¬(opcode = 0xE9) := by rintro rfl; exact hn (by decide)
  have p107 : ¬(opcode = 0xEA) := by rintro rfl; exact hn (by decide)
  have p108 : ¬(opcode = 0xF0) := by rintro rfl; exact hn (by decide)
  have p109 : ¬(opcode = 0xF1) := by rintro rfl; exact hn (by decide)
  have p110 : ¬(opcode = 0xF2) := by rintro rfl; exact hn (by decide)
  have p111 : ¬(opcode = 0xF3) := by rintro rfl; exact hn (by decide)
  delta Micro16.exec_instr.match_1
  simp only [dif_neg p1,
    dif_neg p2,
    dif_neg p3,
    dif_neg p4,
    dif_neg p5,
    dif_neg p6,
    dif_neg p7,
    dif_neg p8,
    dif_neg p9,
    dif_neg p10,
    dif_neg p11,
    dif_neg p12,
    dif_neg p13,
    dif_neg p14,
    dif_neg p15,
    dif_neg p16,
    dif_neg p17,
    dif_neg p18,
    dif_neg p19,
    dif_neg p20,
    dif_neg p21,
    dif_neg p22,
    dif_neg p23,
    dif_neg p24,
    dif_neg p25,
    dif_neg p26,
    dif_neg p27,
    dif_neg p28,
    dif_neg p29,
    dif_neg p30,
    dif_neg p31,
    dif_neg p32,
    dif_neg p33,
    dif_neg p34,
    dif_neg p35,
    dif_neg p36,
    dif_neg p37,
    dif_neg p38,
    dif_neg p39,
    dif_neg p40,
    dif_neg p41,
    dif_neg p42,
    dif_neg p43,
    dif_neg p44,
    dif_neg p45,
    dif_neg p46,
    dif_neg p47,
    dif_neg p48,
    dif_neg p49,
    dif_neg p50,
    dif_neg p51,
    dif_neg p52,
    dif_neg p53,
    dif_neg p54,
    dif_neg p55,
    dif_neg p56,
    dif_neg p57,
    dif_neg p58,
    dif_neg p59,
    dif_neg p60,
    dif_neg p61,
    dif_neg p62,
    dif_neg p63,
    dif_neg p64,
    dif_neg p65,
    dif_neg p66,
    dif_neg p67,
    dif_neg p68,
    dif_neg p69,
    dif_neg p70,
    dif_neg p71,
    dif_neg p72,
    dif_neg p73,
    dif_neg p74,
    dif_neg p75,
    dif_neg p76,
    dif_neg p77,
    dif_neg p78,
    dif_neg p79,
    dif_neg p80,
    dif_neg p81,
    dif_neg p82,
    dif_neg p83,
    dif_neg p84,
    dif_neg p85,
    dif_neg p86,
    dif_neg p87,
    dif_neg p88,
    dif_neg p89,
    dif_neg p90,
    dif_neg p91,
    dif_neg p92,
    dif_neg p93,
    dif_neg p94,
    dif_neg p95,
    dif_neg p96,
    dif_neg p97,
    dif_neg p98,
    dif_neg p99,
    dif_neg p100,
    dif_neg p101,
    dif_neg p102,
    dif_neg p103,
    dif_neg p104,
    dif_neg p105,
    dif_neg p106,
    dif_neg p107,
    dif_neg p108,
    dif_neg p109,
    dif_neg p110,
    dif_neg p111]

/-- C7: an opcode byte outside the instruction set drives the dispatch
into the default case: the Errored and Halted bits are set together in
that same step and the diagnostic records the opcode value and the
address it was fetched from (PC-1 on the 16-bit CPU, with its physical
address; PC-2 on the 4-bit CPU, whose instructions are two bytes). -/
theorem claim_unknown_opcode_fatal (cpu16 : Micro16.CPU) (cpu4 : Micro4.CPU)
    (op16 op4 opr cyc16 cyc4 : Nat)
    (h16 : op16 ∉ validOpcodes16)
    (h4 : op4 ∉ validOpcodes4) :
    Micro16.exec_instr cpu16 op16 cyc16 =
      ({ cpu16 with
          error := true,
          error_msg := .unknownOpcode op16 (Micro16.segr cpu16 0)
            ((cpu16.pc + 65535) % 65536)
            (Micro16.seg_offset_to_phys (cpu16.seg 0)
              ((cpu16.pc + 65535) % 65536)),
          halted := true }, cyc16, false) ∧
    Micro4.exec cpu4 op4 opr cyc4 =
      ({ cpu4 with error := true,
                   error_msg := .unknownOpcode op4 ((cpu4.pc + 254) % 256),
                   halted := true }, cyc4, false) := by
  constructor
  · exact exec_instr_match_default op16 h16
  · unfold Micro4.exec
    split
    all_goals first
      | exact absurd (by decide) h4
      | rfl

/-- Witness for C7: opcode 0x03 (absent from the 16-bit switch) and
high nibble 9 (absent from the 4-bit switch). -/
theorem claim_unknown_opcode_fatal_witness :
    (0x03 : Nat) ∉ validOpcodes16 ∧ (9 : Nat) ∉ validOpcodes4 ∧
    Micro16.exec_instr m16ex 0x03 0 =
      ({ m16ex with
          error := true,
          error_msg := .unknownOpcode 0x03 (Micro16.segr m16ex 0)
            ((m16ex.pc + 65535) % 65536)
            (Micro16.seg_offset_to_phys (m16ex.seg 0)
              ((m16ex.pc + 65535) % 65536)),
          halted := true }, 0, false) :=
  ⟨by decide, by decide,
   (claim_unknown_opcode_fatal m16ex m4ex 0x03 9 0 0 0
     (by decide) (by decide)).1⟩

/-! ## C4: INC/DEC preserve the carry flag -/

/-- Reading back the flag just set by `cpu_set_flag`. -/
theorem cpu_get_flag_set_flag_same (c : Micro16.CPU) (k : Nat) (v : Bool)
    (hk : k < 16) :
    Micro16.cpu_get_flag (Micro16.cpu_set_flag c (2 ^ k) v) (2 ^ k) = v := by
  unfold Micro16.cpu_get_flag Micro16.cpu_set_flag
  cases v
  · have hx : (c.flags % 65536 &&& (0xFFFF ^^^ 2 ^ k)) &&& 2 ^ k = 0 := by
      rw [Nat.and_two_pow]
      have hb : (c.flags % 65536 &&& (0xFFFF ^^^ 2 ^ k)).testBit k = false := by
        rw [Nat.testBit_and, Nat.testBit_xor,
          show (0xFFFF : Nat) = 2 ^ 16 - 1 from by norm_num,
          Nat.testBit_two_pow_sub_one, Nat.testBit_two_pow]
        simp [hk]
      rw [hb]
      simp
    rw [if_neg (by simp)]
    dsimp only
    rw [hx]
    decide
  · have hx : (c.flags % 65536 ||| 2 ^ k) &&& 2 ^ k = 2 ^ k := by
      rw [Nat.and_two_pow]
      have hb : (c.flags % 65536 ||| 2 ^ k).testBit k = true := by
        rw [Nat.testBit_or, Nat.testBit_two_pow]
        simp
      rw [hb]
      simp
    rw [if_pos rfl]
    dsimp only
    rw [hx]
    simp [(pow_pos (show (0 : ℕ) < 2 from by norm_num) k).ne']

/-- `cpu_set_flag` on one bit leaves every other flag bit alone. -/
theorem cpu_get_flag_set_flag_other (c : Micro16.CPU) (j k : Nat) (v : Bool)
    (hk : k < 16) (hjk : j ≠ k) :
    Micro16.cpu_get_flag (Micro16.cpu_set_flag c (2 ^ j) v) (2 ^ k) =
      Micro16.cpu_get_flag c (2 ^ k) := by
  unfold Micro16.cpu_get_flag Micro16.cpu_set_flag
  cases v
  · have hx : (c.flags % 65536 &&& (0xFFFF ^^^ 2 ^ j)) &&& 2 ^ k =
        c.flags &&& 2 ^ k := by
      rw [Nat.and_two_pow, Nat.and_two_pow]
      have hb : (c.flags % 65536 &&& (0xFFFF ^^^ 2 ^ j)).testBit k =
          c.flags.testBit k := by
        rw [Nat.testBit_and, Nat.testBit_xor,
          show (0xFFFF : Nat) = 2 ^ 16 - 1 from by norm_num,
          Nat.testBit_two_pow_sub_one, Nat.testBit_two_pow,
          show (65536 : Nat) = 2 ^ 16 from by norm_num,
          Nat.testBit_mod_two_pow]
        simp [hk, hjk]
      rw [hb]
    rw [if_neg (by simp)]
    dsimp only
    rw [hx]
  · have hx : (c.flags % 65536 ||| 2 ^ j) &&& 2 ^ k = c.flags &&& 2 ^ k := by
      rw [Nat.and_two_pow, Nat.and_two_pow]
      have hb : (c.flags % 65536 ||| 2 ^ j).testBit k = c.flags.testBit k := by
        rw [Nat.testBit_or, Nat.testBit_two_pow,
          show (65536 : Nat) = 2 ^ 16 from by norm_num,
          Nat.testBit_mod_two_pow]
        simp [hk, hjk]
      rw [hb]
    rw [if_pos rfl]
    dsimp only
    rw [hx]

/-- Fetching never touches the flags (even on an out-of-range PC). -/
theorem fetch_byte_flags (c : Micro16.CPU) :
    (Micro16.fetch_byte c).1.flags = c.flags := by
  unfold Micro16.fetch_byte Micro16.cpu_read_byte Micro16.cpu_read_phys_byte
  dsimp only
  split <;> rfl

/-- Reading back the register just written by `set_r`. -/
theorem reg_set_r_same (c : Micro16.CPU) (i v : Nat) :
    Micro16.reg (Micro16.set_r c i v) i = v % 65536 := by
  unfold Micro16.reg Micro16.set_r
  dsimp only
  rw [Function.update_same]
  simp

/-- Bit 0 survives OR with an even mask. -/
theorem and_one_or_even (x m : Nat) (hm : m % 2 = 0) :
    (x ||| m) &&& 1 = x &&& 1 := by
  rw [show (1 : Nat) = 2 ^ 0 from rfl, Nat.and_two_pow, Nat.and_two_pow]
  have hb : (x ||| m).testBit 0 = x.testBit 0 := by
    simp [Nat.testBit_or, Nat.testBit_zero, hm]
  rw [hb]

/-- Bit 0 survives AND with an odd mask. -/
theorem and_one_and_odd (x m : Nat) (hm : m % 2 = 1) :
    (x &&& m) &&& 1 = x &&& 1 := by
  rw [show (1 : Nat) = 2 ^ 0 from rfl, Nat.and_two_pow, Nat.and_two_pow]
  have hb : (x &&& m).testBit 0 = x.testBit 0 := by
    simp [Nat.testBit_and, Nat.testBit_zero, hm]
  rw [hb]

/-- Bit 0 survives truncation to a byte. -/
theorem and_one_mod_256 (x : Nat) : (x % 256) &&& 1 = x &&& 1 := by
  rw [show (1 : Nat) = 2 ^ 0 from rfl, Nat.and_two_pow, Nat.and_two_pow]
  have hb : (x % 256).testBit 0 = x.testBit 0 := by
    rw [show (256 : Nat) = 2 ^ 8 from by norm_num, Nat.testBit_mod_two_pow]
    simp
  rw [hb]

theorem c8or64 (x : Nat) : (x ||| 64) &&& 1 = x &&& 1 := and_one_or_even x 64 rfl

theorem c8or128 (x : Nat) : (x ||| 128) &&& 1 = x &&& 1 := and_one_or_even x 128 rfl

theorem c8or4 (x : Nat) : (x ||| 4) &&& 1 = x &&& 1 := and_one_or_even x 4 rfl

theorem c8and191 (x : Nat) : (x &&& 191) &&& 1 = x &&& 1 := and_one_and_odd x 191 rfl

theorem c8and127 (x : Nat) : (x &&& 127) &&& 1 = x &&& 1 := and_one_and_odd x 127 rfl

theorem c8and251 (x : Nat) : (x &&& 251) &&& 1 = x &&& 1 := and_one_and_odd x 251 rfl

set_option maxHeartbeats 1000000 in
/-- The 8-bit INC (0x70-0x77) and DEC (0x78-0x7F) never change the
carry bit, for every prior flags value. -/
theorem micro8_inc_dec_preserves_carry (cpu : Micro8.CPU) (op cyc : Nat)
    (h1 : 0x70 ≤ op) (h2 : op ≤ 0x7F) :
    (Micro8.exec cpu op cyc).1.flags &&& Micro8.FLAG_C =
      cpu.flags &&& Micro8.FLAG_C := by
  unfold Micro8.exec
  rw [if_neg (by omega)]
  rw [if_neg (by omega)]
  rw [if_neg (by omega)]
  rw [if_neg (by omega)]
  rw [if_neg (by omega)]
  rw [if_neg (by omega)]
  rw [if_neg (by omega)]
  rw [if_neg (by omega)]
  rw [if_neg (by omega)]
  rw [if_neg (by omega)]
  rw [if_neg (by omega)]
  rw [if_neg (by omega)]
  rw [if_neg (by omega)]
  rw [if_neg (by omega)]
  rw [if_neg (by omega)]
  rw [if_neg (by omega)]
  rw [if_neg (by omega)]
  rw [if_neg (by omega)]
  rw [if_neg (by omega)]
  rw [if_neg (by omega)]
  rw [if_neg (by omega)]
  rw [if_neg (by omega)]
  rw [if_neg (by omega)]
  rw [if_neg (by omega)]
  rw [if_neg (by omega)]
  rw [if_neg (by omega)]
  rw [if_neg (by omega)]
  rw [if_neg (by omega)]
  rw [if_neg (by omega)]
  rw [if_neg (by omega)]
  rw [if_neg (by omega)]
  by_cases hop : op ≤ 0x77
  · rw [if_pos (show 0x70 ≤ op ∧ op ≤ 0x77 from by omega)]
    dsimp only
    simp only [Micro8.update_flags_zs, Micro8.set_r, Micro8.FLAG_C,
      Micro8.FLAG_Z, Micro8.FLAG_S, Micro8.FLAG_O]
    split_ifs <;>
      simp only [show (0xFF : Nat) ^^^ 64 = 191 from by decide,
        show (0xFF : Nat) ^^^ 128 = 127 from by decide,
        show (0xFF : Nat) ^^^ 4 = 251 from by decide,
        c8or64, c8or128, c8or4, c8and191, c8and127, c8and251,
        and_one_mod_256]
  · rw [if_neg (by omega)]
    rw [if_pos (show 0x78 ≤ op ∧ op ≤ 0x7F from by omega)]
    dsimp only
    simp only [Micro8.update_flags_zs, Micro8.set_r, Micro8.FLAG_C,
      Micro8.FLAG_Z, Micro8.FLAG_S, Micro8.FLAG_O]
    split_ifs <;>
      simp only [show (0xFF : Nat) ^^^ 64 = 191 from by decide,
        show (0xFF : Nat) ^^^ 128 = 127 from by decide,
        show (0xFF : Nat) ^^^ 4 = 251 from by decide,
        c8or64, c8or128, c8or4, c8and191, c8and127, c8and251,
        and_one_mod_256]

/-- `set_r` does not touch the flags. -/
theorem get_flag_set_r (X : Micro16.CPU) (i v flag : Nat) :
    Micro16.cpu_get_flag (Micro16.set_r X i v) flag =
      Micro16.cpu_get_flag X flag := rfl

/-- Restoring C leaves Z alone. -/
theorem get_setC_Z (X : Micro16.CPU) (v : Bool) :
    Micro16.cpu_get_flag (Micro16.cpu_set_flag X Micro16.FLAG_C v)
      Micro16.FLAG_Z = Micro16.cpu_get_flag X Micro16.FLAG_Z :=
  cpu_get_flag_set_flag_other X 0 1 v (by norm_num) (by norm_num)

/-- Restoring C leaves S alone. -/
theorem get_setC_S (X : Micro16.CPU) (v : Bool) :
    Micro16.cpu_get_flag (Micro16.cpu_set_flag X Micro16.FLAG_C v)
      Micro16.FLAG_S = Micro16.cpu_get_flag X Micro16.FLAG_S :=
  cpu_get_flag_set_flag_other X 0 2 v (by norm_num) (by norm_num)

/-- Restoring C leaves O alone. -/
theorem get_setC_O (X : Micro16.CPU) (v : Bool) :
    Micro16.cpu_get_flag (Micro16.cpu_set_flag X Micro16.FLAG_C v)
      Micro16.FLAG_O = Micro16.cpu_get_flag X Micro16.FLAG_O :=
  cpu_get_flag_set_flag_other X 0 3 v (by norm_num) (by norm_num)

/-- Restoring C leaves P alone. -/
theorem get_setC_P (X : Micro16.CPU) (v : Bool) :
    Micro16.cpu_get_flag (Micro16.cpu_set_flag X Micro16.FLAG_C v)
      Micro16.FLAG_P = Micro16.cpu_get_flag X Micro16.FLAG_P :=
  cpu_get_flag_set_flag_other X 0 7 v (by norm_num) (by norm_num)

/-- Reading C back after restoring it. -/
theorem get_setC_C (X : Micro16.CPU) (v : Bool) :
    Micro16.cpu_get_flag (Micro16.cpu_set_flag X Micro16.FLAG_C v)
      Micro16.FLAG_C = v :=
  cpu_get_flag_set_flag_same X 0 v (by norm_num)

/-- C4: the 16-bit INC (0x5B) and DEC (0x5C) set Z/S/O/P exactly as the
add-by-1 / subtract-by-1 flag updates would while the carry flag keeps
its pre-instruction value; the 8-bit INC/DEC ranges never change the
carry bit; and the concrete 8-bit program `LDI R0,#0xFF / INC R0` ends
with R0 = 0, the Zero flag set, and the carry flag equal to either
prior value `c8`. -/
theorem claim_inc_dec_preserve_carry (cpu : Micro16.CPU) (cycles : Nat)
    (c8 : Bool) :
    (Micro16.cpu_get_flag (Micro16.exec_instr cpu 0x5B cycles).1 Micro16.FLAG_Z =
      Micro16.cpu_get_flag (Micro16.update_flags_add16 (Micro16.fetch_byte cpu).1 (Micro16.reg (Micro16.fetch_byte cpu).1 ((Micro16.fetch_byte cpu).2 &&& 0x07)) 1 (Micro16.reg (Micro16.fetch_byte cpu).1 ((Micro16.fetch_byte cpu).2 &&& 0x07) + 1)) Micro16.FLAG_Z ∧
    Micro16.cpu_get_flag (Micro16.exec_instr cpu 0x5B cycles).1 Micro16.FLAG_S =
      Micro16.cpu_get_flag (Micro16.update_flags_add16 (Micro16.fetch_byte cpu).1 (Micro16.reg (Micro16.fetch_byte cpu).1 ((Micro16.fetch_byte cpu).2 &&& 0x07)) 1 (Micro16.reg (Micro16.fetch_byte cpu).1 ((Micro16.fetch_byte cpu).2 &&& 0x07) + 1)) Micro16.FLAG_S ∧
    Micro16.cpu_get_flag (Micro16.exec_instr cpu 0x5B cycles).1 Micro16.FLAG_O =
      Micro16.cpu_get_flag (Micro16.update_flags_add16 (Micro16.fetch_byte cpu).1 (Micro16.reg (Micro16.fetch_byte cpu).1 ((Micro16.fetch_byte cpu).2 &&& 0x07)) 1 (Micro16.reg (Micro16.fetch_byte cpu).1 ((Micro16.fetch_byte cpu).2 &&& 0x07) + 1)) Micro16.FLAG_O ∧
    Micro16.cpu_get_flag (Micro16.exec_instr cpu 0x5B cycles).1 Micro16.FLAG_P =
      Micro16.cpu_get_flag (Micro16.update_flags_add16 (Micro16.fetch_byte cpu).1 (Micro16.reg (Micro16.fetch_byte cpu).1 ((Micro16.fetch_byte cpu).2 &&& 0x07)) 1 (Micro16.reg (Micro16.fetch_byte cpu).1 ((Micro16.fetch_byte cpu).2 &&& 0x07) + 1)) Micro16.FLAG_P ∧
    Micro16.cpu_get_flag (Micro16.exec_instr cpu 0x5B cycles).1 Micro16.FLAG_C =
      Micro16.cpu_get_flag cpu Micro16.FLAG_C ∧
    Micro16.reg (Micro16.exec_instr cpu 0x5B cycles).1 ((Micro16.fetch_byte cpu).2 &&& 0x07) = (Micro16.reg (Micro16.fetch_byte cpu).1 ((Micro16.fetch_byte cpu).2 &&& 0x07) + 1) % 65536) ∧
    (Micro16.cpu_get_flag (Micro16.exec_instr cpu 0x5C cycles).1 Micro16.FLAG_Z =
      Micro16.cpu_get_flag (Micro16.update_flags_sub16 (Micro16.fetch_byte cpu).1 (Micro16.reg (Micro16.fetch_byte cpu).1 ((Micro16.fetch_byte cpu).2 &&& 0x07)) 1 (Micro16.sub32 (Micro16.reg (Micro16.fetch_byte cpu).1 ((Micro16.fetch_byte cpu).2 &&& 0x07)) 1)) Micro16.FLAG_Z ∧
    Micro16.cpu_get_flag (Micro16.exec_instr cpu 0x5C cycles).1 Micro16.FLAG_S =
      Micro16.cpu_get_flag (Micro16.update_flags_sub16 (Micro16.fetch_byte cpu).1 (Micro16.reg (Micro16.fetch_byte cpu).1 ((Micro16.fetch_byte cpu).2 &&& 0x07)) 1 (Micro16.sub32 (Micro16.reg (Micro16.fetch_byte cpu).1 ((Micro16.fetch_byte cpu).2 &&& 0x07)) 1)) Micro16.FLAG_S ∧
    Micro16.cpu_get_flag (Micro16.exec_instr cpu 0x5C cycles).1 Micro16.FLAG_O =
      Micro16.cpu_get_flag (Micro16.update_flags_sub16 (Micro16.fetch_byte cpu).1 (Micro16.reg (Micro16.fetch_byte cpu).1 ((Micro16.fetch_byte cpu).2 &&& 0x07)) 1 (Micro16.sub32 (Micro16.reg (Micro16.fetch_byte cpu).1 ((Micro16.fetch_byte cpu).2 &&& 0x07)) 1)) Micro16.FLAG_O ∧
    Micro16.cpu_get_flag (Micro16.exec_instr cpu 0x5C cycles).1 Micro16.FLAG_P =
      Micro16.cpu_get_flag (Micro16.update_flags_sub16 (Micro16.fetch_byte cpu).1 (Micro16.reg (Micro16.fetch_byte cpu).1 ((Micro16.fetch_byte cpu).2 &&& 0x07)) 1 (Micro16.sub32 (Micro16.reg (Micro16.fetch_byte cpu).1 ((Micro16.fetch_byte cpu).2 &&& 0x07)) 1)) Micro16.FLAG_P ∧
    Micro16.cpu_get_flag (Micro16.exec_instr cpu 0x5C cycles).1 Micro16.FLAG_C =
      Micro16.cpu_get_flag cpu Micro16.FLAG_C ∧
    Micro16.reg (Micro16.exec_instr cpu 0x5C cycles).1 ((Micro16.fetch_byte cpu).2 &&& 0x07) = Micro16.sub32 (Micro16.reg (Micro16.fetch_byte cpu).1 ((Micro16.fetch_byte cpu).2 &&& 0x07)) 1 % 65536) ∧
    (∀ (m8 : Micro8.CPU) (op cyc : Nat), 0x70 ≤ op → op ≤ 0x7F →
      (Micro8.exec m8 op cyc).1.flags &&& Micro8.FLAG_C =
        m8.flags &&& Micro8.FLAG_C) ∧
    (Micro8.reg (Micro8.cpu_step (Micro8.cpu_step ({ m8ex with flags := if c8 then 1 else 0, memory := fun a => if a = 0x200 then 0x06 else if a = 0x201 then 0xFF else if a = 0x202 then 0x70 else 0 } : Micro8.CPU)).1).1 0 = 0 ∧
     (Micro8.cpu_step (Micro8.cpu_step ({ m8ex with flags := if c8 then 1 else 0, memory := fun a => if a = 0x200 then 0x06 else if a = 0x201 then 0xFF else if a = 0x202 then 0x70 else 0 } : Micro8.CPU)).1).1.flags &&& Micro8.FLAG_Z ≠ 0 ∧
     (Micro8.cpu_step (Micro8.cpu_step ({ m8ex with flags := if c8 then 1 else 0, memory := fun a => if a = 0x200 then 0x06 else if a = 0x201 then 0xFF else if a = 0x202 then 0x70 else 0 } : Micro8.CPU)).1).1.flags &&& Micro8.FLAG_C =
       ({ m8ex with flags := if c8 then 1 else 0, memory := fun a => if a = 0x200 then 0x06 else if a = 0x201 then 0xFF else if a = 0x202 then 0x70 else 0 } : Micro8.CPU).flags &&& Micro8.FLAG_C) := by
  have h5B : Micro16.exec_instr cpu 0x5B cycles = (Micro16.set_r (Micro16.cpu_set_flag (Micro16.update_flags_add16 (Micro16.fetch_byte cpu).1 (Micro16.reg (Micro16.fetch_byte cpu).1 ((Micro16.fetch_byte cpu).2 &&& 0x07)) 1 (Micro16.reg (Micro16.fetch_byte cpu).1 ((Micro16.fetch_byte cpu).2 &&& 0x07) + 1)) Micro16.FLAG_C (Micro16.cpu_get_flag (Micro16.fetch_byte cpu).1 Micro16.FLAG_C)) ((Micro16.fetch_byte cpu).2 &&& 0x07) (Micro16.reg (Micro16.fetch_byte cpu).1 ((Micro16.fetch_byte cpu).2 &&& 0x07) + 1), cycles + 1, true) := rfl
  have h5C : Micro16.exec_instr cpu 0x5C cycles = (Micro16.set_r (Micro16.cpu_set_flag (Micro16.update_flags_sub16 (Micro16.fetch_byte cpu).1 (Micro16.reg (Micro16.fetch_byte cpu).1 ((Micro16.fetch_byte cpu).2 &&& 0x07)) 1 (Micro16.sub32 (Micro16.reg (Micro16.fetch_byte cpu).1 ((Micro16.fetch_byte cpu).2 &&& 0x07)) 1)) Micro16.FLAG_C (Micro16.cpu_get_flag (Micro16.fetch_byte cpu).1 Micro16.FLAG_C)) ((Micro16.fetch_byte cpu).2 &&& 0x07) (Micro16.sub32 (Micro16.reg (Micro16.fetch_byte cpu).1 ((Micro16.fetch_byte cpu).2 &&& 0x07)) 1), cycles + 1, true) := rfl
  refine ⟨⟨?_, ?_, ?_, ?_, ?_, ?_⟩, ⟨?_, ?_, ?_, ?_, ?_, ?_⟩,
    fun m8 op cyc ho1 ho2 => micro8_inc_dec_preserves_carry m8 op cyc ho1 ho2,
    ?_, ?_, ?_⟩
  · rw [h5B]
    dsimp only
    simp only [get_flag_set_r, get_setC_Z]
  · rw [h5B]
    dsimp only
    simp only [get_flag_set_r, get_setC_S]
  · rw [h5B]
    dsimp only
    simp only [get_flag_set_r, get_setC_O]
  · rw [h5B]
    dsimp only
    simp only [get_flag_set_r, get_setC_P]
  · rw [h5B]
    dsimp only
    simp only [get_flag_set_r, get_setC_C]
    unfold Micro16.cpu_get_flag
    rw [fetch_byte_flags]
  · rw [h5B]
    dsimp only
    exact reg_set_r_same _ _ _
  · rw [h5C]
    dsimp only
    simp only [get_flag_set_r, get_setC_Z]
  · rw [h5C]
    dsimp only
    simp only [get_flag_set_r, get_setC_S]
  · rw [h5C]
    dsimp only
    simp only [get_flag_set_r, get_setC_O]
  · rw [h5C]
    dsimp only
    simp only [get_flag_set_r, get_setC_P]
  · rw [h5C]
    dsimp only
    simp only [get_flag_set_r, get_setC_C]
    unfold Micro16.cpu_get_flag
    rw [fetch_byte_flags]
  · rw [h5C]
    dsimp only
    exact reg_set_r_same _ _ _
  · cases c8 <;> decide
  · cases c8 <;> decide
  · cases c8 <;> decide

/-! ## C3: ADD carry/overflow flags (corrected: the 4-bit CPU has only Z) -/

/-- ORing a bit in guarantees that bit. -/
theorem or_pow_and_pow_self (x k : Nat) : (x ||| 2 ^ k) &&& 2 ^ k = 2 ^ k := by
  rw [Nat.and_two_pow]
  have hb : (x ||| 2 ^ k).testBit k = true := by
    simp [Nat.testBit_or, Nat.testBit_two_pow]
  rw [hb]
  simp

/-- ANDing a mask with bit `k` clear kills bit `k`. -/
theorem and_mask_and_pow_zero (x m k : Nat) (hm : m.testBit k = false) :
    (x &&& m) &&& 2 ^ k = 0 := by
  rw [Nat.and_two_pow]
  have hb : (x &&& m).testBit k = false := by simp [Nat.testBit_and, hm]
  rw [hb]
  simp

/-- ORing a mask with bit `k` clear leaves bit `k` alone. -/
theorem or_mask_and_pow (x m k : Nat) (hm : m.testBit k = false) :
    (x ||| m) &&& 2 ^ k = x &&& 2 ^ k := by
  rw [Nat.and_two_pow, Nat.and_two_pow]
  have hb : (x ||| m).testBit k = x.testBit k := by simp [Nat.testBit_or, hm]
  rw [hb]

theorem c8or1 (x : Nat) : (x ||| 1) &&& 1 = 1 := or_pow_and_pow_self x 0

theorem c8and254 (x : Nat) : (x &&& 254) &&& 1 = 0 :=
  and_mask_and_pow_zero x 254 0 (by decide)

theorem c8or4self (x : Nat) : (x ||| 4) &&& 4 = 4 := or_pow_and_pow_self x 2

theorem c8and251at4 (x : Nat) : (x &&& 251) &&& 4 = 0 :=
  and_mask_and_pow_zero x 251 2 (by decide)

/-- Setting O leaves C alone. -/
theorem get_setO_C (X : Micro16.CPU) (v : Bool) :
    Micro16.cpu_get_flag (Micro16.cpu_set_flag X Micro16.FLAG_O v)
      Micro16.FLAG_C = Micro16.cpu_get_flag X Micro16.FLAG_C :=
  cpu_get_flag_set_flag_other X 3 0 v (by norm_num) (by norm_num)

/-- Reading O back after setting it. -/
theorem get_setO_O (X : Micro16.CPU) (v : Bool) :
    Micro16.cpu_get_flag (Micro16.cpu_set_flag X Micro16.FLAG_O v)
      Micro16.FLAG_O = v :=
  cpu_get_flag_set_flag_same X 3 v (by norm_num)

/-- C3 (amended): on the 16- and 8-bit CPUs the ADD flag update sets
Carry iff the unsigned unwidened sum exceeds the width's maximum and
Overflow iff the two's-complement sign test fires; the rule is NOT
uniform across all three variants, because the 4-bit ADD wraps modulo
16 and writes only the accumulator and the Zero flag — the 4-bit CPU
has no Carry or Overflow flag to set. -/
theorem claim_add_carry_overflow_flags (cpu : Micro16.CPU) (m8 : Micro8.CPU)
    (c4 : Micro4.CPU) (a b a8 b8 opr cyc : Nat)
    (ha : a < 65536) (hb : b < 65536) (ha8 : a8 < 256) (hb8 : b8 < 256) :
    (Micro16.cpu_get_flag (Micro16.update_flags_add16 cpu a b (a + b))
        Micro16.FLAG_C = true ↔ 65535 < a + b) ∧
    (Micro16.cpu_get_flag (Micro16.update_flags_add16 cpu a b (a + b))
        Micro16.FLAG_O = true ↔
      (a ^^^ (a + b) % 65536) &&& (b ^^^ (a + b) % 65536) &&& 0x8000 ≠ 0) ∧
    ((Micro8.update_flags_add m8 a8 b8 (a8 + b8)).flags &&&
        Micro8.FLAG_C ≠ 0 ↔ 255 < a8 + b8) ∧
    ((Micro8.update_flags_add m8 a8 b8 (a8 + b8)).flags &&&
        Micro8.FLAG_O ≠ 0 ↔
      (a8 ^^^ (a8 + b8) % 256) &&& (b8 ^^^ (a8 + b8) % 256) &&& 0x80 ≠ 0) ∧
    (Micro4.exec c4 0x3 opr cyc).1.a = (c4.a % 16 + c4.memory ((Micro4.fetch_byte c4).2 % 256) % 16) % 16 ∧
    (Micro4.exec c4 0x3 opr cyc).1.z = decide ((c4.a % 16 + c4.memory ((Micro4.fetch_byte c4).2 % 256) % 16) % 16 = 0) := by
  have e16 : Micro16.update_flags_add16 cpu a b (a + b) =
      Micro16.cpu_set_flag (Micro16.cpu_set_flag (Micro16.update_flag_p (Micro16.update_flags_zs cpu ((a + b) % 4294967296 % 65536)) ((a + b) % 4294967296 % 65536))
        Micro16.FLAG_C (decide (0xFFFF < (a + b) % 4294967296))) Micro16.FLAG_O (decide ((a % 65536 ^^^ (a + b) % 4294967296 % 65536) &&& (b % 65536 ^^^ (a + b) % 4294967296 % 65536) &&& 0x8000 ≠ 0)) := rfl
  have e8 : Micro8.update_flags_add m8 a8 b8 (a8 + b8) =
      { Micro8.update_flags_zs m8 ((a8 + b8) % 65536 % 256) with flags := if (a8 % 256 ^^^ (a8 + b8) % 65536 % 256) &&& (b8 % 256 ^^^ (a8 + b8) % 65536 % 256) &&& 0x80 ≠ 0 then (if 0xFF < (a8 + b8) % 65536 then (Micro8.update_flags_zs m8 ((a8 + b8) % 65536 % 256)).flags ||| Micro8.FLAG_C else (Micro8.update_flags_zs m8 ((a8 + b8) % 65536 % 256)).flags &&& (0xFF ^^^ Micro8.FLAG_C)) ||| Micro8.FLAG_O
          else (if 0xFF < (a8 + b8) % 65536 then (Micro8.update_flags_zs m8 ((a8 + b8) % 65536 % 256)).flags ||| Micro8.FLAG_C else (Micro8.update_flags_zs m8 ((a8 + b8) % 65536 % 256)).flags &&& (0xFF ^^^ Micro8.FLAG_C)) &&& (0xFF ^^^ Micro8.FLAG_O) } := rfl
  refine ⟨?_, ?_, ?_, ?_, rfl, rfl⟩
  · rw [e16, get_setO_C, get_setC_C]
    simp only [decide_eq_true_eq]
    omega
  · rw [e16, get_setO_O]
    simp only [decide_eq_true_eq]
    rw [Nat.mod_eq_of_lt (show a + b < 4294967296 from by omega),
      Nat.mod_eq_of_lt ha, Nat.mod_eq_of_lt hb]
  · rw [e8]
    dsimp only
    simp only [Micro8.FLAG_C, Micro8.FLAG_O]
    rw [show (0xFF : Nat) ^^^ 1 = 254 from by decide,
      show (0xFF : Nat) ^^^ 4 = 251 from by decide]
    simp only [apply_ite (fun x => x &&& 1), c8or4, c8and251, c8or1, c8and254,
      ite_self]
    split_ifs with hc <;> omega
  · rw [e8]
    dsimp only
    simp only [Micro8.FLAG_C, Micro8.FLAG_O]
    rw [show (0xFF : Nat) ^^^ 1 = 254 from by decide,
      show (0xFF : Nat) ^^^ 4 = 251 from by decide]
    simp only [apply_ite (fun x => x &&& 4), c8or4self, c8and251at4]
    rw [Nat.mod_eq_of_lt (show a8 + b8 < 65536 from by omega),
      Nat.mod_eq_of_lt ha8, Nat.mod_eq_of_lt hb8]
    split_ifs with hO
    · exact iff_of_true (by norm_num) hO
    · exact iff_of_false (by norm_num) hO

/-- Counterexample for C3's uniformity: a 4-bit ADD with carry-out
(9 + 8) and one without (1 + 0) leave bit-for-bit identical flag state
(the Z flag, the only flag the 4-bit CPU has), so no Carry flag is set
as the claim requires. -/
theorem claim_add_flags_counterexample :
    15 < 9 + 8 ∧ ¬(15 < 1 + 0) ∧
    (Micro4.exec { m4ex with a := 9, memory := fun n => if n = 1 then 5 else if n = 5 then 8 else 0 } 0x3 0 2).1.a =
      (Micro4.exec { m4ex with a := 1, memory := fun n => if n = 1 then 5 else 0 } 0x3 0 2).1.a ∧
    (Micro4.exec { m4ex with a := 9, memory := fun n => if n = 1 then 5 else if n = 5 then 8 else 0 } 0x3 0 2).1.z =
      (Micro4.exec { m4ex with a := 1, memory := fun n => if n = 1 then 5 else 0 } 0x3 0 2).1.z := by
  refine ⟨by norm_num, by norm_num, ?_, ?_⟩ <;> decide

/-- Witness for C3's amended theorem: 40000 + 30000 carries out of 16
bits, 200 + 100 carries out of 8 bits. -/
theorem claim_add_carry_overflow_flags_witness :
    (40000 : Nat) < 65536 ∧ (30000 : Nat) < 65536 ∧
    (200 : Nat) < 256 ∧ (100 : Nat) < 256 ∧
    (Micro16.cpu_get_flag
        (Micro16.update_flags_add16 m16ex 40000 30000 (40000 + 30000))
        Micro16.FLAG_C = true ↔ 65535 < 40000 + 30000) :=
  ⟨by decide, by decide, by decide, by decide,
   (claim_add_carry_overflow_flags m16ex m8ex m4ex 40000 30000 200 100 0 0
     (by decide) (by decide) (by decide) (by decide)).1⟩

end DigArch
